import Mathlib

/-!
# Reference kernels of the nonbonded plugin

A shallow embedding of `platforms/reference/src/ReferenceExampleKernels.cpp`
(classes `ReferenceCalcNonbondedForceKernel` and `ReferenceCalcExampleForceKernel`) and
the properties of it that the specification states.

Conventions of the embedding.

* `double` values are elements of a linearly ordered field `R`; every theorem holds for
  all such `R`, and the concrete evaluations are carried out in `ℚ`.  Rounding is not
  modelled.  `sqrt` is a function supplied by the environment.
* `int` indices and counts are natural numbers.
* `std::vector` is `List`; `v[i] = x` is `List.set`, `v[i] += x` is `List.modify`.
* `std::set<int>` is a strictly increasing list, `std::map` a list of entries with
  strictly increasing keys; both are iterated in key order, as in C++.
* A member function that mutates the kernel becomes a function from the kernel before
  the call to the kernel after it.  A call that can throw returns an `Outcome`, which
  carries the state reached when the exception left the function.
* Collaborators whose source is not part of the translated files (the pair evaluators,
  the neighbour-list builder, the Ewald parameter selection, the dispersion coefficient)
  are fields of `Externals`; the theorems hold for every choice of them.
-/

namespace ExamplePlugin

/-! ## Containers and control flow -/

/-- Result of a call that may throw: either a returned value with the state after the
call, or the message of the exception with the state at the point of the throw. -/
inductive Outcome (σ α : Type) where
  | ok (value : α) (state : σ)
  | error (message : String) (state : σ)

/-- State carried by an outcome. -/
def Outcome.state {σ α : Type} : Outcome σ α → σ
  | .ok _ s => s
  | .error _ s => s

/-- Returned value, when the call returned. -/
def Outcome.value? {σ α : Type} : Outcome σ α → Option α
  | .ok a _ => some a
  | .error _ _ => none

/-- Whether the call threw. -/
def Outcome.failed {σ α : Type} : Outcome σ α → Bool
  | .ok _ _ => false
  | .error _ _ => true

/-- The loop `for (int i = 0; i < n; i++) body(i)` over a state `σ`. -/
def forLoop {σ : Type} (n : Nat) (body : Nat → σ → σ) (s : σ) : σ :=
  (List.range n).foldl (fun acc i => body i acc) s

/-- The call `v.resize(n, d)` of `std::vector`. -/
def resize {α : Type} (l : List α) (n : Nat) (d : α) : List α :=
  l.take n ++ List.replicate (n - l.length) d

/-- The call `s.insert(a)` of `std::set<int>`. -/
def setInsert (a : Nat) : List Nat → List Nat
  | [] => [a]
  | b :: l =>
    if a = b then b :: l
    else if a < b then a :: b :: l
    else b :: setInsert a l

/-- The assignment `m[k] = v` of `std::map`: overwrite the entry of an existing key,
otherwise insert at the key's place in the order. -/
def mapInsert {K V : Type} [LinearOrder K] (k : K) (v : V) : List (K × V) → List (K × V)
  | [] => [(k, v)]
  | (k0, w) :: m =>
    if k = k0 then (k, v) :: m
    else if k < k0 then (k, v) :: (k0, w) :: m
    else (k0, w) :: mapInsert k v m

/-- The read `m[k]` of a `std::map<int,int>`: the stored value, or the
value-initialised `0` when the key is absent. -/
def mapAt (m : List (Nat × Nat)) (k : Nat) : Nat :=
  match m.find? (fun e => e.1 == k) with
  | some e => e.2
  | none => 0

/-! ## Data model -/

/-- The six nonbonded methods (`CalcNonbondedForceKernel::NonbondedMethod`). -/
inductive NonbondedMethod where
  | NoCutoff
  | CutoffNonPeriodic
  | CutoffPeriodic
  | Ewald
  | PME
  | LJPME
  deriving DecidableEq, Repr

/-- A three-vector (`Vec3`, `RealVec`). -/
structure Vec3 (R : Type) where
  x : R
  y : R
  z : R

/-- The periodic box vectors `Vec3[3]`; `boxVectors[0][0]` is `a.x`, `boxVectors[1][1]`
is `b.y`, `boxVectors[2][2]` is `c.z`. -/
structure Box (R : Type) where
  a : Vec3 R
  b : Vec3 R
  c : Vec3 R

/-- What `getParticleParameters` returns. -/
structure ParticleParameters (R : Type) where
  charge : R
  sigma : R
  epsilon : R

/-- What `getExceptionParameters` returns. -/
structure ExceptionParameters (R : Type) where
  particle1 : Nat
  particle2 : Nat
  chargeProd : R
  sigma : R
  epsilon : R

/-- What `getParticleParameterOffset` and `getExceptionParameterOffset` return: the
global parameter's name, the target index, and the three per-unit deltas. -/
structure ParameterOffset (R : Type) where
  param : String
  index : Nat
  charge : R
  sigma : R
  epsilon : R

/-- Modelled from the spec: the force definition `NonbondedForce`, whose class is not
among the translated sources; its content is the initialize contract of the
specification (particles, exception list, global-parameter offsets, method, cutoff,
switching, reaction-field dielectric, Ewald tolerance, periodic-exceptions flag,
dispersion-correction flag). -/
structure NonbondedForce (R : Type) where
  particles : List (ParticleParameters R)
  exceptions : List (ExceptionParameters R)
  particleParameterOffsets : List (ParameterOffset R)
  exceptionParameterOffsets : List (ParameterOffset R)
  nonbondedMethod : NonbondedMethod
  cutoffDistance : R
  useSwitchingFunction : Bool
  switchingDistance : R
  reactionFieldDielectric : R
  ewaldErrorTolerance : R
  exceptionsUsePeriodicBoundaryConditions : Bool
  useDispersionCorrection : Bool

section Accessors

variable {R : Type} [LinearOrderedField R]

/-- Accessor `getNumParticles`. -/
def NonbondedForce.getNumParticles (force : NonbondedForce R) : Nat :=
  force.particles.length

/-- Accessor `getNumExceptions`. -/
def NonbondedForce.getNumExceptions (force : NonbondedForce R) : Nat :=
  force.exceptions.length

/-- Accessor `getNumParticleParameterOffsets`. -/
def NonbondedForce.getNumParticleParameterOffsets (force : NonbondedForce R) : Nat :=
  force.particleParameterOffsets.length

/-- Accessor `getNumExceptionParameterOffsets`. -/
def NonbondedForce.getNumExceptionParameterOffsets (force : NonbondedForce R) : Nat :=
  force.exceptionParameterOffsets.length

/-- Accessor `getParticleParameters(i, ...)`. -/
def NonbondedForce.getParticleParameters (force : NonbondedForce R) (i : Nat) :
    ParticleParameters R :=
  force.particles.getD i ⟨0, 0, 0⟩

/-- Accessor `getExceptionParameters(i, ...)`. -/
def NonbondedForce.getExceptionParameters (force : NonbondedForce R) (i : Nat) :
    ExceptionParameters R :=
  force.exceptions.getD i ⟨0, 0, 0, 0, 0⟩

/-- Accessor `getParticleParameterOffset(i, ...)`. -/
def NonbondedForce.getParticleParameterOffset (force : NonbondedForce R) (i : Nat) :
    ParameterOffset R :=
  force.particleParameterOffsets.getD i ⟨"", 0, 0, 0, 0⟩

/-- Accessor `getExceptionParameterOffset(i, ...)`. -/
def NonbondedForce.getExceptionParameterOffset (force : NonbondedForce R) (i : Nat) :
    ParameterOffset R :=
  force.exceptionParameterOffsets.getD i ⟨"", 0, 0, 0, 0⟩

end Accessors

/-- The neighbour list filled by `computeNeighborListVoxelHash`: candidate pairs. -/
abbrev NeighborList := List (Nat × Nat)

/-- Key of the offset maps, `std::pair<std::string, int>` in its lexicographic order. -/
abbrev OffsetKey := String ×ₗ Nat

/-- An offset map `std::map<std::pair<std::string,int>, std::array<double,3>>`. -/
abbrev OffsetMap (R : Type) := List (OffsetKey × (R × R × R))

/-- The data members of `ReferenceCalcNonbondedForceKernel`. -/
structure Kernel (R : Type) where
  numParticles : Nat
  num14 : Nat
  bonded14IndexArray : List (List Nat)
  particleParamArray : List (List R)
  bonded14ParamArray : List (List R)
  baseParticleParams : List (R × R × R)
  baseExceptionParams : List (R × R × R)
  particleParamOffsets : OffsetMap R
  exceptionParamOffsets : OffsetMap R
  nonbondedCutoff : R
  switchingDistance : R
  rfDielectric : R
  ewaldAlpha : R
  ewaldDispersionAlpha : R
  dispersionCoefficient : R
  kmax : Int × Int × Int
  gridSize : Int × Int × Int
  dispersionGridSize : Int × Int × Int
  useSwitchingFunction : Bool
  exceptionsArePeriodic : Bool
  exclusions : List (List Nat)
  nonbondedMethod : NonbondedMethod
  neighborList : Option NeighborList

/-- The kernel object right after construction: the constructor default-constructs the
containers (empty vectors and maps) and assigns nothing else, so every other member
holds whatever `uninit` holds. -/
def Kernel.constructed {R : Type} (uninit : Kernel R) : Kernel R :=
  { uninit with
    bonded14IndexArray := []
    particleParamArray := []
    bonded14ParamArray := []
    baseParticleParams := []
    baseExceptionParams := []
    particleParamOffsets := []
    exceptionParamOffsets := []
    exclusions := [] }

/-- The part of `ContextImpl` and of the platform data the kernel reads and writes: the
system, the positions, the force accumulators, the periodic box vectors and the current
values of the global parameters. -/
structure Context (S R : Type) where
  system : S
  positions : List (Vec3 R)
  forces : List (Vec3 R)
  periodicBoxVectors : Box R
  getParameter : String → R

/-- The settings of a `ReferenceLJCoulombIxn` object; each setter of the class fills
one field. -/
structure ReferenceLJCoulombIxn (R : Type) where
  useCutoff : Option (R × NeighborList × R) := none
  periodic : Option (Box R) := none
  useEwald : Option (R × Int × Int × Int) := none
  usePME : Option (R × (Int × Int × Int)) := none
  useLJPME : Option (R × (Int × Int × Int)) := none
  useSwitchingFunction : Option R := none

/-- The settings of a `ReferenceLJCoulomb14` object: the box set by `setPeriodic`. -/
structure ReferenceLJCoulomb14 (R : Type) where
  periodic : Option (Box R) := none

/-- The collaborators the kernel calls.  An evaluator receives the force accumulators
and, when energy is requested, the current value of the energy accumulator (the
pointer `includeEnergy ? &energy : NULL`); it returns the new accumulators and the new
value of the energy accumulator, which is ignored when the pointer was null. -/
structure Externals (S R : Type) where
  sqrt : R → R
  calcEwaldParameters : S → NonbondedForce R → R × Int × Int × Int
  calcPMEParameters : S → NonbondedForce R → Bool → R × Int × Int × Int
  calcDispersionCorrection : S → NonbondedForce R → R
  computeNeighborListVoxelHash :
    Nat → List (Vec3 R) → List (List Nat) → Box R → Bool → R → R → NeighborList
  calculatePairIxn :
    ReferenceLJCoulombIxn R → Nat → List (Vec3 R) → List (List R) → List (List Nat) →
      List (Vec3 R) → Option R → Bool → Bool → List (Vec3 R) × R
  calculateForce :
    ReferenceLJCoulomb14 R → Nat → List (List Nat) → List (Vec3 R) → List (List R) →
      List (Vec3 R) → Option R → List (Vec3 R) × R

section KernelCode

variable {S R : Type} [LinearOrderedField R]

/-! ## initialize -/

/-- First loop of `initialize` and of `copyParametersToContext`: the set
`exceptionsWithOffsets` of the exception indices named by the exception offsets. -/
def exceptionsWithOffsets (force : NonbondedForce R) : List Nat :=
  forLoop force.getNumExceptionParameterOffsets
    (fun i s => setInsert (force.getExceptionParameterOffset i).index s) []

/-- Body of the loop of `initialize` over the exceptions, for exception `i`.  The state
is the exclusion sets, the vector `nb14s` and the map `nb14Index`: the exception
excludes its pair, and it is appended to `nb14s` when its charge product or its epsilon
is nonzero or an exception offset names it. -/
def identify14Step (force : NonbondedForce R) (withOffsets : List Nat) (i : Nat)
    (st : List (List Nat) × List Nat × List (Nat × Nat)) :
    List (List Nat) × List Nat × List (Nat × Nat) :=
  let e := force.getExceptionParameters i
  let excl := (st.1.modify (setInsert e.particle2) e.particle1).modify
    (setInsert e.particle1) e.particle2
  if e.chargeProd ≠ 0 ∨ e.epsilon ≠ 0 ∨ i ∈ withOffsets then
    (excl, st.2.1 ++ [i], mapInsert i st.2.1.length st.2.2)
  else (excl, st.2.1, st.2.2)

/-- The loop `for i < force.getNumExceptions()` of `initialize`, from empty `nb14s` and
`nb14Index`. -/
def identify14 (force : NonbondedForce R) (withOffsets : List Nat)
    (exclusions : List (List Nat)) : List (List Nat) × List Nat × List (Nat × Nat) :=
  forLoop force.getNumExceptions (identify14Step force withOffsets) (exclusions, [], [])

/-- The loop `for i < numParticles: force.getParticleParameters(i, base[i][0], base[i][1],
base[i][2])` of `initialize` and `copyParametersToContext`. -/
def recordParticleParams (force : NonbondedForce R) (numParticles : Nat)
    (base : List (R × R × R)) : List (R × R × R) :=
  forLoop numParticles
    (fun i b =>
      let p := force.getParticleParameters i
      b.set i (p.charge, p.sigma, p.epsilon))
    base

/-- The loop `for i < num14` of `initialize` and `copyParametersToContext` that reads
exception `nb14s[i]` into `baseExceptionParams[i]` and `bonded14IndexArray[i]`. -/
def record14 (force : NonbondedForce R) (nb14s : List Nat) (num14 : Nat)
    (st : List (R × R × R) × List (List Nat)) : List (R × R × R) × List (List Nat) :=
  forLoop num14
    (fun i st =>
      let e := force.getExceptionParameters (nb14s.getD i 0)
      (st.1.set i (e.chargeProd, e.sigma, e.epsilon),
        st.2.modify (fun row => (row.set 0 e.particle1).set 1 e.particle2) i))
    st

/-- The loop of `initialize` that stores the particle offsets under the key
`(param, particle)`. -/
def registerParticleOffsets (force : NonbondedForce R) (m : OffsetMap R) : OffsetMap R :=
  forLoop force.getNumParticleParameterOffsets
    (fun i m =>
      let o := force.getParticleParameterOffset i
      mapInsert (toLex (o.param, o.index)) (o.charge, o.sigma, o.epsilon) m)
    m

/-- The loop of `initialize` that stores the exception offsets under the key
`(param, nb14Index[exception])`. -/
def registerExceptionOffsets (force : NonbondedForce R) (nb14Index : List (Nat × Nat))
    (m : OffsetMap R) : OffsetMap R :=
  forLoop force.getNumExceptionParameterOffsets
    (fun i m =>
      let o := force.getExceptionParameterOffset i
      mapInsert (toLex (o.param, mapAt nb14Index o.index)) (o.charge, o.sigma, o.epsilon) m)
    m

/-- The method `ReferenceCalcNonbondedForceKernel::initialize`, applied to the kernel
`k`. -/
def initializeKernel (ext : Externals S R) (k : Kernel R) (system : S)
    (force : NonbondedForce R) : Kernel R :=
  let withOffsets := exceptionsWithOffsets force
  let numParticles := force.getNumParticles
  let found := identify14 force withOffsets (resize k.exclusions numParticles [])
  let nb14s := found.2.1
  let nb14Index := found.2.2
  let num14 := nb14s.length
  let recorded := record14 force nb14s num14
    (resize k.baseExceptionParams num14 (0, 0, 0), resize k.bonded14IndexArray num14 [0, 0])
  let nonbondedMethod := force.nonbondedMethod
  let k1 : Kernel R :=
    { k with
      numParticles := numParticles
      exclusions := found.1
      num14 := num14
      bonded14IndexArray := recorded.2
      bonded14ParamArray := resize k.bonded14ParamArray num14 [0, 0, 0]
      particleParamArray := resize k.particleParamArray numParticles [0, 0, 0]
      baseParticleParams :=
        recordParticleParams force numParticles (resize k.baseParticleParams numParticles (0, 0, 0))
      baseExceptionParams := recorded.1
      particleParamOffsets := registerParticleOffsets force k.particleParamOffsets
      exceptionParamOffsets := registerExceptionOffsets force nb14Index k.exceptionParamOffsets
      nonbondedMethod := nonbondedMethod
      nonbondedCutoff := force.cutoffDistance }
  let k2 : Kernel R :=
    if nonbondedMethod = .NoCutoff then
      { k1 with neighborList := none, useSwitchingFunction := false }
    else
      { k1 with
        neighborList := some []
        useSwitchingFunction := force.useSwitchingFunction
        switchingDistance := force.switchingDistance }
  let k3 : Kernel R :=
    if nonbondedMethod = .Ewald then
      let p := ext.calcEwaldParameters system force
      { k2 with kmax := p.2, ewaldAlpha := p.1 }
    else if nonbondedMethod = .PME then
      let p := ext.calcPMEParameters system force false
      { k2 with gridSize := p.2, ewaldAlpha := p.1 }
    else if nonbondedMethod = .LJPME then
      let p := ext.calcPMEParameters system force false
      let d := ext.calcPMEParameters system force true
      { k2 with
        gridSize := p.2
        ewaldAlpha := p.1
        dispersionGridSize := d.2
        ewaldDispersionAlpha := d.1
        useSwitchingFunction := false }
    else k2
  { k3 with
    exceptionsArePeriodic :=
      if nonbondedMethod = .NoCutoff ∨ nonbondedMethod = .CutoffNonPeriodic then false
      else force.exceptionsUsePeriodicBoundaryConditions
    rfDielectric := force.reactionFieldDielectric
    dispersionCoefficient :=
      if force.useDispersionCorrection then ext.calcDispersionCorrection system force
      else 0 }

/-! ## computeParameters -/

/-- The three local vectors `charges`, `sigmas`, `epsilons` of `computeParameters`. -/
structure Resolved (R : Type) where
  charges : List R
  sigmas : List R
  epsilons : List R

/-- The loop `for i < n` of `computeParameters` that copies the baseline triples into
`charges`, `sigmas`, `epsilons`. -/
def loadBase (n : Nat) (base : List (R × R × R)) (p : Resolved R) : Resolved R :=
  forLoop n
    (fun i p =>
      let b := base.getD i (0, 0, 0)
      { charges := p.charges.set i b.1
        sigmas := p.sigmas.set i b.2.1
        epsilons := p.epsilons.set i b.2.2 })
    p

/-- The loop `for (auto& offset : offsets)` of `computeParameters`: every entry of the
map adds `value*delta` to the target index, `value` being the current value of the
entry's global parameter. -/
def applyOffsets (getParameter : String → R) (offsets : OffsetMap R) (p : Resolved R) :
    Resolved R :=
  offsets.foldl
    (fun p offset =>
      let value := getParameter (ofLex offset.1).1
      let index := (ofLex offset.1).2
      { charges := p.charges.modify (fun c => c + value * offset.2.1) index
        sigmas := p.sigmas.modify (fun s => s + value * offset.2.2.1) index
        epsilons := p.epsilons.modify (fun e => e + value * offset.2.2.2) index })
    p

/-- The effective particle values: `charges`, `sigmas`, `epsilons` after the particle
offset loop of `computeParameters`. -/
def particleEffective (k : Kernel R) (context : Context S R) : Resolved R :=
  let n := k.numParticles
  applyOffsets context.getParameter k.particleParamOffsets
    (loadBase n k.baseParticleParams
      ⟨List.replicate n 0, List.replicate n 0, List.replicate n 0⟩)

/-- The effective 1-4 values: `charges`, `sigmas`, `epsilons` after the exception
offset loop of `computeParameters` (the three vectors are the particle ones, resized
to `num14` and overwritten with the exception baselines). -/
def exceptionEffective (k : Kernel R) (context : Context S R) : Resolved R :=
  let p := particleEffective k context
  applyOffsets context.getParameter k.exceptionParamOffsets
    (loadBase k.num14 k.baseExceptionParams
      ⟨resize p.charges k.num14 0, resize p.sigmas k.num14 0, resize p.epsilons k.num14 0⟩)

/-- The method `ReferenceCalcNonbondedForceKernel::computeParameters`. -/
def computeParameters (sqrt : R → R) (k : Kernel R) (context : Context S R) : Kernel R :=
  let p := particleEffective k context
  let particleParamArray :=
    forLoop k.numParticles
      (fun i arr =>
        arr.modify
          (fun row =>
            ((row.set 0 (0.5 * p.sigmas.getD i 0)).set 1
              (2.0 * sqrt (p.epsilons.getD i 0))).set 2 (p.charges.getD i 0))
          i)
      k.particleParamArray
  let q := exceptionEffective k context
  let bonded14ParamArray :=
    forLoop k.num14
      (fun i arr =>
        arr.modify
          (fun row =>
            ((row.set 0 (q.sigmas.getD i 0)).set 1 (4.0 * q.epsilons.getD i 0)).set 2
              (q.charges.getD i 0))
          i)
      k.bonded14ParamArray
  { k with particleParamArray := particleParamArray, bonded14ParamArray := bonded14ParamArray }

/-! ## copyParametersToContext -/

/-- The loop of `copyParametersToContext` over the exceptions, which rebuilds the local
vector `nb14s` with the test of `initialize`. -/
def collect14 (force : NonbondedForce R) (withOffsets : List Nat) : List Nat :=
  forLoop force.getNumExceptions
    (fun i nb14s =>
      let e := force.getExceptionParameters i
      if e.chargeProd ≠ 0 ∨ e.epsilon ≠ 0 ∨ i ∈ withOffsets then nb14s ++ [i] else nb14s)
    []

/-- The method `ReferenceCalcNonbondedForceKernel::copyParametersToContext`. -/
def copyParametersToContext (ext : Externals S R) (k : Kernel R) (context : Context S R)
    (force : NonbondedForce R) : Outcome (Kernel R) Unit :=
  if force.getNumParticles ≠ k.numParticles then
    .error "updateParametersInContext: The number of particles has changed" k
  else
    let withOffsets := exceptionsWithOffsets force
    let nb14s := collect14 force withOffsets
    if nb14s.length ≠ k.num14 then
      .error "updateParametersInContext: The number of non-excluded exceptions has changed" k
    else
      let recorded := record14 force nb14s k.num14 (k.baseExceptionParams, k.bonded14IndexArray)
      let k1 : Kernel R :=
        { k with
          baseParticleParams := recordParticleParams force k.numParticles k.baseParticleParams
          baseExceptionParams := recorded.1
          bonded14IndexArray := recorded.2 }
      let method := force.nonbondedMethod
      if force.useDispersionCorrection = true ∧
          (method = .CutoffPeriodic ∨ method = .Ewald ∨ method = .PME) then
        .ok () { k1 with dispersionCoefficient := ext.calcDispersionCorrection context.system force }
      else .ok () k1

/-! ## execute -/

/-- The test of `execute` on the periodic box: some diagonal extent is below
`minAllowedSize = 1.999999*nonbondedCutoff`. -/
def boxTooSmall (k : Kernel R) (boxVectors : Box R) : Bool :=
  let minAllowedSize := 1.999999 * k.nonbondedCutoff
  decide (boxVectors.a.x < minAllowedSize) || decide (boxVectors.b.y < minAllowedSize) ||
    decide (boxVectors.c.z < minAllowedSize)

/-- The message of the exception `execute` throws on a box that is too small. -/
def boxSizeMessage : String :=
  "The periodic box size has decreased to less than twice the nonbonded cutoff."

/-- Whether the method uses the periodic box: the condition
`periodic || ewald || pme || ljpme` of `execute`. -/
def usesPeriodicBox (k : Kernel R) : Bool :=
  decide (k.nonbondedMethod = .CutoffPeriodic) || decide (k.nonbondedMethod = .Ewald) ||
    decide (k.nonbondedMethod = .PME) || decide (k.nonbondedMethod = .LJPME)

/-- The part of `execute` before the box test (lines 215-227): `computeParameters`,
then, unless the method is NoCutoff, the neighbour list is rebuilt and handed to the
pair evaluator by `setUseCutoff`. -/
def prepare (ext : Externals S R) (k : Kernel R) (context : Context S R) :
    Kernel R × ReferenceLJCoulombIxn R :=
  let k := computeParameters ext.sqrt k context
  let clj : ReferenceLJCoulombIxn R := {}
  if k.nonbondedMethod ≠ .NoCutoff then
    let neighbors : NeighborList :=
      ext.computeNeighborListVoxelHash k.numParticles context.positions k.exclusions
        context.periodicBoxVectors (usesPeriodicBox k) k.nonbondedCutoff 0.0
    ({ k with neighborList := some neighbors },
      { clj with useCutoff := some (k.nonbondedCutoff, neighbors, k.rfDielectric) })
  else (k, clj)

/-- The setters `execute` calls on the pair evaluator after the box test (lines
233-244): `setPeriodic`, `setUseEwald`, `setUsePME`, `setUseLJPME`,
`setUseSwitchingFunction`. -/
def configure (k : Kernel R) (context : Context S R) (clj : ReferenceLJCoulombIxn R) :
    ReferenceLJCoulombIxn R :=
  let clj : ReferenceLJCoulombIxn R :=
    if usesPeriodicBox k then { clj with periodic := some context.periodicBoxVectors }
    else clj
  let clj : ReferenceLJCoulombIxn R :=
    if k.nonbondedMethod = .Ewald then { clj with useEwald := some (k.ewaldAlpha, k.kmax) }
    else clj
  let clj : ReferenceLJCoulombIxn R :=
    if k.nonbondedMethod = .PME then { clj with usePME := some (k.ewaldAlpha, k.gridSize) }
    else clj
  let clj : ReferenceLJCoulombIxn R :=
    if k.nonbondedMethod = .LJPME then
      { clj with
        usePME := some (k.ewaldAlpha, k.gridSize)
        useLJPME := some (k.ewaldDispersionAlpha, k.dispersionGridSize) }
    else clj
  if k.useSwitchingFunction then { clj with useSwitchingFunction := some k.switchingDistance }
  else clj

/-- The 1-4 evaluator `nonbonded14` that `execute` builds (lines 248-252): `setPeriodic` is
called on it, with the box vectors, exactly when `exceptionsArePeriodic` is set. -/
def exceptionEvaluator (k : Kernel R) (context : Context S R) : ReferenceLJCoulomb14 R :=
  if k.exceptionsArePeriodic then { periodic := some context.periodicBoxVectors }
  else {}

/-- The evaluation part of `execute` (lines 245-259): the pair interactions, then, when
direct-space contributions are included, the 1-4 interactions and, for the methods
CutoffPeriodic, Ewald and PME, the dispersion correction.  The result is the energy and
the force accumulators. -/
def evaluate (ext : Externals S R) (k : Kernel R) (context : Context S R)
    (clj : ReferenceLJCoulombIxn R) (includeEnergy includeDirect includeReciprocal : Bool) :
    R × List (Vec3 R) :=
  let posData := context.positions
  let forceData := context.forces
  let energy : R := 0
  let pair :=
    ext.calculatePairIxn clj k.numParticles posData k.particleParamArray k.exclusions
      forceData (if includeEnergy then some energy else none) includeDirect includeReciprocal
  let forceData := pair.1
  let energy := if includeEnergy then pair.2 else energy
  if includeDirect then
    let nonbonded14 : ReferenceLJCoulomb14 R := exceptionEvaluator k context
    let bonded :=
      ext.calculateForce nonbonded14 k.num14 k.bonded14IndexArray posData
        k.bonded14ParamArray forceData (if includeEnergy then some energy else none)
    let forceData := bonded.1
    let energy := if includeEnergy then bonded.2 else energy
    let energy :=
      if k.nonbondedMethod = .CutoffPeriodic ∨ k.nonbondedMethod = .Ewald ∨
          k.nonbondedMethod = .PME then
        energy + k.dispersionCoefficient /
          (context.periodicBoxVectors.a.x * context.periodicBoxVectors.b.y *
            context.periodicBoxVectors.c.z)
      else energy
    (energy, forceData)
  else (energy, forceData)

/-- The method `ReferenceCalcNonbondedForceKernel::execute`: `prepare`, the test of the
box size, which throws, then `configure` and `evaluate`.  The state is the kernel
together with the context, whose force accumulators the call writes.  The flag
`includeForces` is not read by the method. -/
def execute (ext : Externals S R) (k : Kernel R) (context : Context S R)
    (_includeForces includeEnergy includeDirect includeReciprocal : Bool) :
    Outcome (Kernel R × Context S R) R :=
  let p := prepare ext k context
  if usesPeriodicBox p.1 && boxTooSmall p.1 context.periodicBoxVectors then
    .error boxSizeMessage (p.1, context)
  else
    let r := evaluate ext p.1 context (configure p.1 context p.2) includeEnergy includeDirect
      includeReciprocal
    .ok r.1 (p.1, { context with forces := r.2 })

/-! ## getPMEParameters, getLJPMEParameters -/

/-- The method `ReferenceCalcNonbondedForceKernel::getPMEParameters`: the values written
to `alpha, nx, ny, nz`, or the message of the exception. -/
def getPMEParameters (k : Kernel R) : Except String (R × Int × Int × Int) :=
  if k.nonbondedMethod ≠ .PME ∧ k.nonbondedMethod ≠ .LJPME then
    .error "getPMEParametersInContext: This Context is not using PME or LJPME"
  else .ok (k.ewaldAlpha, k.gridSize.1, k.gridSize.2.1, k.gridSize.2.2)

/-- The method `ReferenceCalcNonbondedForceKernel::getLJPMEParameters`. -/
def getLJPMEParameters (k : Kernel R) : Except String (R × Int × Int × Int) :=
  if k.nonbondedMethod ≠ .LJPME then
    .error "getPMEParametersInContext: This Context is not using LJPME"
  else
    .ok (k.ewaldDispersionAlpha, k.dispersionGridSize.1, k.dispersionGridSize.2.1,
      k.dispersionGridSize.2.2)

/-! ## Sequences of calls -/

/-- A call on an initialized kernel that may change it: an evaluation or an update. -/
inductive KernelCall (S R : Type) where
  | execute (context : Context S R)
      (includeForces includeEnergy includeDirect includeReciprocal : Bool)
  | copyParametersToContext (context : Context S R) (force : NonbondedForce R)

/-- The kernel after one call, whether the call returned or threw. -/
def runCall (ext : Externals S R) (k : Kernel R) : KernelCall S R → Kernel R
  | .execute context includeForces includeEnergy includeDirect includeReciprocal =>
    (execute ext k context includeForces includeEnergy includeDirect
      includeReciprocal).state.1
  | .copyParametersToContext context force =>
    (copyParametersToContext ext k context force).state

/-- The kernel after a sequence of calls. -/
def runCalls (ext : Externals S R) (k : Kernel R) (calls : List (KernelCall S R)) : Kernel R :=
  calls.foldl (runCall ext) k

end KernelCode

/-! ## The specification's vocabulary -/

section SpecVocabulary

variable {R : Type} [LinearOrderedField R]

/-- The specification's test for a 1-4 interaction: the exception's charge product is
nonzero, or its epsilon is nonzero, or some exception offset targets it. -/
def qualifies14 (force : NonbondedForce R) (i : Nat) : Bool :=
  decide ((force.getExceptionParameters i).chargeProd ≠ 0) ||
    decide ((force.getExceptionParameters i).epsilon ≠ 0) ||
    force.exceptionParameterOffsets.any (fun o => decide (o.index = i))

/-- The 1-4 list of the specification: the qualifying exceptions in increasing index
order. -/
def nb14List (force : NonbondedForce R) : List Nat :=
  (List.range force.getNumExceptions).filter (qualifies14 force)

/-- Of the elements that share a key, keep the last one of the list; the order of the
kept elements is that of the list. -/
def lastBy {α κ : Type} [DecidableEq κ] (key : α → κ) : List α → List α
  | [] => []
  | a :: l =>
    if l.any (fun b => decide (key b = key a)) then lastBy key l else a :: lastBy key l

/-- The offsets that are in effect: of the offsets registered for the same parameter
name and the same target, the last registered one. -/
def lastRegistered (offsets : List (ParameterOffset R)) : List (ParameterOffset R) :=
  lastBy (fun o => (o.param, o.index)) offsets

/-- The sum of `currentGlobalValue × delta` over the offsets of a list that target
`target`; `delta` selects the charge, sigma or epsilon delta. -/
def offsetSum (getParameter : String → R) (delta : ParameterOffset R → R)
    (offsets : List (ParameterOffset R)) (target : Nat) : R :=
  ((offsets.filter (fun o => decide (o.index = target))).map
    (fun o => getParameter o.param * delta o)).sum

/-- The force definition with exception `k` removed from the exception list: the later
exceptions move down by one index, and so do the targets of the exception offsets that
name them. -/
def removeException (force : NonbondedForce R) (k : Nat) : NonbondedForce R :=
  { force with
    exceptions := force.exceptions.eraseIdx k
    exceptionParameterOffsets :=
      force.exceptionParameterOffsets.map
        (fun o => if k < o.index then { o with index := o.index - 1 } else o) }

end SpecVocabulary

section CopiedKernel

variable {S R : Type} [LinearOrderedField R]

/-- The kernel after a `copyParametersToContext` that passed both checks. -/
def copiedKernel (ext : Externals S R) (k : Kernel R) (context : Context S R)
    (force : NonbondedForce R) : Kernel R :=
  { k with
    baseParticleParams := force.particles.map (fun p => (p.charge, p.sigma, p.epsilon))
    baseExceptionParams :=
      (nb14List force).map (fun i => ((force.getExceptionParameters i).chargeProd,
        (force.getExceptionParameters i).sigma, (force.getExceptionParameters i).epsilon))
    bonded14IndexArray :=
      (nb14List force).map (fun i => [(force.getExceptionParameters i).particle1,
        (force.getExceptionParameters i).particle2])
    dispersionCoefficient :=
      if force.useDispersionCorrection = true ∧
          (force.nonbondedMethod = .CutoffPeriodic ∨ force.nonbondedMethod = .Ewald ∨
            force.nonbondedMethod = .PME) then
        ext.calcDispersionCorrection context.system force
      else k.dispersionCoefficient }

/-- The members that `initialize` fixes and no later call assigns: the method, the
cutoff, the Ewald state (`ewaldAlpha`, `kmax`, `gridSize`, `ewaldDispersionAlpha`,
`dispersionGridSize`), and the switching, reaction-field and periodic-exception
settings have in `k'` the values they have in `k`. -/
def sameSettings (k k' : Kernel R) : Prop :=
  k'.nonbondedMethod = k.nonbondedMethod ∧ k'.nonbondedCutoff = k.nonbondedCutoff ∧
  k'.ewaldAlpha = k.ewaldAlpha ∧ k'.kmax = k.kmax ∧ k'.gridSize = k.gridSize ∧
  k'.ewaldDispersionAlpha = k.ewaldDispersionAlpha ∧
  k'.dispersionGridSize = k.dispersionGridSize ∧
  k'.useSwitchingFunction = k.useSwitchingFunction ∧
  k'.switchingDistance = k.switchingDistance ∧ k'.rfDielectric = k.rfDielectric ∧
  k'.exceptionsArePeriodic = k.exceptionsArePeriodic

end CopiedKernel

/-! ## Collaborators modelled from the specification, and concrete inputs -/

section SpecModel

variable {R : Type} [LinearOrderedField R]

/-- Difference of two vectors. -/
def Vec3.sub (a b : Vec3 R) : Vec3 R := ⟨a.x - b.x, a.y - b.y, a.z - b.z⟩

/-- Sum of two vectors. -/
def Vec3.add (a b : Vec3 R) : Vec3 R := ⟨a.x + b.x, a.y + b.y, a.z + b.z⟩

/-- Product of a scalar and a vector. -/
def Vec3.scale (s : R) (a : Vec3 R) : Vec3 R := ⟨s * a.x, s * a.y, s * a.z⟩

/-- Dot product. -/
def Vec3.dot (a b : Vec3 R) : R := a.x * b.x + a.y * b.y + a.z * b.z

/-- Modelled from the spec: the interaction of one pair (section 4.3 of the
specification; the evaluator classes are not among the translated sources).  The
electrostatic energy is `Coulomb constant × qq / r`, the dispersion-repulsion energy
the 12-6 form `eps × ((sig/r)^12 − (sig/r)^6)`; the result is the energy and the force
on the first particle, the second receiving the opposite force. -/
def pairTerm (sqrt : R → R) (coulomb sig eps qq : R) (xi xj : Vec3 R) : R × Vec3 R :=
  let delta := xi.sub xj
  let r := sqrt (delta.dot delta)
  let sr6 := (sig / r) ^ 6
  let energy := coulomb * qq / r + eps * (sr6 * sr6 - sr6)
  let dEdR := -(coulomb * qq / (r * r)) - eps * (12 * (sr6 * sr6) - 6 * sr6) / r
  (energy, delta.scale (-(dEdR / r)))

/-- Modelled from the spec: `ReferenceLJCoulombIxn::calculatePairIxn` in its plain
direct-space form (section 4.3): every pair `i < j` that is not in the exclusion set,
and is within the cutoff when one is configured, contributes `pairTerm` with
`sig = p_i[0] + p_j[0]`, `eps = p_i[1] × p_j[1]`, `qq = p_i[2] × p_j[2]`; forces are
added equal and opposite, the energy is added when it is requested.  The lattice sums,
the reaction field, the switching function and the minimum image are not modelled. -/
def plainPairIxn (sqrt : R → R) (coulomb : R) (clj : ReferenceLJCoulombIxn R)
    (numParticles : Nat) (pos : List (Vec3 R)) (params : List (List R))
    (exclusions : List (List Nat)) (forces : List (Vec3 R)) (energy : Option R)
    (includeDirect _includeReciprocal : Bool) : List (Vec3 R) × R :=
  if includeDirect then
    forLoop numParticles
      (fun i acc =>
        forLoop numParticles
          (fun j acc =>
            let xi := pos.getD i ⟨0, 0, 0⟩
            let xj := pos.getD j ⟨0, 0, 0⟩
            let delta := xi.sub xj
            let beyond : Bool :=
              match clj.useCutoff with
              | some c => decide (c.1 < sqrt (delta.dot delta))
              | none => false
            if i < j ∧ j ∉ exclusions.getD i [] ∧ beyond = false then
              let pi := params.getD i []
              let pj := params.getD j []
              let t := pairTerm sqrt coulomb (pi.getD 0 0 + pj.getD 0 0)
                (pi.getD 1 0 * pj.getD 1 0) (pi.getD 2 0 * pj.getD 2 0) xi xj
              ((acc.1.modify (fun v => v.add t.2) i).modify (fun v => v.sub t.2) j,
                acc.2 + t.1)
            else acc)
          acc)
      (forces, energy.getD 0)
  else (forces, energy.getD 0)

/-- Modelled from the spec: `ReferenceBondForce::calculateForce` with the
`ReferenceLJCoulomb14` evaluator (section 4.4): every 1-4 pair contributes `pairTerm`
with its own `sig = p[0]`, `eps = p[1]`, `qq = p[2]`.  The minimum image is not
modelled. -/
def plainForce14 (sqrt : R → R) (coulomb : R) (_nonbonded14 : ReferenceLJCoulomb14 R)
    (num14 : Nat) (indices : List (List Nat)) (pos : List (Vec3 R)) (params : List (List R))
    (forces : List (Vec3 R)) (energy : Option R) : List (Vec3 R) × R :=
  forLoop num14
    (fun i acc =>
      let a := (indices.getD i []).getD 0 0
      let b := (indices.getD i []).getD 1 0
      let p := params.getD i []
      let t := pairTerm sqrt coulomb (p.getD 0 0) (p.getD 1 0) (p.getD 2 0)
        (pos.getD a ⟨0, 0, 0⟩) (pos.getD b ⟨0, 0, 0⟩)
      ((acc.1.modify (fun v => v.add t.2) a).modify (fun v => v.sub t.2) b, acc.2 + t.1))
    (forces, energy.getD 0)

/-- Modelled from the spec: the neighbour-list builder (section 4.2), as the candidate
set of all pairs `i < j` that are not in the exclusion set; the evaluator skips the
candidates beyond the cutoff. -/
def allCandidatePairs (numParticles : Nat) (_pos : List (Vec3 R)) (exclusions : List (List Nat))
    (_box : Box R) (_usePeriodic : Bool) (_maxDistance _minDistance : R) : NeighborList :=
  forLoop numParticles
    (fun i acc =>
      forLoop numParticles
        (fun j acc => if i < j ∧ j ∉ exclusions.getD i [] then acc ++ [(i, j)] else acc)
        acc)
    []

end SpecModel

/-! ## ReferenceCalcExampleForceKernel -/

section ExampleKernelCode

variable {S R : Type} [LinearOrderedField R]

/-- What `ExampleForce::getBondParameters` returns. -/
structure BondParameters (R : Type) where
  particle1 : Nat
  particle2 : Nat
  length : R
  k : R

/-- The force definition `ExampleForce` as the kernel reads it (its class is not among
the translated sources): the bond list behind `getNumBonds` and `getBondParameters`. -/
structure ExampleForce (R : Type) where
  bonds : List (BondParameters R)

/-- Accessor `getNumBonds`. -/
def ExampleForce.getNumBonds (force : ExampleForce R) : Nat :=
  force.bonds.length

/-- Accessor `getBondParameters(i, ...)`. -/
def ExampleForce.getBondParameters (force : ExampleForce R) (i : Nat) : BondParameters R :=
  force.bonds.getD i ⟨0, 0, 0, 0⟩

/-- The data members of `ReferenceCalcExampleForceKernel` that the methods use (the
member `numBonds` is never read or written). -/
structure ExampleKernel (R : Type) where
  particle1 : List Nat
  particle2 : List Nat
  length : List R
  k : List R

/-- The method `ReferenceCalcExampleForceKernel::initialize`, applied to the kernel
`kern`. -/
def ExampleKernel.initializeKernel (kern : ExampleKernel R) (force : ExampleForce R) :
    ExampleKernel R :=
  let numBonds := force.getNumBonds
  forLoop numBonds
    (fun i kern =>
      let b := force.getBondParameters i
      { particle1 := kern.particle1.set i b.particle1
        particle2 := kern.particle2.set i b.particle2
        length := kern.length.set i b.length
        k := kern.k.set i b.k })
    { particle1 := resize kern.particle1 numBonds 0
      particle2 := resize kern.particle2 numBonds 0
      length := resize kern.length numBonds 0
      k := resize kern.k numBonds 0 }

/-- The state of the loop of `ReferenceCalcExampleForceKernel::execute`: the force
accumulators and the local `energy`, together with the record of the divisions the loop
has performed, as `recordedDiv` writes it (the record is not part of the program; it
states which divisions are executed, and by what divisor). -/
structure ExampleRun (R : Type) where
  forces : List (Vec3 R)
  energy : R
  divisors : List R

/-- The division `a / b` of two doubles as the program performs it: the quotient, and the
record of this one division, which is its divisor.  Nothing but this function writes a
divisor into a record, so a division is recorded exactly when it is executed. -/
def recordedDiv (a b : R) : R × List R :=
  (a / b, [b])

/-- The vector `delta` of bond `i`: `pos[p1] - pos[p2]`. -/
def ExampleKernel.bondDelta (kern : ExampleKernel R) (pos : List (Vec3 R)) (i : Nat) :
    Vec3 R :=
  (pos.getD (kern.particle1.getD i 0) ⟨0, 0, 0⟩).sub (pos.getD (kern.particle2.getD i 0) ⟨0, 0, 0⟩)

/-- The two statements that give `dEdR` its final value for bond `i`,
`dEdR = 4*k[i]*dr2*dr` and `dEdR = (r > 0) ? (dEdR/r) : 0`: the value, and the record of
the division `dEdR/r` when the conditional performs it. -/
def ExampleKernel.bondQuotient (sqrt : R → R) (kern : ExampleKernel R) (pos : List (Vec3 R))
    (i : Nat) : R × List R :=
  let delta := kern.bondDelta pos i
  let r2 := delta.dot delta
  let r := sqrt r2
  let dr := r - kern.length.getD i 0
  let dr2 := dr * dr
  let dEdR := 4 * kern.k.getD i 0 * dr2 * dr
  if r > 0 then recordedDiv dEdR r else (0, [])

/-- The final value of `dEdR` for bond `i`: `4*k[i]*dr2*dr`, divided by `r` when
`r > 0` and replaced by `0` otherwise. -/
def ExampleKernel.bondDEdR (sqrt : R → R) (kern : ExampleKernel R) (pos : List (Vec3 R))
    (i : Nat) : R :=
  (kern.bondQuotient sqrt pos i).1

/-- Body of the loop of `ReferenceCalcExampleForceKernel::execute` for bond `i`: the
energy gains `k[i]*dr2*dr2`, `force[p1]` loses and `force[p2]` gains `delta*dEdR`; the
record of the divisions gains what the computation of `dEdR` has recorded. -/
def ExampleKernel.bondStep (sqrt : R → R) (kern : ExampleKernel R) (pos : List (Vec3 R))
    (i : Nat) (st : ExampleRun R) : ExampleRun R :=
  let p1 := kern.particle1.getD i 0
  let p2 := kern.particle2.getD i 0
  let delta := kern.bondDelta pos i
  let r2 := delta.dot delta
  let r := sqrt r2
  let dr := r - kern.length.getD i 0
  let dr2 := dr * dr
  let dEdR := kern.bondDEdR sqrt pos i
  { forces :=
      (st.forces.modify (fun f => f.sub (Vec3.scale dEdR delta)) p1).modify
        (fun f => f.add (Vec3.scale dEdR delta)) p2
    energy := st.energy + kern.k.getD i 0 * dr2 * dr2
    divisors := st.divisors ++ (kern.bondQuotient sqrt pos i).2 }

/-- The method `ReferenceCalcExampleForceKernel::execute`: the returned energy, the
force accumulators after the call, and the record of the divisions performed.  The
flags `includeForces` and `includeEnergy` are not read by the method. -/
def ExampleKernel.execute (sqrt : R → R) (kern : ExampleKernel R) (context : Context S R) :
    ExampleRun R :=
  forLoop kern.particle1.length (kern.bondStep sqrt context.positions)
    { forces := context.forces, energy := 0, divisors := [] }

/-- The loop of `ReferenceCalcExampleForceKernel::copyParametersToContext` over the bond
indices still to visit: bond `i` of the force is read into `length[i]` and `k[i]`, and
then the call throws when a particle index of the bond differs from the stored one. -/
def ExampleKernel.copyLoop (force : ExampleForce R) :
    List Nat → ExampleKernel R → Outcome (ExampleKernel R) Unit
  | [], kern => .ok () kern
  | i :: rest, kern =>
    let b := force.getBondParameters i
    let kern' : ExampleKernel R :=
      { kern with length := kern.length.set i b.length, k := kern.k.set i b.k }
    if b.particle1 ≠ kern.particle1.getD i 0 ∨ b.particle2 ≠ kern.particle2.getD i 0 then
      .error "updateParametersInContext: A particle index has changed" kern'
    else ExampleKernel.copyLoop force rest kern'

/-- The method `ReferenceCalcExampleForceKernel::copyParametersToContext`. -/
def ExampleKernel.copyParametersToContext (kern : ExampleKernel R) (force : ExampleForce R) :
    Outcome (ExampleKernel R) Unit :=
  if force.getNumBonds ≠ kern.particle1.length then
    .error "updateParametersInContext: The number of Example bonds has changed" kern
  else ExampleKernel.copyLoop force (List.range force.getNumBonds) kern

/-- The vector sum of the force accumulators. -/
def totalForce (forces : List (Vec3 R)) : Vec3 R :=
  ⟨(forces.map (fun f => f.x)).sum, (forces.map (fun f => f.y)).sum,
    (forces.map (fun f => f.z)).sum⟩

/-- The kernel without its bond `j`: entry `j` is taken out of each of the four vectors.
It is the comparison case in which bond `j` does not exist. -/
def ExampleKernel.withoutBond (kern : ExampleKernel R) (j : Nat) : ExampleKernel R :=
  { particle1 := kern.particle1.eraseIdx j
    particle2 := kern.particle2.eraseIdx j
    length := kern.length.eraseIdx j
    k := kern.k.eraseIdx j }

/-- The energy `k[j]·length[j]^4` of a bond of the kernel at pair distance 0. -/
def ExampleKernel.restEnergy (kern : ExampleKernel R) (j : Nat) : R :=
  kern.k.getD j 0 * kern.length.getD j 0 ^ 4

end ExampleKernelCode

/-- The Coulomb constant of the concrete evaluations (`ONE_4PI_EPS0` of OpenMM, in
kJ·nm/(mol·e²)); the specification names the constant without giving its value. -/
def coulombConstant : ℚ := 138.935456

/-- A concrete environment for the evaluations in `ℚ`: the evaluators modelled from the
specification, `Rat.sqrt` as the square root, and fixed sample values where the
specification gives no formula (Ewald parameters from the tolerance, a unit dispersion
coefficient). -/
def sampleExternals : Externals Unit ℚ where
  sqrt := Rat.sqrt
  calcEwaldParameters := fun _ force => (force.ewaldErrorTolerance, 8, 8, 8)
  calcPMEParameters := fun _ force lj =>
    (force.ewaldErrorTolerance, if lj then 16 else 32, if lj then 16 else 32,
      if lj then 16 else 32)
  calcDispersionCorrection := fun _ _ => 1
  computeNeighborListVoxelHash := allCandidatePairs
  calculatePairIxn := plainPairIxn Rat.sqrt coulombConstant
  calculateForce := plainForce14 Rat.sqrt coulombConstant

/-- A kernel object whose members all hold zero: the sample content of the members the
constructor leaves unassigned. -/
def rawKernel : Kernel ℚ where
  numParticles := 0
  num14 := 0
  bonded14IndexArray := []
  particleParamArray := []
  bonded14ParamArray := []
  baseParticleParams := []
  baseExceptionParams := []
  particleParamOffsets := []
  exceptionParamOffsets := []
  nonbondedCutoff := 0
  switchingDistance := 0
  rfDielectric := 0
  ewaldAlpha := 0
  ewaldDispersionAlpha := 0
  dispersionCoefficient := 0
  kmax := (0, 0, 0)
  gridSize := (0, 0, 0)
  dispersionGridSize := (0, 0, 0)
  useSwitchingFunction := false
  exceptionsArePeriodic := false
  exclusions := []
  nonbondedMethod := .NoCutoff
  neighborList := none

/-- A force definition with no particles, in the NoCutoff method, from which the
concrete inputs are built. -/
def emptyForce : NonbondedForce ℚ where
  particles := []
  exceptions := []
  particleParameterOffsets := []
  exceptionParameterOffsets := []
  nonbondedMethod := .NoCutoff
  cutoffDistance := 1
  useSwitchingFunction := false
  switchingDistance := 0
  reactionFieldDielectric := 1
  ewaldErrorTolerance := 0.0005
  exceptionsUsePeriodicBoundaryConditions := false
  useDispersionCorrection := false

/-- A context with the given positions and global-parameter value (the same for every
name), zero force accumulators and a cubic box of the given edge. -/
def sampleContext (positions : List (Vec3 ℚ)) (edge value : ℚ) : Context Unit ℚ where
  system := ()
  positions := positions
  forces := positions.map (fun _ => ⟨0, 0, 0⟩)
  periodicBoxVectors := ⟨⟨edge, 0, 0⟩, ⟨0, edge, 0⟩, ⟨0, 0, edge⟩⟩
  getParameter := fun _ => value

/-- One particle with charge 1, sigma 1, epsilon 1 and two offsets registered for the
same parameter `lambda` and the same particle 0, each with charge delta 1. -/
def duplicateOffsetForce : NonbondedForce ℚ :=
  { emptyForce with
    particles := [⟨1, 1, 1⟩]
    particleParameterOffsets := [⟨"lambda", 0, 1, 0, 0⟩, ⟨"lambda", 0, 1, 0, 0⟩] }

/-- Two particles and one exception between them with charge product 1, sigma 2,
epsilon 3, targeted by one offset of parameter `lambda`. -/
def oneExceptionForce : NonbondedForce ℚ :=
  { emptyForce with
    particles := [⟨1, 1, 1⟩, ⟨-1, 1, 1⟩]
    exceptions := [⟨0, 1, 1, 2, 3⟩]
    exceptionParameterOffsets := [⟨"lambda", 0, 1, 0, 0⟩] }

/-- Two particles of charges 1 and −1 with sigma 1 and epsilon 1, no exception. -/
def twoParticleForce : NonbondedForce ℚ :=
  { emptyForce with particles := [⟨1, 1, 1⟩, ⟨-1, 1, 1⟩] }

/-- The force `twoParticleForce` with one more exception, between particles 0 and 1,
of charge product 0 and epsilon 0 and without offset: a pure exclusion. -/
def pureExclusionForce : NonbondedForce ℚ :=
  { twoParticleForce with exceptions := [⟨0, 1, 0, 1, 0⟩] }

/-- Four particles and two exceptions, (0,1) and (2,3); only the first has a nonzero
charge product. -/
def firstQualifiesForce : NonbondedForce ℚ :=
  { emptyForce with
    particles := [⟨1, 1, 1⟩, ⟨-1, 1, 1⟩, ⟨1, 1, 1⟩, ⟨-1, 1, 1⟩]
    exceptions := [⟨0, 1, 1, 1, 0⟩, ⟨2, 3, 0, 1, 0⟩] }

/-- The same particles and exception pairs as `firstQualifiesForce`; only the second
exception has a nonzero charge product. -/
def secondQualifiesForce : NonbondedForce ℚ :=
  { firstQualifiesForce with exceptions := [⟨0, 1, 0, 1, 0⟩, ⟨2, 3, 1, 1, 0⟩] }

/-- The force `twoParticleForce` in the CutoffPeriodic method (cutoff 1). -/
def periodicForce : NonbondedForce ℚ :=
  { twoParticleForce with nonbondedMethod := .CutoffPeriodic }

/-- Two positions at distance 1/2 along the x axis. -/
def nearPositions : List (Vec3 ℚ) := [⟨0, 0, 0⟩, ⟨1 / 2, 0, 0⟩]

/-- Two positions at distance 1 along the x axis. -/
def unitPositions : List (Vec3 ℚ) := [⟨0, 0, 0⟩, ⟨1, 0, 0⟩]

/-- An example kernel whose vectors are empty, as after construction. -/
def emptyExampleKernel : ExampleKernel ℚ := ⟨[], [], [], []⟩

/-- One bond between particles 0 and 1 with length 1 and force constant 1. -/
def singleBondForce : ExampleForce ℚ := ⟨[⟨0, 1, 1, 1⟩]⟩

/-- One bond between particles 0 and 2 with length 5 and force constant 7. -/
def movedBondForce : ExampleForce ℚ := ⟨[⟨0, 2, 5, 7⟩]⟩

/-- Two particles at the same position. -/
def coincidentPositions : List (Vec3 ℚ) := [⟨1, 2, 3⟩, ⟨1, 2, 3⟩]

/-- Two bonds: particles 0 and 1 with length 1 and force constant 1, and particles 0 and
2 with length 3 and force constant 1. -/
def twoBondForce : ExampleForce ℚ := ⟨[⟨0, 1, 1, 1⟩, ⟨0, 2, 3, 1⟩]⟩

/-- Three particles: the first two at the same position, the third at distance 5 from
them. -/
def overlapPositions : List (Vec3 ℚ) := [⟨1, 2, 3⟩, ⟨1, 2, 3⟩, ⟨4, 6, 3⟩]

/-- Three particles and three exceptions, (0,1), (1,2) and (0,2): the first has charge
product 1, the second is targeted by an offset of parameter `lambda` with charge delta
1, the third is a pure exclusion.  The 1-4 list is exceptions 0 and 1. -/
def offsetSecondOfTwoForce : NonbondedForce ℚ :=
  { emptyForce with
    particles := [⟨1, 1, 1⟩, ⟨-1, 1, 1⟩, ⟨1, 1, 1⟩]
    exceptions := [⟨0, 1, 1, 1, 0⟩, ⟨1, 2, 0, 1, 0⟩, ⟨0, 2, 0, 1, 0⟩]
    exceptionParameterOffsets := [⟨"lambda", 1, 1, 0, 0⟩] }

/-- The same particles, exception pairs and offsets as `offsetSecondOfTwoForce`, with the
charge product 1 moved from exception 0 to exception 2.  The 1-4 list is exceptions 1
and 2. -/
def offsetFirstOfTwoForce : NonbondedForce ℚ :=
  { offsetSecondOfTwoForce with
    exceptions := [⟨0, 1, 0, 1, 0⟩, ⟨1, 2, 0, 1, 0⟩, ⟨0, 2, 1, 1, 0⟩] }

/-! # Theorems -/

section LoopLemmas

theorem forLoop_zero {σ : Type} (body : Nat → σ → σ) (s : σ) : forLoop 0 body s = s := by
  simp [forLoop]

theorem forLoop_succ {σ : Type} (n : Nat) (body : Nat → σ → σ) (s : σ) :
    forLoop (n + 1) body s = body n (forLoop n body s) := by
  simp [forLoop, List.range_succ]

theorem forLoop_pair {σ τ : Type} (n : Nat) (g : Nat → σ → σ) (h : Nat → τ → τ) (st : σ × τ) :
    forLoop n (fun i st => (g i st.1, h i st.2)) st = (forLoop n g st.1, forLoop n h st.2) := by
  induction n with
  | zero => simp [forLoop_zero]
  | succ n ih => simp [forLoop_succ, ih]

theorem set_eq_modify {α : Type} (l : List α) (i : Nat) (a : α) :
    l.set i a = l.modify (fun _ => a) i := by
  induction l generalizing i with
  | nil => simp
  | cons b l ih => cases i <;> simp [ih]

theorem forLoop_modify_getElem? {α : Type} (F : Nat → α → α) (l0 : List α) (n j : Nat) :
    (forLoop n (fun i l => l.modify (F i) i) l0)[j]? =
      (l0[j]?).map (fun a => if j < n then F j a else a) := by
  induction n with
  | zero => simp [forLoop_zero]
  | succ n ih =>
    rw [forLoop_succ, List.getElem?_modify, ih]
    cases l0[j]? with
    | none => simp
    | some a =>
      simp only [Option.map_some', Option.map_eq_map]
      by_cases h : n = j
      · subst h; simp
      · have : (j < n + 1) ↔ (j < n) := by omega
        simp [h, this]

theorem range_map_getD {α β : Type} (l : List α) (d : α) (G : α → β) :
    (List.range l.length).map (fun i => G (l.getD i d)) = l.map G := by
  apply List.ext_getElem?
  intro j
  by_cases hj : j < l.length
  · simp [hj, List.getElem?_range hj, List.getElem?_eq_getElem hj]
  · have h1 : l[j]? = none := List.getElem?_eq_none (by omega)
    have h2 : (List.range l.length)[j]? = none := List.getElem?_eq_none (by simp; omega)
    simp [h1, h2]

theorem forLoop_modify_eq_map {α : Type} (F : Nat → α → α) (l0 : List α) (d : α) (n : Nat)
    (hn : l0.length = n) :
    forLoop n (fun i l => l.modify (F i) i) l0 =
      (List.range n).map (fun i => F i (l0.getD i d)) := by
  subst hn
  apply List.ext_getElem?
  intro j
  rw [forLoop_modify_getElem?]
  by_cases hj : j < l0.length
  · simp [hj, List.getElem?_range hj, List.getElem?_eq_getElem hj]
  · have h1 : l0[j]? = none := List.getElem?_eq_none (by omega)
    have h2 : (List.range l0.length)[j]? = none := List.getElem?_eq_none (by simp; omega)
    simp [h1, h2]

theorem forLoop_set_eq_map {α : Type} (f : Nat → α) (l0 : List α) (n : Nat)
    (hn : l0.length = n) :
    forLoop n (fun i l => l.set i (f i)) l0 = (List.range n).map f := by
  have h : (fun (i : Nat) (l : List α) => l.set i (f i)) =
      fun i l => l.modify (fun _ => f i) i := by
    funext i l; exact set_eq_modify l i (f i)
  rw [h]
  cases l0 with
  | nil => subst hn; simp [forLoop_zero]
  | cons a l => exact forLoop_modify_eq_map (fun i _ => f i) (a :: l) a n hn

theorem forLoop_getD_eq_foldl {α σ : Type} (l : List α) (d : α) (g : α → σ → σ) (s : σ) :
    forLoop l.length (fun i acc => g (l.getD i d) acc) s = l.foldl (fun acc a => g a acc) s := by
  have h := range_map_getD l d (fun a => a)
  simp only [List.map_id'] at h
  conv_rhs => rw [← h]
  rw [List.foldl_map]
  rfl

theorem resize_nil {α : Type} (n : Nat) (d : α) : resize [] n d = List.replicate n d := by
  simp [resize]

theorem length_resize {α : Type} (l : List α) (n : Nat) (d : α) : (resize l n d).length = n := by
  simp [resize]
  omega

theorem mem_setInsert (a x : Nat) (l : List Nat) : x ∈ setInsert a l ↔ x = a ∨ x ∈ l := by
  induction l with
  | nil => simp [setInsert]
  | cons b l ih =>
    unfold setInsert
    split_ifs with h1 h2
    · subst h1; simp
    · simp
    · simp only [List.mem_cons, ih]
      tauto

theorem set_set_set_triple {α : Type} (row : List α) (a b c : α) (h : row.length = 3) :
    ((row.set 0 a).set 1 b).set 2 c = [a, b, c] := by
  match row, h with
  | [_, _, _], _ => rfl

end LoopLemmas

section MapLemmas

variable {K V : Type} [LinearOrder K]

theorem mem_mapInsert (k : K) (v : V) (m : List (K × V)) (e : K × V)
    (he : e ∈ mapInsert k v m) : e = (k, v) ∨ e ∈ m := by
  induction m with
  | nil => simpa [mapInsert] using he
  | cons a m ih =>
    obtain ⟨k0, w⟩ := a
    unfold mapInsert at he
    split_ifs at he with h1 h2
    · rcases List.mem_cons.1 he with h | h
      · exact Or.inl h
      · exact Or.inr (List.mem_cons_of_mem _ h)
    · rcases List.mem_cons.1 he with h | h
      · exact Or.inl h
      · exact Or.inr h
    · rcases List.mem_cons.1 he with h | h
      · exact Or.inr (h ▸ List.mem_cons_self _ _)
      · rcases ih h with h3 | h3
        · exact Or.inl h3
        · exact Or.inr (List.mem_cons_of_mem _ h3)

theorem mapInsert_sorted (k : K) (v : V) (m : List (K × V))
    (hs : m.Pairwise (fun a b => a.1 < b.1)) :
    (mapInsert k v m).Pairwise (fun a b => a.1 < b.1) := by
  induction m with
  | nil => simp [mapInsert]
  | cons a m ih =>
    obtain ⟨k0, w⟩ := a
    have hhead := (List.pairwise_cons.1 hs).1
    have htail := (List.pairwise_cons.1 hs).2
    unfold mapInsert
    split_ifs with h1 h2
    · subst h1
      exact List.pairwise_cons.2 ⟨fun b hb => hhead b hb, htail⟩
    · refine List.pairwise_cons.2 ⟨?_, hs⟩
      intro b hb
      rcases List.mem_cons.1 hb with h | h
      · rw [h]; exact h2
      · exact lt_trans h2 (hhead b h)
    · refine List.pairwise_cons.2 ⟨?_, ih htail⟩
      intro b hb
      rcases mem_mapInsert k v m b hb with h | h
      · rw [h]
        exact lt_of_le_of_ne (not_lt.1 h2) (fun hc => h1 hc.symm)
      · exact hhead b h

theorem filter_ne_of_lt (k : K) (m : List (K × V)) (h : ∀ b ∈ m, k < b.1) :
    m.filter (fun e => decide (e.1 ≠ k)) = m := by
  apply List.filter_eq_self.2
  intro b hb
  simpa using ne_of_gt (h b hb)

theorem mapInsert_perm (k : K) (v : V) (m : List (K × V))
    (hs : m.Pairwise (fun a b => a.1 < b.1)) :
    (mapInsert k v m).Perm ((k, v) :: m.filter (fun e => decide (e.1 ≠ k))) := by
  induction m with
  | nil => simp [mapInsert]
  | cons a m ih =>
    obtain ⟨k0, w⟩ := a
    have hhead := (List.pairwise_cons.1 hs).1
    have htail := (List.pairwise_cons.1 hs).2
    unfold mapInsert
    split_ifs with h1 h2
    · subst h1
      have hf : m.filter (fun e => decide (e.1 ≠ k)) = m := filter_ne_of_lt k m hhead
      rw [List.filter_cons_of_neg (by simp), hf]
    · have hf : m.filter (fun e => decide (e.1 ≠ k)) = m :=
        filter_ne_of_lt k m (fun b hb => lt_trans h2 (hhead b hb))
      have hne : k0 ≠ k := fun hc => h1 hc.symm
      rw [List.filter_cons_of_pos (by simpa using hne), hf]
    · have hne : k0 ≠ k := fun hc => h1 hc.symm
      rw [List.filter_cons_of_pos (by simpa using hne)]
      exact ((ih htail).cons (k0, w)).trans (List.Perm.swap _ _ _)

theorem foldl_mapInsert_perm {α : Type} (f : α → K × V) (l : List α) (m0 : List (K × V))
    (hs : m0.Pairwise (fun a b => a.1 < b.1)) :
    (l.foldl (fun m a => mapInsert (f a).1 (f a).2 m) m0).Perm
      (m0.filter (fun e => !(l.any (fun b => decide ((f b).1 = e.1)))) ++
        (lastBy (fun a => (f a).1) l).map f) := by
  induction l generalizing m0 with
  | nil => simp [lastBy]
  | cons a l ih =>
    rw [List.foldl_cons]
    refine (ih _ (mapInsert_sorted _ _ m0 hs)).trans ?_
    have h1 := (mapInsert_perm (f a).1 (f a).2 m0 hs).filter
      (fun e => !(l.any (fun b => decide ((f b).1 = e.1))))
    refine (h1.append_right _).trans ?_
    have h2 : (m0.filter (fun e => decide (e.1 ≠ (f a).1))).filter
          (fun e => !(l.any (fun b => decide ((f b).1 = e.1)))) =
        m0.filter (fun e => !((a :: l).any (fun b => decide ((f b).1 = e.1)))) := by
      rw [List.filter_filter]
      apply List.filter_congr
      intro e _
      by_cases hk : (f a).1 = e.1
      · simp [hk]
      · have hk2 : e.1 ≠ (f a).1 := fun hc => hk hc.symm
        simp [hk, hk2]
    by_cases hex : l.any (fun b => decide ((f b).1 = (f a).1)) = true
    · have hl : lastBy (fun a => (f a).1) (a :: l) = lastBy (fun a => (f a).1) l := by
        simp only [lastBy, hex, if_true]
      rw [hl, List.filter_cons_of_neg (by simp [hex]), h2]
    · have hl : lastBy (fun a => (f a).1) (a :: l) = a :: lastBy (fun a => (f a).1) l := by
        simp only [lastBy, hex, Bool.false_eq_true, if_false]
      rw [hl, List.filter_cons_of_pos (by simpa using hex), h2, List.map_cons]
      exact List.perm_middle.symm

theorem lastBy_congr {α κ₁ κ₂ : Type} {d₁ : DecidableEq κ₁} {d₂ : DecidableEq κ₂}
    (key₁ : α → κ₁) (key₂ : α → κ₂) (l : List α)
    (h : ∀ a ∈ l, ∀ b ∈ l, key₁ a = key₁ b ↔ key₂ a = key₂ b) :
    @lastBy α κ₁ d₁ key₁ l = @lastBy α κ₂ d₂ key₂ l := by
  induction l with
  | nil => rfl
  | cons a l ih =>
    have ih2 := ih (fun x hx y hy => h x (List.mem_cons_of_mem _ hx) y (List.mem_cons_of_mem _ hy))
    have hany : l.any (fun b => decide (key₁ b = key₁ a)) =
        l.any (fun b => decide (key₂ b = key₂ a)) := by
      rw [Bool.eq_iff_iff]
      simp only [List.any_eq_true, decide_eq_true_eq]
      constructor
      · rintro ⟨b, hb, hk⟩
        exact ⟨b, hb, (h b (List.mem_cons_of_mem _ hb) a (List.mem_cons_self _ _)).1 hk⟩
      · rintro ⟨b, hb, hk⟩
        exact ⟨b, hb, (h b (List.mem_cons_of_mem _ hb) a (List.mem_cons_self _ _)).2 hk⟩
    simp only [lastBy, hany, ih2]

theorem lastBy_sublist {α κ : Type} [DecidableEq κ] (key : α → κ) (l : List α) :
    ∀ a ∈ lastBy key l, a ∈ l := by
  induction l with
  | nil => simp [lastBy]
  | cons b l ih =>
    intro a ha
    unfold lastBy at ha
    split_ifs at ha with h
    · exact List.mem_cons_of_mem _ (ih a ha)
    · rcases List.mem_cons.1 ha with h2 | h2
      · exact h2 ▸ List.mem_cons_self _ _
      · exact List.mem_cons_of_mem _ (ih a h2)

theorem mapAt_nil (j : Nat) : mapAt [] j = 0 := rfl

theorem mapAt_cons (k0 w : Nat) (m : List (Nat × Nat)) (j : Nat) :
    mapAt ((k0, w) :: m) j = if k0 = j then w else mapAt m j := by
  by_cases h : k0 = j
  · simp [mapAt, List.find?_cons, h]
  · simp [mapAt, List.find?_cons, h]

theorem mapAt_mapInsert (m : List (Nat × Nat)) (k v j : Nat) :
    mapAt (mapInsert k v m) j = if j = k then v else mapAt m j := by
  induction m with
  | nil =>
    simp only [mapInsert, mapAt_cons, mapAt_nil]
    by_cases h : j = k
    · simp [h]
    · have h2 : ¬ k = j := fun hc => h hc.symm
      simp [h, h2]
  | cons a m ih =>
    obtain ⟨k0, w⟩ := a
    unfold mapInsert
    split_ifs with h1 h2 h3 h4 h5
    all_goals simp only [mapAt_cons, ih]
    all_goals split_ifs <;> first | rfl | omega

end MapLemmas

section InitializeLemmas

variable {S R : Type} [LinearOrderedField R]

theorem mem_foldl_setInsert {α : Type} (key : α → Nat) (l : List α) (s0 : List Nat) (i : Nat) :
    i ∈ l.foldl (fun s a => setInsert (key a) s) s0 ↔ i ∈ s0 ∨ ∃ a ∈ l, key a = i := by
  induction l generalizing s0 with
  | nil => simp
  | cons a l ih =>
    simp only [List.foldl_cons, ih, mem_setInsert, List.mem_cons, exists_eq_or_imp]
    constructor
    · rintro ((h | h) | h)
      · exact Or.inr (Or.inl h.symm)
      · exact Or.inl h
      · exact Or.inr (Or.inr h)
    · rintro (h | h | h)
      · exact Or.inl (Or.inr h)
      · exact Or.inl (Or.inl h.symm)
      · exact Or.inr h

theorem mem_exceptionsWithOffsets (force : NonbondedForce R) (i : Nat) :
    i ∈ exceptionsWithOffsets force ↔ ∃ o ∈ force.exceptionParameterOffsets, o.index = i := by
  unfold exceptionsWithOffsets NonbondedForce.getNumExceptionParameterOffsets
    NonbondedForce.getExceptionParameterOffset
  rw [forLoop_getD_eq_foldl force.exceptionParameterOffsets _
    (fun o s => setInsert o.index s) [], mem_foldl_setInsert]
  simp

theorem qualifies14_iff (force : NonbondedForce R) (i : Nat) :
    qualifies14 force i = true ↔
      ((force.getExceptionParameters i).chargeProd ≠ 0 ∨
        (force.getExceptionParameters i).epsilon ≠ 0 ∨ i ∈ exceptionsWithOffsets force) := by
  simp [qualifies14, mem_exceptionsWithOffsets, or_assoc]

theorem identify14_loop_nb14s (force : NonbondedForce R) (excl : List (List Nat)) (n : Nat) :
    (forLoop n (identify14Step force (exceptionsWithOffsets force)) (excl, [], [])).2.1 =
      (List.range n).filter (qualifies14 force) := by
  induction n with
  | zero => simp [forLoop_zero]
  | succ n ih =>
    rw [forLoop_succ, List.range_succ, List.filter_append, ← ih]
    generalize forLoop n (identify14Step force (exceptionsWithOffsets force)) (excl, [], []) = st
    unfold identify14Step
    by_cases h : qualifies14 force n = true
    · have h2 := (qualifies14_iff force n).1 h
      simp only [h2, if_true]
      simp [h]
    · have h2 : ¬ ((force.getExceptionParameters n).chargeProd ≠ 0 ∨
          (force.getExceptionParameters n).epsilon ≠ 0 ∨ n ∈ exceptionsWithOffsets force) :=
        fun hc => h ((qualifies14_iff force n).2 hc)
      simp only [h2, if_false]
      simp [h]

theorem identify14_loop_index (force : NonbondedForce R) (excl : List (List Nat)) (n : Nat) :
    ∀ e ∈ (forLoop n (identify14Step force (exceptionsWithOffsets force)) (excl, [], [])).2.1,
      (forLoop n (identify14Step force (exceptionsWithOffsets force)) (excl, [], [])).2.1[
        mapAt (forLoop n (identify14Step force (exceptionsWithOffsets force))
          (excl, [], [])).2.2 e]? = some e := by
  induction n with
  | zero => simp [forLoop_zero]
  | succ n ih =>
    have hlist := identify14_loop_nb14s force excl n
    rw [forLoop_succ]
    generalize forLoop n (identify14Step force (exceptionsWithOffsets force)) (excl, [], []) = st
      at ih hlist ⊢
    unfold identify14Step
    by_cases h : ((force.getExceptionParameters n).chargeProd ≠ 0 ∨
          (force.getExceptionParameters n).epsilon ≠ 0 ∨ n ∈ exceptionsWithOffsets force)
    · simp only [h, if_true]
      intro e he
      rw [mapAt_mapInsert]
      by_cases hen : e = n
      · subst hen
        simp
      · simp only [hen, if_false]
        have he2 : e ∈ st.2.1 := by
          rcases List.mem_append.1 he with h3 | h3
          · exact h3
          · exact absurd (List.mem_singleton.1 h3) hen
        have h4 := ih e he2
        have h5 : mapAt st.2.2 e < st.2.1.length := by
          by_contra hc
          rw [List.getElem?_eq_none (by omega)] at h4
          exact Option.noConfusion h4
        rw [List.getElem?_append_left h5]
        exact h4
    · simp only [h, if_false]
      exact ih

theorem identify14_nb14s (force : NonbondedForce R) (excl : List (List Nat)) :
    (identify14 force (exceptionsWithOffsets force) excl).2.1 = nb14List force :=
  identify14_loop_nb14s force excl force.getNumExceptions

theorem collect14_eq (force : NonbondedForce R) :
    collect14 force (exceptionsWithOffsets force) = nb14List force := by
  unfold collect14 nb14List
  generalize force.getNumExceptions = n
  induction n with
  | zero => simp [forLoop_zero]
  | succ n ih =>
    rw [forLoop_succ, List.range_succ, List.filter_append]
    by_cases h : qualifies14 force n = true
    · have h2 := (qualifies14_iff force n).1 h
      simp only [h2, if_true, ih]
      simp [h]
    · have h2 : ¬ ((force.getExceptionParameters n).chargeProd ≠ 0 ∨
          (force.getExceptionParameters n).epsilon ≠ 0 ∨ n ∈ exceptionsWithOffsets force) :=
        fun hc => h ((qualifies14_iff force n).2 hc)
      simp only [h2, if_false, ih]
      simp [h]

theorem recordParticleParams_eq (force : NonbondedForce R) (base : List (R × R × R))
    (hlen : base.length = force.getNumParticles) :
    recordParticleParams force force.getNumParticles base =
      force.particles.map (fun p => (p.charge, p.sigma, p.epsilon)) := by
  unfold recordParticleParams
  rw [forLoop_set_eq_map _ base force.getNumParticles hlen]
  exact range_map_getD force.particles _ (fun p => (p.charge, p.sigma, p.epsilon))

theorem set_set_pair (row : List Nat) (x y : Nat) (h : row.length = 2) :
    (row.set 0 x).set 1 y = [x, y] := by
  match row, h with
  | [a, b], _ => rfl

theorem record14_eq (force : NonbondedForce R) (nb14s : List Nat)
    (base : List (R × R × R)) (idx : List (List Nat))
    (hbase : base.length = nb14s.length) (hidx : idx.length = nb14s.length)
    (hrow : ∀ row ∈ idx, row.length = 2) :
    record14 force nb14s nb14s.length (base, idx) =
      (nb14s.map (fun i => ((force.getExceptionParameters i).chargeProd,
          (force.getExceptionParameters i).sigma, (force.getExceptionParameters i).epsilon)),
        nb14s.map (fun i => [(force.getExceptionParameters i).particle1,
          (force.getExceptionParameters i).particle2])) := by
  unfold record14
  have hsplit := forLoop_pair nb14s.length
    (fun i (b : List (R × R × R)) =>
      b.set i ((force.getExceptionParameters (nb14s.getD i 0)).chargeProd,
        (force.getExceptionParameters (nb14s.getD i 0)).sigma,
        (force.getExceptionParameters (nb14s.getD i 0)).epsilon))
    (fun i (a : List (List Nat)) =>
      a.modify (fun row =>
        (row.set 0 (force.getExceptionParameters (nb14s.getD i 0)).particle1).set 1
          (force.getExceptionParameters (nb14s.getD i 0)).particle2) i)
    (base, idx)
  rw [hsplit, forLoop_set_eq_map _ base nb14s.length hbase,
    forLoop_modify_eq_map _ idx [0, 0] nb14s.length hidx]
  refine Prod.ext ?_ ?_
  · exact range_map_getD nb14s 0 (fun i => ((force.getExceptionParameters i).chargeProd,
      (force.getExceptionParameters i).sigma, (force.getExceptionParameters i).epsilon))
  · simp only
    rw [← range_map_getD nb14s 0 (fun i => [(force.getExceptionParameters i).particle1,
      (force.getExceptionParameters i).particle2])]
    apply List.map_congr_left
    intro i hi
    have hi2 : i < idx.length := by rw [hidx]; simpa using hi
    apply set_set_pair
    apply hrow
    rw [List.getD_eq_getElem _ _ hi2]
    exact List.getElem_mem hi2

end InitializeLemmas

section InitializedKernel

variable {S R : Type} [LinearOrderedField R]

theorem initializeKernel_numParticles (ext : Externals S R) (k : Kernel R) (system : S)
    (force : NonbondedForce R) :
    (initializeKernel ext k system force).numParticles = force.getNumParticles := by
  unfold initializeKernel
  cases force.nonbondedMethod <;> simp

theorem initializeKernel_num14 (ext : Externals S R) (k : Kernel R) (system : S)
    (force : NonbondedForce R) :
    (initializeKernel ext k system force).num14 = (nb14List force).length := by
  unfold initializeKernel
  cases force.nonbondedMethod <;> simp [identify14_nb14s]

theorem initializeKernel_baseParticleParams (ext : Externals S R) (u : Kernel R) (system : S)
    (force : NonbondedForce R) :
    (initializeKernel ext (Kernel.constructed u) system force).baseParticleParams =
      force.particles.map (fun p => (p.charge, p.sigma, p.epsilon)) := by
  have h := recordParticleParams_eq force
    (resize (Kernel.constructed u).baseParticleParams force.getNumParticles (0, 0, 0))
    (length_resize _ _ _)
  unfold initializeKernel
  cases force.nonbondedMethod <;> simpa using h

theorem initializeKernel_recorded (force : NonbondedForce R) (u : Kernel R) :
    record14 force (nb14List force) (nb14List force).length
        (resize (Kernel.constructed u).baseExceptionParams (nb14List force).length (0, 0, 0),
          resize (Kernel.constructed u).bonded14IndexArray (nb14List force).length [0, 0]) =
      ((nb14List force).map (fun i => ((force.getExceptionParameters i).chargeProd,
          (force.getExceptionParameters i).sigma, (force.getExceptionParameters i).epsilon)),
        (nb14List force).map (fun i => [(force.getExceptionParameters i).particle1,
          (force.getExceptionParameters i).particle2])) := by
  apply record14_eq
  · exact length_resize _ _ _
  · exact length_resize _ _ _
  · intro row hrow
    simp only [Kernel.constructed, resize_nil] at hrow
    rw [List.eq_of_mem_replicate hrow]
    rfl

theorem initializeKernel_baseExceptionParams (ext : Externals S R) (u : Kernel R) (system : S)
    (force : NonbondedForce R) :
    (initializeKernel ext (Kernel.constructed u) system force).baseExceptionParams =
      (nb14List force).map (fun i => ((force.getExceptionParameters i).chargeProd,
          (force.getExceptionParameters i).sigma, (force.getExceptionParameters i).epsilon)) := by
  have h := initializeKernel_recorded force u
  unfold initializeKernel
  simp only [identify14_nb14s]
  cases force.nonbondedMethod <;> exact congrArg Prod.fst h

theorem initializeKernel_bonded14IndexArray (ext : Externals S R) (u : Kernel R) (system : S)
    (force : NonbondedForce R) :
    (initializeKernel ext (Kernel.constructed u) system force).bonded14IndexArray =
      (nb14List force).map (fun i => [(force.getExceptionParameters i).particle1,
          (force.getExceptionParameters i).particle2]) := by
  have h := initializeKernel_recorded force u
  unfold initializeKernel
  simp only [identify14_nb14s]
  cases force.nonbondedMethod <;> exact congrArg Prod.snd h

end InitializedKernel

section ResolveLemmas

variable {S R : Type} [LinearOrderedField R]

theorem foldl_modify_add_getElem? {ε : Type} (val : ε → R) (idx : ε → Nat) (m : List ε)
    (c0 : List R) (i : Nat) :
    (m.foldl (fun c e => c.modify (fun x => x + val e) (idx e)) c0)[i]? =
      (c0[i]?).map
        (fun x => x + ((m.filter (fun e => decide (idx e = i))).map val).sum) := by
  induction m generalizing c0 with
  | nil => simp
  | cons e m ih =>
    rw [List.foldl_cons, ih, List.getElem?_modify]
    cases c0[i]? with
    | none => simp
    | some a =>
      by_cases h : idx e = i
      · simp [h, List.filter_cons, add_assoc]
      · simp [h, List.filter_cons]

theorem applyOffsets_charges (g : String → R) (m : OffsetMap R) (p : Resolved R) :
    (applyOffsets g m p).charges =
      m.foldl (fun c e => c.modify (fun x => x + g (ofLex e.1).1 * e.2.1) (ofLex e.1).2)
        p.charges := by
  induction m generalizing p with
  | nil => rfl
  | cons e m ih =>
    simp only [applyOffsets, List.foldl_cons]
    exact ih _

theorem applyOffsets_sigmas (g : String → R) (m : OffsetMap R) (p : Resolved R) :
    (applyOffsets g m p).sigmas =
      m.foldl (fun c e => c.modify (fun x => x + g (ofLex e.1).1 * e.2.2.1) (ofLex e.1).2)
        p.sigmas := by
  induction m generalizing p with
  | nil => rfl
  | cons e m ih =>
    simp only [applyOffsets, List.foldl_cons]
    exact ih _

theorem applyOffsets_epsilons (g : String → R) (m : OffsetMap R) (p : Resolved R) :
    (applyOffsets g m p).epsilons =
      m.foldl (fun c e => c.modify (fun x => x + g (ofLex e.1).1 * e.2.2.2) (ofLex e.1).2)
        p.epsilons := by
  induction m generalizing p with
  | nil => rfl
  | cons e m ih =>
    simp only [applyOffsets, List.foldl_cons]
    exact ih _

theorem loadBase_charges (n : Nat) (base : List (R × R × R)) (p : Resolved R) :
    (loadBase n base p).charges =
      forLoop n (fun i c => c.set i (base.getD i (0, 0, 0)).1) p.charges := by
  unfold loadBase
  induction n with
  | zero => simp [forLoop_zero]
  | succ n ih => rw [forLoop_succ, forLoop_succ, ← ih]

theorem loadBase_sigmas (n : Nat) (base : List (R × R × R)) (p : Resolved R) :
    (loadBase n base p).sigmas =
      forLoop n (fun i c => c.set i (base.getD i (0, 0, 0)).2.1) p.sigmas := by
  unfold loadBase
  induction n with
  | zero => simp [forLoop_zero]
  | succ n ih => rw [forLoop_succ, forLoop_succ, ← ih]

theorem loadBase_epsilons (n : Nat) (base : List (R × R × R)) (p : Resolved R) :
    (loadBase n base p).epsilons =
      forLoop n (fun i c => c.set i (base.getD i (0, 0, 0)).2.2) p.epsilons := by
  unfold loadBase
  induction n with
  | zero => simp [forLoop_zero]
  | succ n ih => rw [forLoop_succ, forLoop_succ, ← ih]

/-- One component of the resolved values: `π` picks the component of a triple. -/
theorem resolved_component (π : R × R × R → R) (g : String → R) (m : OffsetMap R) (n : Nat)
    (base : List (R × R × R)) (c0 : List R) (hb : base.length = n) (hc : c0.length = n)
    (i : Nat) :
    (m.foldl (fun c e => c.modify (fun x => x + g (ofLex e.1).1 * π e.2) (ofLex e.1).2)
        (forLoop n (fun i c => c.set i (π (base.getD i (0, 0, 0)))) c0))[i]? =
      (base[i]?).map (fun b => π b +
        ((m.filter (fun e => decide ((ofLex e.1).2 = i))).map
          (fun e => g (ofLex e.1).1 * π e.2)).sum) := by
  refine (foldl_modify_add_getElem? (fun e : OffsetKey × (R × R × R) => g (ofLex e.1).1 * π e.2)
    (fun e => (ofLex e.1).2) m _ i).trans ?_
  rw [forLoop_set_eq_map _ c0 n hc]
  subst hb
  rw [range_map_getD base (0, 0, 0) π, List.getElem?_map]
  cases base[i]? <;> rfl

theorem registered_sum (g : String → R) (key : ParameterOffset R → Nat) (π : R × R × R → R)
    (L : List (ParameterOffset R)) (m : OffsetMap R)
    (hm : m.Perm (L.map (fun o => (toLex (o.param, key o), (o.charge, o.sigma, o.epsilon)))))
    (i : Nat) :
    ((m.filter (fun e => decide ((ofLex e.1).2 = i))).map
        (fun e => g (ofLex e.1).1 * π e.2)).sum =
      ((L.filter (fun o => decide (key o = i))).map
        (fun o => g o.param * π (o.charge, o.sigma, o.epsilon))).sum := by
  rw [((hm.filter _).map _).sum_eq, List.filter_map, List.map_map]
  rfl

theorem registerParticleOffsets_perm (force : NonbondedForce R) :
    (registerParticleOffsets force []).Perm
      ((lastRegistered force.particleParameterOffsets).map
        (fun o => (toLex (o.param, o.index), (o.charge, o.sigma, o.epsilon)))) := by
  unfold registerParticleOffsets NonbondedForce.getNumParticleParameterOffsets
    NonbondedForce.getParticleParameterOffset
  rw [forLoop_getD_eq_foldl force.particleParameterOffsets _
    (fun o m => mapInsert (toLex (o.param, o.index)) (o.charge, o.sigma, o.epsilon) m) []]
  have h := foldl_mapInsert_perm
    (fun o : ParameterOffset R => ((toLex (o.param, o.index) : OffsetKey),
      (o.charge, o.sigma, o.epsilon))) force.particleParameterOffsets [] List.Pairwise.nil
  simp only [List.filter_nil, List.nil_append] at h
  refine h.trans (List.Perm.of_eq ?_)
  congr 1
  unfold lastRegistered
  apply lastBy_congr
  intro a _ b _
  exact toLex_inj

theorem registerExceptionOffsets_perm (force : NonbondedForce R) (nb14Index : List (Nat × Nat))
    (hinj : ∀ a ∈ force.exceptionParameterOffsets, ∀ b ∈ force.exceptionParameterOffsets,
      mapAt nb14Index a.index = mapAt nb14Index b.index → a.index = b.index) :
    (registerExceptionOffsets force nb14Index []).Perm
      ((lastRegistered force.exceptionParameterOffsets).map
        (fun o => (toLex (o.param, mapAt nb14Index o.index),
          (o.charge, o.sigma, o.epsilon)))) := by
  unfold registerExceptionOffsets NonbondedForce.getNumExceptionParameterOffsets
    NonbondedForce.getExceptionParameterOffset
  rw [forLoop_getD_eq_foldl force.exceptionParameterOffsets _
    (fun o m => mapInsert (toLex (o.param, mapAt nb14Index o.index))
      (o.charge, o.sigma, o.epsilon) m) []]
  have h := foldl_mapInsert_perm
    (fun o : ParameterOffset R => ((toLex (o.param, mapAt nb14Index o.index) : OffsetKey),
      (o.charge, o.sigma, o.epsilon))) force.exceptionParameterOffsets [] List.Pairwise.nil
  simp only [List.filter_nil, List.nil_append] at h
  refine h.trans (List.Perm.of_eq ?_)
  congr 1
  unfold lastRegistered
  apply lastBy_congr
  intro a ha b hb
  rw [toLex_inj, Prod.mk.injEq, Prod.mk.injEq]
  constructor
  · rintro ⟨h1, h2⟩
    exact ⟨h1, hinj a ha b hb h2⟩
  · rintro ⟨h1, h2⟩
    exact ⟨h1, by rw [h2]⟩

theorem increasing_getElem?_inj (l : List Nat) (hl : l.Pairwise (fun i j => i < j))
    (a b x : Nat) (ha : l[a]? = some x) (hb : l[b]? = some x) : a = b := by
  obtain ⟨ha1, ha2⟩ := List.getElem?_eq_some.1 ha
  obtain ⟨hb1, hb2⟩ := List.getElem?_eq_some.1 hb
  have hp := List.pairwise_iff_getElem.1 hl
  rcases Nat.lt_trichotomy a b with h | h | h
  · have := hp a b ha1 hb1 h
    omega
  · exact h
  · have := hp b a hb1 ha1 h
    omega

theorem nb14List_increasing (force : NonbondedForce R) :
    (nb14List force).Pairwise (fun i j => i < j) :=
  List.Pairwise.filter _ (List.pairwise_lt_range _)

theorem identify14_index (force : NonbondedForce R) (excl : List (List Nat)) (e : Nat)
    (he : e ∈ nb14List force) :
    (nb14List force)[mapAt (identify14 force (exceptionsWithOffsets force) excl).2.2 e]? =
      some e := by
  have h := identify14_loop_index force excl force.getNumExceptions e
  have hl := identify14_loop_nb14s force excl force.getNumExceptions
  unfold identify14
  rw [hl] at h
  exact h he

theorem offset_target_mem_nb14List (force : NonbondedForce R)
    (hvalid : ∀ o ∈ force.exceptionParameterOffsets, o.index < force.getNumExceptions)
    (o : ParameterOffset R) (ho : o ∈ force.exceptionParameterOffsets) :
    o.index ∈ nb14List force := by
  simp only [nb14List, List.mem_filter, List.mem_range, qualifies14_iff,
    mem_exceptionsWithOffsets]
  exact ⟨hvalid o ho, Or.inr (Or.inr ⟨o, ho, rfl⟩)⟩

theorem initializeKernel_particleParamOffsets (ext : Externals S R) (u : Kernel R) (system : S)
    (force : NonbondedForce R) :
    (initializeKernel ext (Kernel.constructed u) system force).particleParamOffsets =
      registerParticleOffsets force [] := by
  unfold initializeKernel
  cases force.nonbondedMethod <;> rfl

theorem initializeKernel_exceptionParamOffsets (ext : Externals S R) (u : Kernel R) (system : S)
    (force : NonbondedForce R) :
    (initializeKernel ext (Kernel.constructed u) system force).exceptionParamOffsets =
      registerExceptionOffsets force
        (identify14 force (exceptionsWithOffsets force)
          (resize (Kernel.constructed u).exclusions force.getNumParticles [])).2.2 [] := by
  unfold initializeKernel
  cases force.nonbondedMethod <;> rfl

/-- One component (`π` of the triples, `delta` of the offsets) of the effective particle
values of an initialized kernel. -/
theorem particleEffective_component (π : R × R × R → R) (delta : ParameterOffset R → R)
    (hπ : ∀ o : ParameterOffset R, π (o.charge, o.sigma, o.epsilon) = delta o)
    (ext : Externals S R) (u : Kernel R) (system : S) (force : NonbondedForce R)
    (g : String → R) (c0 : List R) (hc : c0.length = force.getNumParticles) (i : Nat)
    (hi : i < force.getNumParticles) :
    ((initializeKernel ext (Kernel.constructed u) system force).particleParamOffsets.foldl
        (fun c e => c.modify (fun x => x + g (ofLex e.1).1 * π e.2) (ofLex e.1).2)
        (forLoop force.getNumParticles
          (fun i c => c.set i (π ((initializeKernel ext (Kernel.constructed u) system
            force).baseParticleParams.getD i (0, 0, 0)))) c0))[i]? =
      some (π ((force.getParticleParameters i).charge, (force.getParticleParameters i).sigma,
          (force.getParticleParameters i).epsilon) +
        offsetSum g delta (lastRegistered force.particleParameterOffsets) i) := by
  rw [initializeKernel_particleParamOffsets, initializeKernel_baseParticleParams]
  refine (resolved_component π g _ force.getNumParticles _ c0 (by
    simp [NonbondedForce.getNumParticles]) hc i).trans ?_
  rw [registered_sum g (fun o => o.index) π _ _ (registerParticleOffsets_perm force) i]
  have hi2 : i < force.particles.length := hi
  rw [List.getElem?_map, List.getElem?_eq_getElem hi2]
  simp only [Option.map_some', NonbondedForce.getParticleParameters, offsetSum, hπ,
    List.getD_eq_getElem _ _ hi2]

/-- One component of the effective 1-4 values of an initialized kernel. -/
theorem exceptionEffective_component (π : R × R × R → R) (delta : ParameterOffset R → R)
    (hπ : ∀ o : ParameterOffset R, π (o.charge, o.sigma, o.epsilon) = delta o)
    (ext : Externals S R) (u : Kernel R) (system : S) (force : NonbondedForce R)
    (hvalid : ∀ o ∈ force.exceptionParameterOffsets, o.index < force.getNumExceptions)
    (g : String → R) (c0 : List R) (hc : c0.length = (nb14List force).length) (j : Nat)
    (hj : j < (nb14List force).length) :
    ((initializeKernel ext (Kernel.constructed u) system force).exceptionParamOffsets.foldl
        (fun c e => c.modify (fun x => x + g (ofLex e.1).1 * π e.2) (ofLex e.1).2)
        (forLoop (nb14List force).length
          (fun i c => c.set i (π ((initializeKernel ext (Kernel.constructed u) system
            force).baseExceptionParams.getD i (0, 0, 0)))) c0))[j]? =
      some (π ((force.getExceptionParameters ((nb14List force).getD j 0)).chargeProd,
          (force.getExceptionParameters ((nb14List force).getD j 0)).sigma,
          (force.getExceptionParameters ((nb14List force).getD j 0)).epsilon) +
        offsetSum g delta (lastRegistered force.exceptionParameterOffsets)
          ((nb14List force).getD j 0)) := by
  have hidx := identify14_index force
    (resize (Kernel.constructed u).exclusions force.getNumParticles [])
  have hmem := offset_target_mem_nb14List force hvalid
  rw [initializeKernel_exceptionParamOffsets, initializeKernel_baseExceptionParams]
  refine (resolved_component π g _ (nb14List force).length _ c0 (by simp) hc j).trans ?_
  have hperm := registerExceptionOffsets_perm force
    (identify14 force (exceptionsWithOffsets force)
      (resize (Kernel.constructed u).exclusions force.getNumParticles [])).2.2
    (by
      intro a ha b hb hab
      have h1 := hidx a.index (hmem a ha)
      have h2 := hidx b.index (hmem b hb)
      rw [hab, h2] at h1
      exact (Option.some.inj h1).symm)
  rw [registered_sum g _ π _ _ hperm j, List.getElem?_map, List.getElem?_eq_getElem hj]
  simp only [Option.map_some', offsetSum, hπ, List.getD_eq_getElem _ _ hj]
  have hfilter : (lastRegistered force.exceptionParameterOffsets).filter
      (fun o => decide (mapAt (identify14 force (exceptionsWithOffsets force)
        (resize (Kernel.constructed u).exclusions force.getNumParticles [])).2.2 o.index = j)) =
      (lastRegistered force.exceptionParameterOffsets).filter
        (fun o => decide (o.index = (nb14List force)[j])) := by
    apply List.filter_congr
    intro o ho
    have ho2 := lastBy_sublist _ _ o ho
    have h1 := hidx o.index (hmem o ho2)
    rw [decide_eq_decide]
    constructor
    · intro h
      rw [h, List.getElem?_eq_getElem hj] at h1
      exact (Option.some.inj h1).symm
    · intro h
      exact increasing_getElem?_inj _ (nb14List_increasing force) _ _ o.index h1
        (by rw [List.getElem?_eq_getElem hj, h])
  rw [hfilter]

end ResolveLemmas

section EffectiveValues

variable {S R : Type} [LinearOrderedField R]

theorem particleEffective_initialized (ext : Externals S R) (u : Kernel R) (system : S)
    (force : NonbondedForce R) (context : Context S R) (i : Nat)
    (hi : i < force.getNumParticles) :
    (particleEffective (initializeKernel ext (Kernel.constructed u) system force)
        context).charges[i]? =
      some ((force.getParticleParameters i).charge +
        offsetSum context.getParameter (fun o => o.charge)
          (lastRegistered force.particleParameterOffsets) i) ∧
    (particleEffective (initializeKernel ext (Kernel.constructed u) system force)
        context).sigmas[i]? =
      some ((force.getParticleParameters i).sigma +
        offsetSum context.getParameter (fun o => o.sigma)
          (lastRegistered force.particleParameterOffsets) i) ∧
    (particleEffective (initializeKernel ext (Kernel.constructed u) system force)
        context).epsilons[i]? =
      some ((force.getParticleParameters i).epsilon +
        offsetSum context.getParameter (fun o => o.epsilon)
          (lastRegistered force.particleParameterOffsets) i) := by
  unfold particleEffective
  rw [applyOffsets_charges, applyOffsets_sigmas, applyOffsets_epsilons, loadBase_charges,
    loadBase_sigmas, loadBase_epsilons, initializeKernel_numParticles]
  exact ⟨particleEffective_component (fun t => t.1) (fun o => o.charge) (fun _ => rfl) ext u
      system force _ _ (by simp) i hi,
    particleEffective_component (fun t => t.2.1) (fun o => o.sigma) (fun _ => rfl) ext u
      system force _ _ (by simp) i hi,
    particleEffective_component (fun t => t.2.2) (fun o => o.epsilon) (fun _ => rfl) ext u
      system force _ _ (by simp) i hi⟩

theorem exceptionEffective_initialized (ext : Externals S R) (u : Kernel R) (system : S)
    (force : NonbondedForce R) (context : Context S R)
    (hvalid : ∀ o ∈ force.exceptionParameterOffsets, o.index < force.getNumExceptions)
    (j : Nat) (hj : j < (nb14List force).length) :
    (exceptionEffective (initializeKernel ext (Kernel.constructed u) system force)
        context).charges[j]? =
      some ((force.getExceptionParameters ((nb14List force).getD j 0)).chargeProd +
        offsetSum context.getParameter (fun o => o.charge)
          (lastRegistered force.exceptionParameterOffsets) ((nb14List force).getD j 0)) ∧
    (exceptionEffective (initializeKernel ext (Kernel.constructed u) system force)
        context).sigmas[j]? =
      some ((force.getExceptionParameters ((nb14List force).getD j 0)).sigma +
        offsetSum context.getParameter (fun o => o.sigma)
          (lastRegistered force.exceptionParameterOffsets) ((nb14List force).getD j 0)) ∧
    (exceptionEffective (initializeKernel ext (Kernel.constructed u) system force)
        context).epsilons[j]? =
      some ((force.getExceptionParameters ((nb14List force).getD j 0)).epsilon +
        offsetSum context.getParameter (fun o => o.epsilon)
          (lastRegistered force.exceptionParameterOffsets) ((nb14List force).getD j 0)) := by
  unfold exceptionEffective
  rw [applyOffsets_charges, applyOffsets_sigmas, applyOffsets_epsilons, loadBase_charges,
    loadBase_sigmas, loadBase_epsilons, initializeKernel_num14]
  exact ⟨exceptionEffective_component (fun t => t.1) (fun o => o.charge) (fun _ => rfl) ext u
      system force hvalid _ _ (length_resize _ _ _) j hj,
    exceptionEffective_component (fun t => t.2.1) (fun o => o.sigma) (fun _ => rfl) ext u
      system force hvalid _ _ (length_resize _ _ _) j hj,
    exceptionEffective_component (fun t => t.2.2) (fun o => o.epsilon) (fun _ => rfl) ext u
      system force hvalid _ _ (length_resize _ _ _) j hj⟩

theorem initializeKernel_particleParamArray (ext : Externals S R) (u : Kernel R) (system : S)
    (force : NonbondedForce R) :
    (initializeKernel ext (Kernel.constructed u) system force).particleParamArray =
      List.replicate force.getNumParticles [0, 0, 0] := by
  unfold initializeKernel
  cases force.nonbondedMethod <;> exact resize_nil _ _

theorem initializeKernel_bonded14ParamArray (ext : Externals S R) (u : Kernel R) (system : S)
    (force : NonbondedForce R) :
    (initializeKernel ext (Kernel.constructed u) system force).bonded14ParamArray =
      List.replicate (nb14List force).length [0, 0, 0] := by
  unfold initializeKernel
  simp only [identify14_nb14s]
  cases force.nonbondedMethod <;> exact resize_nil _ _

theorem forLoop_rows_replicate (n : Nat) (row : Nat → List R) :
    forLoop n
      (fun i (arr : List (List R)) =>
        arr.modify
          (fun r => ((r.set 0 ((row i).getD 0 0)).set 1 ((row i).getD 1 0)).set 2
            ((row i).getD 2 0)) i)
      (List.replicate n [0, 0, 0]) =
    (List.range n).map (fun i => [(row i).getD 0 0, (row i).getD 1 0, (row i).getD 2 0]) := by
  rw [forLoop_modify_eq_map _ _ [0, 0, 0] n (by simp)]
  apply List.map_congr_left
  intro i hi
  apply set_set_set_triple
  have hi2 : i < n := by simpa using hi
  simp [List.getD_eq_getElem?_getD, List.getElem?_replicate, hi2]

end EffectiveValues

section CopyLemmas

variable {S R : Type} [LinearOrderedField R]

theorem initializeKernel_dispersionCoefficient (ext : Externals S R) (k : Kernel R) (system : S)
    (force : NonbondedForce R) :
    (initializeKernel ext k system force).dispersionCoefficient =
      if force.useDispersionCorrection then ext.calcDispersionCorrection system force
      else 0 := by
  unfold initializeKernel
  cases force.nonbondedMethod <;> rfl

theorem copyParametersToContext_error_particles (ext : Externals S R) (k : Kernel R)
    (context : Context S R) (force : NonbondedForce R)
    (h : force.getNumParticles ≠ k.numParticles) :
    copyParametersToContext ext k context force =
      .error "updateParametersInContext: The number of particles has changed" k := by
  unfold copyParametersToContext
  rw [if_pos h]

theorem copyParametersToContext_error_num14 (ext : Externals S R) (k : Kernel R)
    (context : Context S R) (force : NonbondedForce R)
    (hp : force.getNumParticles = k.numParticles) (h : (nb14List force).length ≠ k.num14) :
    copyParametersToContext ext k context force =
      .error "updateParametersInContext: The number of non-excluded exceptions has changed"
        k := by
  unfold copyParametersToContext
  rw [if_neg (not_not.2 hp)]
  simp only [collect14_eq]
  rw [if_pos h]

theorem copyParametersToContext_ok (ext : Externals S R) (k : Kernel R)
    (context : Context S R) (force : NonbondedForce R)
    (hp : force.getNumParticles = k.numParticles) (h14 : (nb14List force).length = k.num14)
    (hbp : k.baseParticleParams.length = k.numParticles)
    (hbe : k.baseExceptionParams.length = k.num14)
    (hidx : k.bonded14IndexArray.length = k.num14)
    (hrow : ∀ row ∈ k.bonded14IndexArray, row.length = 2) :
    copyParametersToContext ext k context force = .ok () (copiedKernel ext k context force) := by
  have hrec := record14_eq force (nb14List force) k.baseExceptionParams k.bonded14IndexArray
    (by rw [hbe, h14]) (by rw [hidx, h14]) hrow
  have hpar := recordParticleParams_eq force k.baseParticleParams (by rw [hbp, hp])
  rw [h14] at hrec
  rw [hp] at hpar
  unfold copyParametersToContext
  rw [if_neg (not_not.2 hp)]
  simp only [collect14_eq]
  rw [if_neg (not_not.2 h14), hrec, hpar]
  unfold copiedKernel
  split_ifs <;> rfl

theorem initializeKernel_shape (ext : Externals S R) (u : Kernel R) (system : S)
    (force : NonbondedForce R) :
    (initializeKernel ext (Kernel.constructed u) system force).baseParticleParams.length =
        (initializeKernel ext (Kernel.constructed u) system force).numParticles ∧
    (initializeKernel ext (Kernel.constructed u) system force).baseExceptionParams.length =
        (initializeKernel ext (Kernel.constructed u) system force).num14 ∧
    (initializeKernel ext (Kernel.constructed u) system force).bonded14IndexArray.length =
        (initializeKernel ext (Kernel.constructed u) system force).num14 ∧
    (∀ row ∈ (initializeKernel ext (Kernel.constructed u) system force).bonded14IndexArray,
        row.length = 2) := by
  rw [initializeKernel_baseParticleParams, initializeKernel_baseExceptionParams,
    initializeKernel_bonded14IndexArray, initializeKernel_numParticles, initializeKernel_num14]
  refine ⟨by simp [NonbondedForce.getNumParticles], by simp, by simp, ?_⟩
  intro row hrow
  obtain ⟨i, _, hi⟩ := List.mem_map.1 hrow
  rw [← hi]
  rfl

end CopyLemmas

section ExecuteLemmas

variable {S R : Type} [LinearOrderedField R]

theorem prepare_fields (ext : Externals S R) (k : Kernel R) (context : Context S R) :
    (prepare ext k context).1.nonbondedMethod = k.nonbondedMethod ∧
    (prepare ext k context).1.nonbondedCutoff = k.nonbondedCutoff := by
  unfold prepare computeParameters
  constructor <;> (simp only []; split_ifs <;> rfl)

theorem usesPeriodicBox_prepare (ext : Externals S R) (k : Kernel R) (context : Context S R) :
    usesPeriodicBox (prepare ext k context).1 = usesPeriodicBox k := by
  unfold usesPeriodicBox
  rw [(prepare_fields ext k context).1]

theorem boxTooSmall_prepare (ext : Externals S R) (k : Kernel R) (context : Context S R)
    (box : Box R) : boxTooSmall (prepare ext k context).1 box = boxTooSmall k box := by
  unfold boxTooSmall
  rw [(prepare_fields ext k context).2]

omit [LinearOrderedField R] in
theorem usesPeriodicBox_iff (k : Kernel R) :
    usesPeriodicBox k = true ↔
      (k.nonbondedMethod = .CutoffPeriodic ∨ k.nonbondedMethod = .Ewald ∨
        k.nonbondedMethod = .PME ∨ k.nonbondedMethod = .LJPME) := by
  simp [usesPeriodicBox, or_assoc]

theorem boxTooSmall_iff (k : Kernel R) (box : Box R) :
    boxTooSmall k box = true ↔
      (box.a.x < 1.999999 * k.nonbondedCutoff ∨ box.b.y < 1.999999 * k.nonbondedCutoff ∨
        box.c.z < 1.999999 * k.nonbondedCutoff) := by
  simp [boxTooSmall, or_assoc]

theorem execute_error (ext : Externals S R) (k : Kernel R) (context : Context S R)
    (includeForces includeEnergy includeDirect includeReciprocal : Bool)
    (hm : usesPeriodicBox k = true) (hbox : boxTooSmall k context.periodicBoxVectors = true) :
    execute ext k context includeForces includeEnergy includeDirect includeReciprocal =
      .error boxSizeMessage ((prepare ext k context).1, context) := by
  unfold execute
  simp only [usesPeriodicBox_prepare, boxTooSmall_prepare, hm, hbox, Bool.and_self, if_true]

theorem execute_ok (ext : Externals S R) (k : Kernel R) (context : Context S R)
    (includeForces includeEnergy includeDirect includeReciprocal : Bool)
    (h : (usesPeriodicBox k && boxTooSmall k context.periodicBoxVectors) = false) :
    execute ext k context includeForces includeEnergy includeDirect includeReciprocal =
      .ok (evaluate ext (prepare ext k context).1 context
          (configure (prepare ext k context).1 context (prepare ext k context).2)
          includeEnergy includeDirect includeReciprocal).1
        ((prepare ext k context).1,
          { context with
            forces := (evaluate ext (prepare ext k context).1 context
              (configure (prepare ext k context).1 context (prepare ext k context).2)
              includeEnergy includeDirect includeReciprocal).2 }) := by
  unfold execute
  simp only [usesPeriodicBox_prepare, boxTooSmall_prepare, h, Bool.false_eq_true, if_false]

theorem prepare_dispersion (ext : Externals S R) (k : Kernel R) (context : Context S R)
    (c : R) :
    prepare ext { k with dispersionCoefficient := c } context =
      ({ (prepare ext k context).1 with dispersionCoefficient := c },
        (prepare ext k context).2) := by
  unfold prepare computeParameters
  simp only []
  split_ifs <;> rfl

theorem evaluate_dispersion (ext : Externals S R) (k : Kernel R) (context : Context S R)
    (clj : ReferenceLJCoulombIxn R) (includeEnergy includeReciprocal : Bool) (c : R)
    (hm : k.nonbondedMethod = .CutoffPeriodic ∨ k.nonbondedMethod = .Ewald ∨
      k.nonbondedMethod = .PME) :
    evaluate ext { k with dispersionCoefficient := c } context clj includeEnergy true
        includeReciprocal =
      ((evaluate ext { k with dispersionCoefficient := 0 } context clj includeEnergy true
          includeReciprocal).1 +
        c / (context.periodicBoxVectors.a.x * context.periodicBoxVectors.b.y *
          context.periodicBoxVectors.c.z),
        (evaluate ext { k with dispersionCoefficient := 0 } context clj includeEnergy true
          includeReciprocal).2) := by
  unfold evaluate exceptionEvaluator
  simp only [if_true, hm, zero_div, add_zero]

theorem initializeKernel_dispersion_flag (ext : Externals S R) (k : Kernel R) (system : S)
    (force : NonbondedForce R)
    (hewald : force.nonbondedMethod = .Ewald →
      ext.calcEwaldParameters system { force with useDispersionCorrection := true } =
        ext.calcEwaldParameters system { force with useDispersionCorrection := false })
    (hpme : force.nonbondedMethod = .PME →
      ext.calcPMEParameters system { force with useDispersionCorrection := true } false =
        ext.calcPMEParameters system { force with useDispersionCorrection := false } false)
    (hm : force.nonbondedMethod = .CutoffPeriodic ∨ force.nonbondedMethod = .Ewald ∨
      force.nonbondedMethod = .PME) :
    initializeKernel ext k system { force with useDispersionCorrection := true } =
        { initializeKernel ext k system { force with useDispersionCorrection := false } with
          dispersionCoefficient :=
            ext.calcDispersionCorrection system
              { force with useDispersionCorrection := true } } ∧
    (initializeKernel ext k system
        { force with useDispersionCorrection := false }).dispersionCoefficient = 0 := by
  obtain ⟨ps, es, po, eo, m, cut, sw, sd, rf, tol, per, disp⟩ := force
  simp only at hewald hpme hm
  rcases hm with h | h | h
  · subst h
    exact ⟨rfl, rfl⟩
  · subst h
    have h1 := hewald rfl
    refine ⟨?_, rfl⟩
    unfold initializeKernel
    simp only [h1]
    rfl
  · subst h
    have h1 := hpme rfl
    refine ⟨?_, rfl⟩
    unfold initializeKernel
    simp only [h1]
    rfl

theorem initializeKernel_method (ext : Externals S R) (k : Kernel R) (system : S)
    (force : NonbondedForce R) :
    (initializeKernel ext k system force).nonbondedMethod = force.nonbondedMethod ∧
    (initializeKernel ext k system force).nonbondedCutoff = force.cutoffDistance := by
  unfold initializeKernel
  cases force.nonbondedMethod <;> exact ⟨rfl, rfl⟩

/-- Two kernels that differ only in the dispersion coefficient, the first holding 0:
with direct-space contributions included and the method CutoffPeriodic, Ewald or PME,
and a box that passes the size test, both evaluations return, the energies differ by
coefficient / volume and the force accumulators are the same. -/
theorem execute_dispersion (ext : Externals S R) (k : Kernel R) (context : Context S R)
    (includeForces includeEnergy includeReciprocal : Bool) (c : R)
    (hm : k.nonbondedMethod = .CutoffPeriodic ∨ k.nonbondedMethod = .Ewald ∨
      k.nonbondedMethod = .PME)
    (hbox : boxTooSmall k context.periodicBoxVectors = false) :
    ∃ e st0 st1,
      execute ext { k with dispersionCoefficient := 0 } context includeForces includeEnergy
        true includeReciprocal = .ok e st0 ∧
      execute ext { k with dispersionCoefficient := c } context includeForces includeEnergy
        true includeReciprocal =
        .ok (e + c / (context.periodicBoxVectors.a.x * context.periodicBoxVectors.b.y *
          context.periodicBoxVectors.c.z)) st1 ∧
      st1.2 = st0.2 := by
  have hb : ∀ d : R, (usesPeriodicBox { k with dispersionCoefficient := d } &&
      boxTooSmall { k with dispersionCoefficient := d } context.periodicBoxVectors) =
      false := by
    intro d
    have : boxTooSmall { k with dispersionCoefficient := d } context.periodicBoxVectors =
        boxTooSmall k context.periodicBoxVectors := rfl
    rw [this, hbox, Bool.and_false]
  have hm2 : (prepare ext k context).1.nonbondedMethod = .CutoffPeriodic ∨
      (prepare ext k context).1.nonbondedMethod = .Ewald ∨
      (prepare ext k context).1.nonbondedMethod = .PME := by
    rw [(prepare_fields ext k context).1]; exact hm
  have h1 := evaluate_dispersion ext (prepare ext k context).1 context
    (configure (prepare ext k context).1 context (prepare ext k context).2)
    includeEnergy includeReciprocal c hm2
  have hcfg : ∀ d : R, configure { (prepare ext k context).1 with dispersionCoefficient := d }
      context (prepare ext k context).2 =
      configure (prepare ext k context).1 context (prepare ext k context).2 := fun _ => rfl
  rw [execute_ok ext _ context includeForces includeEnergy true includeReciprocal (hb 0),
    execute_ok ext _ context includeForces includeEnergy true includeReciprocal (hb c)]
  simp only [prepare_dispersion]
  rw [hcfg c, hcfg 0, h1]
  exact ⟨_, _, _, rfl, rfl, rfl⟩

end ExecuteLemmas

section RemoveExceptionLemmas

variable {S R : Type} [LinearOrderedField R]

/-- The element at index `i` after index `k` was erased is the element of the original
list at `i`, or at `i + 1` from `k` on. -/
theorem eraseIdx_getD {α : Type} (l : List α) (k i : Nat) (d : α) :
    (l.eraseIdx k).getD i d = l.getD (if i < k then i else i + 1) d := by
  simp only [List.getD_eq_getElem?_getD, List.getElem?_eraseIdx]
  split_ifs <;> rfl

theorem range_eraseIdx (n k : Nat) (hk : k ≤ n) :
    (List.range (n + 1)).eraseIdx k =
      (List.range n).map (fun i => if i < k then i else i + 1) := by
  apply List.ext_getElem?
  intro j
  rw [List.getElem?_eraseIdx, List.getElem?_map]
  by_cases hj : j < n
  · rw [List.getElem?_range hj]
    by_cases hjk : j < k
    · rw [if_pos hjk, List.getElem?_range (by omega)]
      simp [hjk]
    · rw [if_neg hjk, List.getElem?_range (by omega)]
      simp [hjk]
  · have h1 : (List.range n)[j]? = none := List.getElem?_eq_none (by simp; omega)
    have h2 : (List.range (n + 1))[j + 1]? = none := List.getElem?_eq_none (by simp; omega)
    have hjk : ¬ j < k := by omega
    rw [if_neg hjk, h1, h2]
    rfl

theorem filter_eraseIdx {α : Type} (q : α → Bool) (l : List α) (k : Nat)
    (h : ∀ x, l[k]? = some x → q x = false) :
    (l.eraseIdx k).filter q = l.filter q := by
  induction l generalizing k with
  | nil => rfl
  | cons a l ih =>
    cases k with
    | zero =>
      have ha : q a = false := h a (by simp)
      simp [List.filter_cons, ha]
    | succ k =>
      have h2 := ih k (fun x hx => h x (by simpa using hx))
      simp [List.filter_cons, h2]

theorem removeException_getExceptionParameters (force : NonbondedForce R) (k i : Nat) :
    (removeException force k).getExceptionParameters i =
      force.getExceptionParameters (if i < k then i else i + 1) :=
  eraseIdx_getD force.exceptions k i _

theorem removeException_qualifies14 (force : NonbondedForce R) (k i : Nat)
    (ho : ∀ o ∈ force.exceptionParameterOffsets, o.index ≠ k) :
    qualifies14 (removeException force k) i =
      qualifies14 force (if i < k then i else i + 1) := by
  unfold qualifies14
  rw [removeException_getExceptionParameters]
  congr 1
  rw [Bool.eq_iff_iff]
  simp only [removeException, List.any_map, List.any_eq_true, Function.comp,
    decide_eq_true_eq]
  constructor
  · rintro ⟨o, hmem, h⟩
    refine ⟨o, hmem, ?_⟩
    have hne := ho o hmem
    by_cases hlt : k < o.index
    · rw [if_pos hlt] at h
      change o.index - 1 = i at h
      split_ifs <;> omega
    · rw [if_neg hlt] at h
      split_ifs <;> omega
  · rintro ⟨o, hmem, h⟩
    refine ⟨o, hmem, ?_⟩
    have hne := ho o hmem
    by_cases hlt : k < o.index
    · rw [if_pos hlt]
      change o.index - 1 = i
      split_ifs at h <;> omega
    · rw [if_neg hlt]
      split_ifs at h <;> omega

theorem removeException_nb14List (force : NonbondedForce R) (k : Nat)
    (hk : k < force.getNumExceptions)
    (hq : (force.getExceptionParameters k).chargeProd = 0)
    (he : (force.getExceptionParameters k).epsilon = 0)
    (ho : ∀ o ∈ force.exceptionParameterOffsets, o.index ≠ k) :
    (nb14List (removeException force k)).map (fun i => if i < k then i else i + 1) =
      nb14List force := by
  have hqk : qualifies14 force k = false := by
    rw [Bool.eq_false_iff, Ne, qualifies14_iff, mem_exceptionsWithOffsets]
    rintro (h | h | ⟨o, hmem, h⟩)
    · exact h hq
    · exact h he
    · exact ho o hmem h
  have hlen : (removeException force k).getNumExceptions + 1 = force.getNumExceptions := by
    unfold NonbondedForce.getNumExceptions at hk ⊢
    simp only [removeException, List.length_eraseIdx, hk, if_true]
    omega
  have hfun : qualifies14 (removeException force k) =
      qualifies14 force ∘ (fun i => if i < k then i else i + 1) := by
    funext i
    exact removeException_qualifies14 force k i ho
  unfold nb14List
  rw [hfun, ← List.filter_map, ← range_eraseIdx _ k (by omega), hlen]
  apply filter_eraseIdx
  intro x hx
  rw [List.getElem?_range hk] at hx
  rw [← Option.some.inj hx]
  exact hqk

theorem getD_modify {α : Type} (f : α → α) (l : List α) (n p : Nat) (d : α) :
    (l.modify f n).getD p d =
      if n = p ∧ p < l.length then f (l.getD p d) else l.getD p d := by
  simp only [List.getD_eq_getElem?_getD, List.getElem?_modify]
  by_cases hp : p < l.length
  · rw [List.getElem?_eq_getElem hp]
    by_cases hn : n = p <;> simp [hn, hp]
  · rw [List.getElem?_eq_none (by omega)]
    simp [hp]

theorem identify14Step_exclusions (force : NonbondedForce R) (w : List Nat) (i : Nat)
    (st : List (List Nat) × List Nat × List (Nat × Nat)) :
    (identify14Step force w i st).1.length = st.1.length ∧
    (∀ p x, x ∈ st.1.getD p [] → x ∈ (identify14Step force w i st).1.getD p []) ∧
    ((force.getExceptionParameters i).particle1 < st.1.length →
      (force.getExceptionParameters i).particle2 ∈
        (identify14Step force w i st).1.getD (force.getExceptionParameters i).particle1 []) := by
  have hfst : (identify14Step force w i st).1 =
      (st.1.modify (setInsert (force.getExceptionParameters i).particle2)
        (force.getExceptionParameters i).particle1).modify
        (setInsert (force.getExceptionParameters i).particle1)
        (force.getExceptionParameters i).particle2 := by
    unfold identify14Step
    simp only []
    split_ifs <;> rfl
  rw [hfst]
  refine ⟨by simp, ?_, ?_⟩
  · intro p x hx
    rw [getD_modify, getD_modify]
    split_ifs <;> (try simp only [mem_setInsert]) <;> tauto
  · intro hp
    rw [getD_modify, getD_modify]
    split_ifs <;> (try simp only [mem_setInsert]) <;> simp_all

theorem identify14_loop_exclusions (force : NonbondedForce R) (w : List Nat)
    (excl : List (List Nat)) (n : Nat) :
    (forLoop n (identify14Step force w) (excl, [], [])).1.length = excl.length ∧
    ∀ i, i < n → (force.getExceptionParameters i).particle1 < excl.length →
      (force.getExceptionParameters i).particle2 ∈
        (forLoop n (identify14Step force w) (excl, [], [])).1.getD
          (force.getExceptionParameters i).particle1 [] := by
  induction n with
  | zero => exact ⟨by simp [forLoop_zero], fun i hi => absurd hi (by omega)⟩
  | succ n ih =>
    rw [forLoop_succ]
    obtain ⟨h1, h2, h3⟩ := identify14Step_exclusions force w n
      (forLoop n (identify14Step force w) (excl, [], []))
    refine ⟨by rw [h1, ih.1], ?_⟩
    intro i hi hp
    by_cases hin : i = n
    · subst hin
      exact h3 (by rw [ih.1]; exact hp)
    · exact h2 _ _ (ih.2 i (by omega) hp)

theorem initializeKernel_exclusions (ext : Externals S R) (u : Kernel R) (system : S)
    (force : NonbondedForce R) :
    (initializeKernel ext (Kernel.constructed u) system force).exclusions =
      (identify14 force (exceptionsWithOffsets force)
        (List.replicate force.getNumParticles [])).1 := by
  rw [← resize_nil]
  unfold initializeKernel
  cases force.nonbondedMethod <;> rfl

theorem foldl_congr_mem {α β : Type} (f g : β → α → β) (l : List α)
    (h : ∀ a ∈ l, ∀ b, f b a = g b a) (b : β) : l.foldl f b = l.foldl g b := by
  induction l generalizing b with
  | nil => rfl
  | cons a l ih =>
    rw [List.foldl_cons, List.foldl_cons, h a (List.mem_cons_self _ _) b]
    exact ih (fun x hx => h x (List.mem_cons_of_mem _ hx)) _

theorem removeException_mapAt (force : NonbondedForce R) (k : Nat)
    (excl excl' : List (List Nat))
    (hk : k < force.getNumExceptions)
    (hq : (force.getExceptionParameters k).chargeProd = 0)
    (he : (force.getExceptionParameters k).epsilon = 0)
    (ho : ∀ o ∈ force.exceptionParameterOffsets, o.index ≠ k)
    (hvalid : ∀ o ∈ force.exceptionParameterOffsets, o.index < force.getNumExceptions)
    (o : ParameterOffset R) (hmem : o ∈ force.exceptionParameterOffsets) :
    mapAt (identify14 (removeException force k)
        (exceptionsWithOffsets (removeException force k)) excl').2.2
        (if k < o.index then o.index - 1 else o.index) =
      mapAt (identify14 force (exceptionsWithOffsets force) excl).2.2 o.index := by
  have hlist := removeException_nb14List force k hk hq he ho
  have hne := ho o hmem
  have h2 := identify14_index force excl o.index (offset_target_mem_nb14List force hvalid o hmem)
  have hshift : (fun i => if i < k then i else i + 1)
      (if k < o.index then o.index - 1 else o.index) = o.index := by
    simp only
    split_ifs <;> omega
  have hmem' : (if k < o.index then o.index - 1 else o.index) ∈
      nb14List (removeException force k) := by
    have h3 := offset_target_mem_nb14List force hvalid o hmem
    rw [← hlist] at h3
    obtain ⟨x, hx, hxe⟩ := List.mem_map.1 h3
    have : x = (if k < o.index then o.index - 1 else o.index) := by
      split_ifs at hxe ⊢ <;> omega
    rw [← this]
    exact hx
  have h1 := identify14_index (removeException force k) excl' _ hmem'
  have h4 : (nb14List force)[mapAt (identify14 (removeException force k)
      (exceptionsWithOffsets (removeException force k)) excl').2.2
      (if k < o.index then o.index - 1 else o.index)]? = some o.index := by
    rw [← hlist, List.getElem?_map, h1, Option.map_some']
    exact congrArg some hshift
  exact increasing_getElem?_inj _ (nb14List_increasing force) _ _ o.index h4 h2

theorem removeException_exceptionParamOffsets (ext : Externals S R) (u : Kernel R) (system : S)
    (force : NonbondedForce R) (k : Nat)
    (hk : k < force.getNumExceptions)
    (hq : (force.getExceptionParameters k).chargeProd = 0)
    (he : (force.getExceptionParameters k).epsilon = 0)
    (ho : ∀ o ∈ force.exceptionParameterOffsets, o.index ≠ k)
    (hvalid : ∀ o ∈ force.exceptionParameterOffsets, o.index < force.getNumExceptions) :
    (initializeKernel ext (Kernel.constructed u) system
        (removeException force k)).exceptionParamOffsets =
      (initializeKernel ext (Kernel.constructed u) system force).exceptionParamOffsets := by
  rw [initializeKernel_exceptionParamOffsets, initializeKernel_exceptionParamOffsets]
  unfold registerExceptionOffsets NonbondedForce.getNumExceptionParameterOffsets
    NonbondedForce.getExceptionParameterOffset
  rw [forLoop_getD_eq_foldl force.exceptionParameterOffsets _
    (fun o m => mapInsert (toLex (o.param, mapAt _ o.index)) (o.charge, o.sigma, o.epsilon) m) [],
    forLoop_getD_eq_foldl (removeException force k).exceptionParameterOffsets _
    (fun o m => mapInsert (toLex (o.param, mapAt _ o.index)) (o.charge, o.sigma, o.epsilon) m) []]
  show List.foldl _ [] (force.exceptionParameterOffsets.map _) = _
  rw [List.foldl_map]
  apply foldl_congr_mem
  intro o hmem m
  have hm := removeException_mapAt force k
    (resize (Kernel.constructed u).exclusions force.getNumParticles [])
    (resize (Kernel.constructed u).exclusions (removeException force k).getNumParticles [])
    hk hq he ho hvalid o hmem
  by_cases hlt : k < o.index
  · simp only [hlt, if_true] at hm ⊢
    rw [hm]
  · simp only [hlt, if_false] at hm ⊢
    rw [hm]

theorem computeParameters_congr (sqrt : R → R) (k k' : Kernel R) (context : Context S R)
    (h1 : k'.numParticles = k.numParticles) (h2 : k'.num14 = k.num14)
    (h3 : k'.baseParticleParams = k.baseParticleParams)
    (h4 : k'.baseExceptionParams = k.baseExceptionParams)
    (h5 : k'.particleParamOffsets = k.particleParamOffsets)
    (h6 : k'.exceptionParamOffsets = k.exceptionParamOffsets)
    (h7 : k'.particleParamArray = k.particleParamArray)
    (h8 : k'.bonded14ParamArray = k.bonded14ParamArray) :
    (computeParameters sqrt k' context).particleParamArray =
      (computeParameters sqrt k context).particleParamArray ∧
    (computeParameters sqrt k' context).bonded14ParamArray =
      (computeParameters sqrt k context).bonded14ParamArray := by
  unfold computeParameters exceptionEffective particleEffective
  simp only [h1, h2, h3, h4, h5, h6, h7, h8, and_self]

end RemoveExceptionLemmas

section SettingsLemmas

variable {S R : Type} [LinearOrderedField R]

omit [LinearOrderedField R] in
theorem sameSettings_refl (k : Kernel R) : sameSettings k k :=
  ⟨rfl, rfl, rfl, rfl, rfl, rfl, rfl, rfl, rfl, rfl, rfl⟩

omit [LinearOrderedField R] in
theorem sameSettings_trans (k₁ k₂ k₃ : Kernel R) (h₁ : sameSettings k₁ k₂)
    (h₂ : sameSettings k₂ k₃) : sameSettings k₁ k₃ := by
  obtain ⟨a1, a2, a3, a4, a5, a6, a7, a8, a9, a10, a11⟩ := h₁
  obtain ⟨b1, b2, b3, b4, b5, b6, b7, b8, b9, b10, b11⟩ := h₂
  exact ⟨b1.trans a1, b2.trans a2, b3.trans a3, b4.trans a4, b5.trans a5, b6.trans a6,
    b7.trans a7, b8.trans a8, b9.trans a9, b10.trans a10, b11.trans a11⟩

theorem prepare_sameSettings (ext : Externals S R) (k : Kernel R) (context : Context S R) :
    sameSettings k (prepare ext k context).1 := by
  unfold prepare computeParameters
  simp only []
  split_ifs <;> exact sameSettings_refl _

theorem execute_state (ext : Externals S R) (k : Kernel R) (context : Context S R)
    (includeForces includeEnergy includeDirect includeReciprocal : Bool) :
    (execute ext k context includeForces includeEnergy includeDirect
      includeReciprocal).state.1 = (prepare ext k context).1 := by
  unfold execute
  simp only []
  split_ifs <;> rfl

theorem copyParametersToContext_sameSettings (ext : Externals S R) (k : Kernel R)
    (context : Context S R) (force : NonbondedForce R) :
    sameSettings k (copyParametersToContext ext k context force).state := by
  unfold copyParametersToContext
  simp only []
  split_ifs <;> exact sameSettings_refl _

theorem runCall_sameSettings (ext : Externals S R) (k : Kernel R) (call : KernelCall S R) :
    sameSettings k (runCall ext k call) := by
  cases call with
  | execute context a b c d =>
    show sameSettings k (execute ext k context a b c d).state.1
    rw [execute_state]
    exact prepare_sameSettings ext k context
  | copyParametersToContext context force =>
    exact copyParametersToContext_sameSettings ext k context force

theorem runCalls_sameSettings (ext : Externals S R) (k : Kernel R)
    (calls : List (KernelCall S R)) : sameSettings k (runCalls ext k calls) := by
  unfold runCalls
  induction calls generalizing k with
  | nil => exact sameSettings_refl k
  | cons call calls ih =>
    rw [List.foldl_cons]
    exact sameSettings_trans _ _ _ (runCall_sameSettings ext k call) (ih _)

theorem initializeKernel_ewald (ext : Externals S R) (k : Kernel R) (system : S)
    (force : NonbondedForce R) :
    (force.nonbondedMethod = .Ewald →
      (initializeKernel ext k system force).ewaldAlpha =
          (ext.calcEwaldParameters system force).1 ∧
        (initializeKernel ext k system force).kmax =
          (ext.calcEwaldParameters system force).2) ∧
    (force.nonbondedMethod = .PME ∨ force.nonbondedMethod = .LJPME →
      (initializeKernel ext k system force).ewaldAlpha =
          (ext.calcPMEParameters system force false).1 ∧
        (initializeKernel ext k system force).gridSize =
          (ext.calcPMEParameters system force false).2) ∧
    (force.nonbondedMethod = .LJPME →
      (initializeKernel ext k system force).ewaldDispersionAlpha =
          (ext.calcPMEParameters system force true).1 ∧
        (initializeKernel ext k system force).dispersionGridSize =
          (ext.calcPMEParameters system force true).2) := by
  unfold initializeKernel
  cases force.nonbondedMethod <;> simp

theorem initializeKernel_useSwitchingFunction (ext : Externals S R) (k : Kernel R)
    (system : S) (force : NonbondedForce R) :
    (initializeKernel ext k system force).useSwitchingFunction =
      if force.nonbondedMethod = .NoCutoff ∨ force.nonbondedMethod = .LJPME then false
      else force.useSwitchingFunction := by
  unfold initializeKernel
  cases force.nonbondedMethod <;> rfl

theorem initializeKernel_exceptionsArePeriodic (ext : Externals S R) (k : Kernel R)
    (system : S) (force : NonbondedForce R) :
    (initializeKernel ext k system force).exceptionsArePeriodic =
      if force.nonbondedMethod = .NoCutoff ∨ force.nonbondedMethod = .CutoffNonPeriodic then
        false
      else force.exceptionsUsePeriodicBoundaryConditions := by
  unfold initializeKernel
  cases force.nonbondedMethod <;> rfl

theorem prepare_clj_switching (ext : Externals S R) (k : Kernel R) (context : Context S R) :
    (prepare ext k context).2.useSwitchingFunction = none := by
  unfold prepare
  simp only []
  split_ifs <;> rfl

omit [LinearOrderedField R] in
theorem configure_switching (k : Kernel R) (context : Context S R)
    (clj : ReferenceLJCoulombIxn R) :
    (configure k context clj).useSwitchingFunction =
      if k.useSwitchingFunction then some k.switchingDistance
      else clj.useSwitchingFunction := by
  unfold configure
  simp only []
  split_ifs <;> rfl

omit [LinearOrderedField R] in
theorem getPMEParameters_congr (k k' : Kernel R) (h : sameSettings k k') :
    getPMEParameters k' = getPMEParameters k ∧
    getLJPMEParameters k' = getLJPMEParameters k := by
  obtain ⟨h1, _, h3, _, h5, h6, h7, _⟩ := h
  unfold getPMEParameters getLJPMEParameters
  rw [h1, h3, h5, h6, h7]
  exact ⟨rfl, rfl⟩

end SettingsLemmas

section ExampleKernelLemmas

variable {S R : Type} [LinearOrderedField R]

theorem sum_map_modify {α : Type} (g : α → R) (f : α → α) (l : List α) (i : Nat) (a : α)
    (h : l[i]? = some a) :
    ((l.modify f i).map g).sum = (l.map g).sum + (g (f a) - g a) := by
  induction l generalizing i with
  | nil => simp at h
  | cons b l ih =>
    cases i with
    | zero =>
      simp only [List.getElem?_cons_zero, Option.some.injEq] at h
      subst h
      simp only [List.modify_zero_cons, List.map_cons, List.sum_cons]
      ring
    | succ i =>
      simp only [List.getElem?_cons_succ] at h
      simp only [List.modify_succ_cons, List.map_cons, List.sum_cons, ih i h]
      ring

theorem sum_map_modify_pair (g : Vec3 R → R) (d : Vec3 R)
    (hsub : ∀ f : Vec3 R, g (f.sub d) = g f - g d)
    (hadd : ∀ f : Vec3 R, g (f.add d) = g f + g d)
    (l : List (Vec3 R)) (p1 p2 : Nat) (h1 : p1 < l.length) (h2 : p2 < l.length) :
    (((l.modify (fun f => f.sub d) p1).modify (fun f => f.add d) p2).map g).sum =
      (l.map g).sum := by
  have h2' : p2 < (l.modify (fun f => f.sub d) p1).length := by
    rw [List.length_modify]; exact h2
  rw [sum_map_modify g _ _ p2 _ (List.getElem?_eq_getElem h2'),
    sum_map_modify g _ l p1 _ (List.getElem?_eq_getElem h1), hsub, hadd]
  ring

theorem bondStep_forces (sqrt : R → R) (kern : ExampleKernel R) (pos : List (Vec3 R))
    (i : Nat) (st : ExampleRun R)
    (h1 : kern.particle1.getD i 0 < st.forces.length)
    (h2 : kern.particle2.getD i 0 < st.forces.length) :
    (kern.bondStep sqrt pos i st).forces.length = st.forces.length ∧
    totalForce (kern.bondStep sqrt pos i st).forces = totalForce st.forces := by
  unfold ExampleKernel.bondStep totalForce
  simp only [List.length_modify, true_and]
  rw [sum_map_modify_pair (fun f => f.x) _ (fun _ => rfl) (fun _ => rfl) _ _ _ h1 h2,
    sum_map_modify_pair (fun f => f.y) _ (fun _ => rfl) (fun _ => rfl) _ _ _ h1 h2,
    sum_map_modify_pair (fun f => f.z) _ (fun _ => rfl) (fun _ => rfl) _ _ _ h1 h2]

theorem execute_loop_forces (sqrt : R → R) (kern : ExampleKernel R) (pos : List (Vec3 R))
    (st : ExampleRun R) (n : Nat) (hn : n ≤ kern.particle1.length)
    (hrange : ∀ i, i < kern.particle1.length →
      kern.particle1.getD i 0 < st.forces.length ∧
        kern.particle2.getD i 0 < st.forces.length) :
    (forLoop n (kern.bondStep sqrt pos) st).forces.length = st.forces.length ∧
    totalForce (forLoop n (kern.bondStep sqrt pos) st).forces = totalForce st.forces := by
  induction n with
  | zero => exact ⟨by rw [forLoop_zero], by rw [forLoop_zero]⟩
  | succ n ih =>
    obtain ⟨hl, ht⟩ := ih (by omega)
    rw [forLoop_succ]
    obtain ⟨h1, h2⟩ := bondStep_forces sqrt kern pos n (forLoop n (kern.bondStep sqrt pos) st)
      (by rw [hl]; exact (hrange n (by omega)).1) (by rw [hl]; exact (hrange n (by omega)).2)
    exact ⟨h1.trans hl, h2.trans ht⟩

theorem bondQuotient_divisors (sqrt : R → R) (kern : ExampleKernel R) (pos : List (Vec3 R))
    (i : Nat) : ∀ d ∈ (kern.bondQuotient sqrt pos i).2, 0 < d := by
  intro d hd
  unfold ExampleKernel.bondQuotient recordedDiv at hd
  simp only at hd
  split_ifs at hd with hr
  · rw [List.mem_singleton.1 hd]; exact hr
  · exact absurd hd (List.not_mem_nil d)

theorem execute_loop_divisors (sqrt : R → R) (kern : ExampleKernel R) (pos : List (Vec3 R))
    (st : ExampleRun R) (n : Nat) (hst : ∀ d ∈ st.divisors, 0 < d) :
    ∀ d ∈ (forLoop n (kern.bondStep sqrt pos) st).divisors, 0 < d := by
  induction n with
  | zero => rw [forLoop_zero]; exact hst
  | succ n ih =>
    rw [forLoop_succ]
    intro d hd
    rcases List.mem_append.1 hd with h | h
    · exact ih d h
    · exact bondQuotient_divisors sqrt kern pos n d h

omit [LinearOrderedField R] in
theorem modify_eq_self_of_fixed {α : Type} (f : α → α) (hf : ∀ a, f a = a) (l : List α)
    (i : Nat) : l.modify f i = l := by
  induction l generalizing i with
  | nil => simp
  | cons b l ih => cases i <;> simp [hf, ih]

theorem bondQuotient_coincident (sqrt : R → R) (hsqrt : sqrt 0 = 0) (kern : ExampleKernel R)
    (pos : List (Vec3 R)) (i : Nat)
    (hpos : pos.getD (kern.particle1.getD i 0) ⟨0, 0, 0⟩ =
      pos.getD (kern.particle2.getD i 0) ⟨0, 0, 0⟩) :
    kern.bondDelta pos i = ⟨0, 0, 0⟩ ∧
    sqrt ((kern.bondDelta pos i).dot (kern.bondDelta pos i)) = 0 ∧
    kern.bondQuotient sqrt pos i = (0, []) := by
  have hdelta : kern.bondDelta pos i = ⟨0, 0, 0⟩ := by
    unfold ExampleKernel.bondDelta
    rw [hpos]
    simp [Vec3.sub]
  have hr : sqrt ((kern.bondDelta pos i).dot (kern.bondDelta pos i)) = 0 := by
    rw [hdelta]
    simp [Vec3.dot, hsqrt]
  refine ⟨hdelta, hr, ?_⟩
  unfold ExampleKernel.bondQuotient
  simp only [hr, gt_iff_lt, lt_self_iff_false, if_false]

theorem bondStep_coincident (sqrt : R → R) (hsqrt : sqrt 0 = 0) (kern : ExampleKernel R)
    (pos : List (Vec3 R)) (i : Nat) (st : ExampleRun R)
    (hpos : pos.getD (kern.particle1.getD i 0) ⟨0, 0, 0⟩ =
      pos.getD (kern.particle2.getD i 0) ⟨0, 0, 0⟩) :
    kern.bondStep sqrt pos i st = { st with energy := st.energy + kern.restEnergy i } := by
  obtain ⟨hdelta, hr, hq⟩ := bondQuotient_coincident sqrt hsqrt kern pos i hpos
  have hfix : ∀ a : Vec3 R, a.sub (Vec3.scale (0 : R) ⟨0, 0, 0⟩) = a ∧
      a.add (Vec3.scale (0 : R) ⟨0, 0, 0⟩) = a := by
    intro a
    cases a
    simp [Vec3.sub, Vec3.add, Vec3.scale]
  have hforces : ((st.forces.modify
      (fun f => f.sub (Vec3.scale (kern.bondDEdR sqrt pos i) (kern.bondDelta pos i)))
      (kern.particle1.getD i 0)).modify
      (fun f => f.add (Vec3.scale (kern.bondDEdR sqrt pos i) (kern.bondDelta pos i)))
      (kern.particle2.getD i 0)) = st.forces := by
    unfold ExampleKernel.bondDEdR
    rw [hq, hdelta, modify_eq_self_of_fixed _ (fun a => (hfix a).2),
      modify_eq_self_of_fixed _ (fun a => (hfix a).1)]
  have henergy : st.energy + kern.k.getD i 0 *
      ((sqrt ((kern.bondDelta pos i).dot (kern.bondDelta pos i)) - kern.length.getD i 0) *
        (sqrt ((kern.bondDelta pos i).dot (kern.bondDelta pos i)) - kern.length.getD i 0)) *
      ((sqrt ((kern.bondDelta pos i).dot (kern.bondDelta pos i)) - kern.length.getD i 0) *
        (sqrt ((kern.bondDelta pos i).dot (kern.bondDelta pos i)) - kern.length.getD i 0)) =
      st.energy + kern.restEnergy i := by
    unfold ExampleKernel.restEnergy
    rw [hr]
    ring
  have hdiv : st.divisors ++ (kern.bondQuotient sqrt pos i).2 = st.divisors := by
    rw [hq]
    exact List.append_nil _
  unfold ExampleKernel.bondStep
  simp only [hforces, henergy, hdiv]

theorem bondStep_shift (sqrt : R → R) (kern : ExampleKernel R) (pos : List (Vec3 R)) (i : Nat)
    (s t : ExampleRun R) (c : R) (hf : s.forces = t.forces) (hd : s.divisors = t.divisors)
    (he : s.energy = t.energy + c) :
    (kern.bondStep sqrt pos i s).forces = (kern.bondStep sqrt pos i t).forces ∧
    (kern.bondStep sqrt pos i s).divisors = (kern.bondStep sqrt pos i t).divisors ∧
    (kern.bondStep sqrt pos i s).energy = (kern.bondStep sqrt pos i t).energy + c := by
  unfold ExampleKernel.bondStep
  simp only [hf, hd, he, true_and]
  ring

omit [LinearOrderedField R] in
theorem getD_eraseIdx {α : Type} (l : List α) (j i : Nat) (d : α) :
    (l.eraseIdx j).getD i d = if i < j then l.getD i d else l.getD (i + 1) d := by
  simp only [List.getD_eq_getElem?_getD, List.getElem?_eraseIdx]
  split_ifs <;> rfl

theorem withoutBond_bondStep (sqrt : R → R) (kern : ExampleKernel R) (pos : List (Vec3 R))
    (j i : Nat) :
    (kern.withoutBond j).bondStep sqrt pos i =
      kern.bondStep sqrt pos (if i < j then i else i + 1) := by
  unfold ExampleKernel.bondStep ExampleKernel.bondDEdR ExampleKernel.bondQuotient
    ExampleKernel.bondDelta ExampleKernel.withoutBond
  simp only [getD_eraseIdx]
  by_cases h : i < j
  · simp only [h, if_true]
  · simp only [h, if_false]

theorem withoutBond_loop_prefix (sqrt : R → R) (kern : ExampleKernel R) (pos : List (Vec3 R))
    (j : Nat) (st : ExampleRun R) (m : Nat) (hm : m ≤ j) :
    forLoop m ((kern.withoutBond j).bondStep sqrt pos) st =
      forLoop m (kern.bondStep sqrt pos) st := by
  induction m with
  | zero => rw [forLoop_zero, forLoop_zero]
  | succ m ih =>
    rw [forLoop_succ, forLoop_succ, ih (by omega), withoutBond_bondStep,
      if_pos (by omega : m < j)]

theorem withoutBond_loop_suffix (sqrt : R → R) (kern : ExampleKernel R) (pos : List (Vec3 R))
    (j : Nat) (st : ExampleRun R)
    (hstep : ∀ s : ExampleRun R,
      kern.bondStep sqrt pos j s = { s with energy := s.energy + kern.restEnergy j })
    (m : Nat) :
    (forLoop (j + m + 1) (kern.bondStep sqrt pos) st).forces =
      (forLoop (j + m) ((kern.withoutBond j).bondStep sqrt pos) st).forces ∧
    (forLoop (j + m + 1) (kern.bondStep sqrt pos) st).divisors =
      (forLoop (j + m) ((kern.withoutBond j).bondStep sqrt pos) st).divisors ∧
    (forLoop (j + m + 1) (kern.bondStep sqrt pos) st).energy =
      (forLoop (j + m) ((kern.withoutBond j).bondStep sqrt pos) st).energy +
        kern.restEnergy j := by
  induction m with
  | zero =>
    simp only [Nat.add_zero]
    rw [forLoop_succ, hstep, withoutBond_loop_prefix sqrt kern pos j st j (le_refl _)]
    exact ⟨rfl, rfl, rfl⟩
  | succ m ih =>
    obtain ⟨h1, h2, h3⟩ := ih
    have hs : forLoop (j + (m + 1)) ((kern.withoutBond j).bondStep sqrt pos) st =
        kern.bondStep sqrt pos (j + m + 1)
          (forLoop (j + m) ((kern.withoutBond j).bondStep sqrt pos) st) := by
      rw [← Nat.add_assoc, forLoop_succ, withoutBond_bondStep,
        if_neg (by omega : ¬ j + m < j)]
    rw [hs, ← Nat.add_assoc, forLoop_succ (j + m + 1)]
    exact bondStep_shift sqrt kern pos (j + m + 1) _ _ _ h1 h2 h3

theorem execute_withoutBond (sqrt : R → R) (kern : ExampleKernel R) (context : Context S R)
    (j : Nat) (hj : j < kern.particle1.length)
    (hstep : ∀ s : ExampleRun R,
      kern.bondStep sqrt context.positions j s =
        { s with energy := s.energy + kern.restEnergy j }) :
    (kern.execute sqrt context).forces = ((kern.withoutBond j).execute sqrt context).forces ∧
    (kern.execute sqrt context).divisors =
      ((kern.withoutBond j).execute sqrt context).divisors ∧
    (kern.execute sqrt context).energy =
      ((kern.withoutBond j).execute sqrt context).energy + kern.restEnergy j := by
  have hlen : (kern.withoutBond j).particle1.length = kern.particle1.length - 1 := by
    unfold ExampleKernel.withoutBond
    simp only [List.length_eraseIdx, if_pos hj]
  have hn : kern.particle1.length = j + (kern.particle1.length - 1 - j) + 1 := by omega
  have hn1 : kern.particle1.length - 1 = j + (kern.particle1.length - 1 - j) := by omega
  unfold ExampleKernel.execute
  rw [hlen]
  have h := withoutBond_loop_suffix sqrt kern context.positions j
    { forces := context.forces, energy := 0, divisors := [] } hstep
    (kern.particle1.length - 1 - j)
  rw [← hn, ← hn1] at h
  exact h

theorem execute_loop_all_coincident (sqrt : R → R) (kern : ExampleKernel R)
    (pos : List (Vec3 R)) (st : ExampleRun R) (n : Nat)
    (hstep : ∀ j, j < n → ∀ s : ExampleRun R,
      kern.bondStep sqrt pos j s = { s with energy := s.energy + kern.restEnergy j }) :
    forLoop n (kern.bondStep sqrt pos) st =
      { st with energy := st.energy + ((List.range n).map kern.restEnergy).sum } := by
  induction n with
  | zero =>
    rw [forLoop_zero]
    simp
  | succ n ih =>
    rw [forLoop_succ, ih (fun j hj => hstep j (by omega)), hstep n (by omega)]
    simp only [List.range_succ, List.map_append, List.sum_append, List.map_cons, List.map_nil,
      List.sum_cons, List.sum_nil, add_zero, add_assoc]

omit [LinearOrderedField R] in
theorem getElem?_set_map {α : Type} (l : List α) (i j : Nat) (a : α) :
    (l.set i a)[j]? = (l[j]?).map (fun x => if i = j then a else x) := by
  rw [set_eq_modify, List.getElem?_modify]
  rfl

theorem copyLoop_first_mismatch (force : ExampleForce R) (m : Nat) :
    ∀ (s i : Nat) (kern : ExampleKernel R), s ≤ i → i < s + m →
      (∀ j, s ≤ j → j < i →
        ¬ ((force.getBondParameters j).particle1 ≠ kern.particle1.getD j 0 ∨
          (force.getBondParameters j).particle2 ≠ kern.particle2.getD j 0)) →
      ((force.getBondParameters i).particle1 ≠ kern.particle1.getD i 0 ∨
        (force.getBondParameters i).particle2 ≠ kern.particle2.getD i 0) →
      ∃ st, ExampleKernel.copyLoop force (List.range' s m) kern =
          .error "updateParametersInContext: A particle index has changed" st ∧
        st.particle1 = kern.particle1 ∧ st.particle2 = kern.particle2 ∧
        (∀ j, st.length[j]? = (kern.length[j]?).map
          (fun x => if s ≤ j ∧ j ≤ i then (force.getBondParameters j).length else x)) ∧
        (∀ j, st.k[j]? = (kern.k[j]?).map
          (fun x => if s ≤ j ∧ j ≤ i then (force.getBondParameters j).k else x)) := by
  induction m with
  | zero =>
    intro s i kern hs hi
    omega
  | succ m ih =>
    intro s i kern hs hi hmatch hmis
    rw [List.range'_succ]
    unfold ExampleKernel.copyLoop
    by_cases hsi : s = i
    · subst hsi
      simp only [if_pos hmis]
      refine ⟨_, rfl, rfl, rfl, ?_, ?_⟩
      · intro j
        simp only [getElem?_set_map]
        congr 1
        funext x
        by_cases hj : s = j
        · subst hj; simp
        · have : ¬ (s ≤ j ∧ j ≤ s) := by omega
          simp [hj, this]
      · intro j
        simp only [getElem?_set_map]
        congr 1
        funext x
        by_cases hj : s = j
        · subst hj; simp
        · have : ¬ (s ≤ j ∧ j ≤ s) := by omega
          simp [hj, this]
    · have hlt : s < i := by omega
      simp only [if_neg (hmatch s (le_refl s) hlt)]
      obtain ⟨st, h1, h2, h3, h4, h5⟩ := ih (s + 1) i
        { kern with
          length := kern.length.set s (force.getBondParameters s).length
          k := kern.k.set s (force.getBondParameters s).k }
        (by omega) (by omega) (fun j hj1 hj2 => hmatch j (by omega) hj2) hmis
      refine ⟨st, h1, h2, h3, ?_, ?_⟩
      · intro j
        rw [h4 j]
        simp only [getElem?_set_map, Option.map_map]
        congr 1
        funext x
        simp only [Function.comp]
        by_cases hj : s = j
        · subst hj
          have h6 : ¬ (s + 1 ≤ s ∧ s ≤ i) := by omega
          have h7 : s ≤ s ∧ s ≤ i := by omega
          simp [h6, h7]
        · by_cases hj2 : s + 1 ≤ j ∧ j ≤ i
          · have h7 : s ≤ j ∧ j ≤ i := by omega
            simp [hj2, h7]
          · have h7 : ¬ (s ≤ j ∧ j ≤ i) := by omega
            simp [hj, hj2, h7]
      · intro j
        rw [h5 j]
        simp only [getElem?_set_map, Option.map_map]
        congr 1
        funext x
        simp only [Function.comp]
        by_cases hj : s = j
        · subst hj
          have h6 : ¬ (s + 1 ≤ s ∧ s ≤ i) := by omega
          have h7 : s ≤ s ∧ s ≤ i := by omega
          simp [h6, h7]
        · by_cases hj2 : s + 1 ≤ j ∧ j ≤ i
          · have h7 : s ≤ j ∧ j ≤ i := by omega
            simp [hj2, h7]
          · have h7 : ¬ (s ≤ j ∧ j ≤ i) := by omega
            simp [hj, hj2, h7]

end ExampleKernelLemmas

section Claims

variable {S R : Type} [LinearOrderedField R]

/-- C3: after `initialize` on a newly constructed kernel, the 1-4 arrays list exactly
the exceptions whose charge product is nonzero, or whose epsilon is nonzero, or that
some exception offset targets, in increasing exception-index order: `num14` is the
length of that list, `bonded14IndexArray` holds its particle pairs and
`baseExceptionParams` its baseline triples.  In particular an exception with charge
product 0, epsilon 0 and no offset is not in the list. -/
theorem initialize_nb14_exact (ext : Externals S R) (u : Kernel R) (system : S)
    (force : NonbondedForce R) :
    (identify14 force (exceptionsWithOffsets force)
        (resize (Kernel.constructed u).exclusions force.getNumParticles [])).2.1 =
      nb14List force ∧
    (initializeKernel ext (Kernel.constructed u) system force).num14 =
      (nb14List force).length ∧
    (initializeKernel ext (Kernel.constructed u) system force).bonded14IndexArray =
      (nb14List force).map (fun i => [(force.getExceptionParameters i).particle1,
          (force.getExceptionParameters i).particle2]) ∧
    (initializeKernel ext (Kernel.constructed u) system force).baseExceptionParams =
      (nb14List force).map (fun i => ((force.getExceptionParameters i).chargeProd,
          (force.getExceptionParameters i).sigma, (force.getExceptionParameters i).epsilon)) ∧
    (nb14List force).Pairwise (fun i j => i < j) ∧
    (∀ i, i ∈ nb14List force ↔
      i < force.getNumExceptions ∧
        ((force.getExceptionParameters i).chargeProd ≠ 0 ∨
          (force.getExceptionParameters i).epsilon ≠ 0 ∨
          ∃ o ∈ force.exceptionParameterOffsets, o.index = i)) ∧
    (∀ i, (force.getExceptionParameters i).chargeProd = 0 →
      (force.getExceptionParameters i).epsilon = 0 →
      (∀ o ∈ force.exceptionParameterOffsets, o.index ≠ i) → i ∉ nb14List force) := by
  have hmem : ∀ i, i ∈ nb14List force ↔
      i < force.getNumExceptions ∧
        ((force.getExceptionParameters i).chargeProd ≠ 0 ∨
          (force.getExceptionParameters i).epsilon ≠ 0 ∨
          ∃ o ∈ force.exceptionParameterOffsets, o.index = i) := by
    intro i
    simp only [nb14List, List.mem_filter, List.mem_range, qualifies14_iff,
      mem_exceptionsWithOffsets]
  refine ⟨identify14_nb14s force _, initializeKernel_num14 ext _ system force,
    initializeKernel_bonded14IndexArray ext u system force,
    initializeKernel_baseExceptionParams ext u system force, ?_, hmem, ?_⟩
  · exact List.Pairwise.filter _ (List.pairwise_lt_range _)
  · intro i hq he ho hi
    rcases ((hmem i).1 hi).2 with h | h | ⟨o, hom, hoi⟩
    · exact h hq
    · exact h he
    · exact ho o hom hoi

/-- C1 (as amended): for a kernel initialized from a force definition whose exception
offsets name existing exceptions, and for every assignment of global-parameter values,
the effective charge, sigma and epsilon that `computeParameters` resolves for each
particle and each 1-4 exception equal the baseline value plus the sum of
`currentGlobalValue × delta` over the offsets registered for that entity, where of the
offsets that share the parameter name and the target only the last registered one
counts. -/
theorem computeParameters_effective_values (ext : Externals S R) (u : Kernel R) (system : S)
    (force : NonbondedForce R) (context : Context S R)
    (hvalid : ∀ o ∈ force.exceptionParameterOffsets, o.index < force.getNumExceptions) :
    (∀ i, i < force.getNumParticles →
      (particleEffective (initializeKernel ext (Kernel.constructed u) system force)
          context).charges[i]? =
        some ((force.getParticleParameters i).charge +
          offsetSum context.getParameter (fun o => o.charge)
            (lastRegistered force.particleParameterOffsets) i) ∧
      (particleEffective (initializeKernel ext (Kernel.constructed u) system force)
          context).sigmas[i]? =
        some ((force.getParticleParameters i).sigma +
          offsetSum context.getParameter (fun o => o.sigma)
            (lastRegistered force.particleParameterOffsets) i) ∧
      (particleEffective (initializeKernel ext (Kernel.constructed u) system force)
          context).epsilons[i]? =
        some ((force.getParticleParameters i).epsilon +
          offsetSum context.getParameter (fun o => o.epsilon)
            (lastRegistered force.particleParameterOffsets) i)) ∧
    (∀ j, j < (nb14List force).length →
      (exceptionEffective (initializeKernel ext (Kernel.constructed u) system force)
          context).charges[j]? =
        some ((force.getExceptionParameters ((nb14List force).getD j 0)).chargeProd +
          offsetSum context.getParameter (fun o => o.charge)
            (lastRegistered force.exceptionParameterOffsets) ((nb14List force).getD j 0)) ∧
      (exceptionEffective (initializeKernel ext (Kernel.constructed u) system force)
          context).sigmas[j]? =
        some ((force.getExceptionParameters ((nb14List force).getD j 0)).sigma +
          offsetSum context.getParameter (fun o => o.sigma)
            (lastRegistered force.exceptionParameterOffsets) ((nb14List force).getD j 0)) ∧
      (exceptionEffective (initializeKernel ext (Kernel.constructed u) system force)
          context).epsilons[j]? =
        some ((force.getExceptionParameters ((nb14List force).getD j 0)).epsilon +
          offsetSum context.getParameter (fun o => o.epsilon)
            (lastRegistered force.exceptionParameterOffsets) ((nb14List force).getD j 0))) :=
  ⟨fun i hi => particleEffective_initialized ext u system force context i hi,
    fun j hj => exceptionEffective_initialized ext u system force context hvalid j hj⟩

/-- C1, witness: the exception of `oneExceptionForce` has charge product 1 and one offset
of charge delta 1; with the parameter at 2 its effective charge product is 1 + 2·1. -/
theorem computeParameters_effective_values_witness :
    (∀ o ∈ oneExceptionForce.exceptionParameterOffsets,
      o.index < oneExceptionForce.getNumExceptions) ∧
    (exceptionEffective
      (initializeKernel sampleExternals (Kernel.constructed rawKernel) () oneExceptionForce)
      (sampleContext [] 10 2)).charges[0]? = some 3 := by
  have hvalid : ∀ o ∈ oneExceptionForce.exceptionParameterOffsets,
      o.index < oneExceptionForce.getNumExceptions := by
    intro o ho
    simp only [oneExceptionForce, emptyForce, List.mem_singleton] at ho
    subst ho
    decide
  have hlist : nb14List oneExceptionForce = [0] := by with_unfolding_all decide
  have h := ((computeParameters_effective_values sampleExternals rawKernel ()
    oneExceptionForce (sampleContext [] 10 2) hvalid).2 0 (by rw [hlist]; decide)).1
  refine ⟨hvalid, h.trans ?_⟩
  rw [hlist]
  with_unfolding_all decide

/-- C1, counterexample: one particle of charge 1 with two offsets registered for the same
parameter `lambda` and the same particle, each of charge delta 1, and `lambda = 1`.
The sum over all registered offsets is 1 + 1·1 + 1·1 = 3; the kernel resolves 2,
because the second registration overwrote the first. -/
theorem effective_charge_duplicate_offsets :
    (particleEffective
      (initializeKernel sampleExternals (Kernel.constructed rawKernel) () duplicateOffsetForce)
      (sampleContext [] 10 1)).charges = [2] ∧
    (duplicateOffsetForce.getParticleParameters 0).charge +
      offsetSum (sampleContext [] 10 1).getParameter (fun o => o.charge)
        duplicateOffsetForce.particleParameterOffsets 0 = 3 := by
  constructor <;> with_unfolding_all decide

/-- C2 (as amended): for a kernel initialized from a force definition, the triple that
`computeParameters` writes for each particle is (σ/2, 2√ε, q), and the triple it writes
for each 1-4 exception is (σ, 4ε, q), where σ, ε, q are the entity's effective sigma,
epsilon and charge (charge product for an exception). -/
theorem computeParameters_triples (ext : Externals S R) (u : Kernel R) (system : S)
    (force : NonbondedForce R) (context : Context S R) :
    (computeParameters ext.sqrt (initializeKernel ext (Kernel.constructed u) system force)
        context).particleParamArray =
      (List.range force.getNumParticles).map (fun i =>
        [(particleEffective (initializeKernel ext (Kernel.constructed u) system force)
            context).sigmas.getD i 0 / 2,
          2 * ext.sqrt ((particleEffective
            (initializeKernel ext (Kernel.constructed u) system force)
            context).epsilons.getD i 0),
          (particleEffective (initializeKernel ext (Kernel.constructed u) system force)
            context).charges.getD i 0]) ∧
    (computeParameters ext.sqrt (initializeKernel ext (Kernel.constructed u) system force)
        context).bonded14ParamArray =
      (List.range (nb14List force).length).map (fun j =>
        [(exceptionEffective (initializeKernel ext (Kernel.constructed u) system force)
            context).sigmas.getD j 0,
          4 * (exceptionEffective (initializeKernel ext (Kernel.constructed u) system force)
            context).epsilons.getD j 0,
          (exceptionEffective (initializeKernel ext (Kernel.constructed u) system force)
            context).charges.getD j 0]) := by
  constructor
  · show forLoop _ _ _ = _
    rw [initializeKernel_particleParamArray, initializeKernel_numParticles]
    have h := forLoop_rows_replicate force.getNumParticles (fun i =>
      [0.5 * (particleEffective (initializeKernel ext (Kernel.constructed u) system force)
          context).sigmas.getD i 0,
        2.0 * ext.sqrt ((particleEffective
          (initializeKernel ext (Kernel.constructed u) system force)
          context).epsilons.getD i 0),
        (particleEffective (initializeKernel ext (Kernel.constructed u) system force)
          context).charges.getD i 0])
    refine h.trans ?_
    apply List.map_congr_left
    intro i _
    have h1 : ∀ x : R, (0.5 : R) * x = x / 2 := fun x => by norm_num; ring
    have h2 : (2.0 : R) = 2 := by norm_num
    simp [h1, h2]
  · show forLoop _ _ _ = _
    rw [initializeKernel_bonded14ParamArray, initializeKernel_num14]
    have h := forLoop_rows_replicate (nb14List force).length (fun j =>
      [(exceptionEffective (initializeKernel ext (Kernel.constructed u) system force)
          context).sigmas.getD j 0,
        4.0 * (exceptionEffective (initializeKernel ext (Kernel.constructed u) system force)
          context).epsilons.getD j 0,
        (exceptionEffective (initializeKernel ext (Kernel.constructed u) system force)
          context).charges.getD j 0])
    refine h.trans ?_
    apply List.map_congr_left
    intro j _
    have h2 : (4.0 : R) = 4 := by norm_num
    simp [h2]

/-- C2, counterexample: the exception of `oneExceptionForce` has effective sigma 2,
epsilon 3 and charge product 3 (with `lambda = 2`); the kernel writes the triple
(2, 12, 3) for it, that is (σ, 4ε, q), which is not (σ/2, 2√ε, q). -/
theorem exception_triple_not_halved :
    (exceptionEffective
      (initializeKernel sampleExternals (Kernel.constructed rawKernel) () oneExceptionForce)
      (sampleContext [] 10 2)).sigmas = [2] ∧
    (exceptionEffective
      (initializeKernel sampleExternals (Kernel.constructed rawKernel) () oneExceptionForce)
      (sampleContext [] 10 2)).epsilons = [3] ∧
    (exceptionEffective
      (initializeKernel sampleExternals (Kernel.constructed rawKernel) () oneExceptionForce)
      (sampleContext [] 10 2)).charges = [3] ∧
    (computeParameters sampleExternals.sqrt
      (initializeKernel sampleExternals (Kernel.constructed rawKernel) () oneExceptionForce)
      (sampleContext [] 10 2)).bonded14ParamArray = [[2, 12, 3]] ∧
    ([[2, 12, 3]] : List (List ℚ)) ≠ [[2 / 2, 2 * sampleExternals.sqrt 3, 3]] := by
  refine ⟨?_, ?_, ?_, ?_, ?_⟩ <;> with_unfolding_all decide

/-- C4 (as amended): for a kernel initialized from a force `F` and every force `F'`,
`copyParametersToContext(F')` fails, leaving the kernel as it was, whenever `F'` has a
different number of particles than `F` or a different number of exceptions that qualify
as 1-4 interactions than `F`. -/
theorem copyParametersToContext_fails_on_counts (ext : Externals S R) (u : Kernel R)
    (system : S) (force force' : NonbondedForce R) (context : Context S R)
    (h : force'.getNumParticles ≠ force.getNumParticles ∨
      (nb14List force').length ≠ (nb14List force).length) :
    (copyParametersToContext ext (initializeKernel ext (Kernel.constructed u) system force)
        context force').failed = true ∧
    (copyParametersToContext ext (initializeKernel ext (Kernel.constructed u) system force)
        context force').state = initializeKernel ext (Kernel.constructed u) system force := by
  by_cases hp : force'.getNumParticles =
      (initializeKernel ext (Kernel.constructed u) system force).numParticles
  · have h14 : (nb14List force').length ≠
        (initializeKernel ext (Kernel.constructed u) system force).num14 := by
      rw [initializeKernel_num14]
      rw [initializeKernel_numParticles] at hp
      rcases h with h | h
      · exact absurd hp h
      · exact h
    rw [copyParametersToContext_error_num14 ext _ context force' hp h14]
    exact ⟨rfl, rfl⟩
  · rw [copyParametersToContext_error_particles ext _ context force' hp]
    exact ⟨rfl, rfl⟩

/-- C4, witness: the update of a two-particle kernel with a force of no particles
fails. -/
theorem copyParametersToContext_fails_on_counts_witness :
    (emptyForce.getNumParticles ≠ twoParticleForce.getNumParticles ∨
      (nb14List emptyForce).length ≠ (nb14List twoParticleForce).length) ∧
    (copyParametersToContext sampleExternals
      (initializeKernel sampleExternals (Kernel.constructed rawKernel) () twoParticleForce)
      (sampleContext [] 10 1) emptyForce).failed = true :=
  ⟨Or.inl (by decide),
    (copyParametersToContext_fails_on_counts sampleExternals rawKernel () twoParticleForce
      emptyForce (sampleContext [] 10 1) (Or.inl (by decide))).1⟩

/-- C4, counterexample: the kernel is initialized from a force with two particles and no
exception; the update force has the same particles and one exception, a pure exclusion.
The number of exceptions differs (1 against 0) and the update does not fail. -/
theorem copyParametersToContext_accepts_new_exclusion :
    pureExclusionForce.getNumParticles = twoParticleForce.getNumParticles ∧
    pureExclusionForce.getNumExceptions ≠ twoParticleForce.getNumExceptions ∧
    (copyParametersToContext sampleExternals
      (initializeKernel sampleExternals (Kernel.constructed rawKernel) () twoParticleForce)
      (sampleContext [] 10 1) pureExclusionForce).failed = false := by
  refine ⟨?_, ?_, ?_⟩ <;> with_unfolding_all decide

/-- C5 (as amended): for a kernel initialized from a force `F` and every force `F'` with
the same number of particles, `copyParametersToContext(F')` fails whenever the number
of exceptions that qualify as 1-4 interactions under `F'` differs from the number that
qualified under `F`; when the two numbers are equal it succeeds, whether or not the
two sets are the same, and the 1-4 index pairs and baseline parameters are then those of
the exceptions that qualify under `F'`. -/
theorem copyParametersToContext_checks_num14_only (ext : Externals S R) (u : Kernel R)
    (system : S) (force force' : NonbondedForce R) (context : Context S R)
    (hp : force'.getNumParticles = force.getNumParticles) :
    ((nb14List force').length ≠ (nb14List force).length →
      (copyParametersToContext ext (initializeKernel ext (Kernel.constructed u) system force)
        context force').failed = true) ∧
    ((nb14List force').length = (nb14List force).length →
      (copyParametersToContext ext (initializeKernel ext (Kernel.constructed u) system force)
        context force').failed = false ∧
      (copyParametersToContext ext (initializeKernel ext (Kernel.constructed u) system force)
        context force').state.bonded14IndexArray =
        (nb14List force').map (fun i => [(force'.getExceptionParameters i).particle1,
          (force'.getExceptionParameters i).particle2]) ∧
      (copyParametersToContext ext (initializeKernel ext (Kernel.constructed u) system force)
        context force').state.baseExceptionParams =
        (nb14List force').map (fun i => ((force'.getExceptionParameters i).chargeProd,
          (force'.getExceptionParameters i).sigma,
          (force'.getExceptionParameters i).epsilon))) := by
  have hp2 : force'.getNumParticles =
      (initializeKernel ext (Kernel.constructed u) system force).numParticles := by
    rw [initializeKernel_numParticles]; exact hp
  constructor
  · intro h
    rw [copyParametersToContext_error_num14 ext _ context force' hp2
      (by rw [initializeKernel_num14]; exact h)]
    rfl
  · intro h
    obtain ⟨h1, h2, h3, h4⟩ := initializeKernel_shape ext u system force
    rw [copyParametersToContext_ok ext _ context force' hp2
      (by rw [initializeKernel_num14]; exact h) h1 h2 h3 h4]
    exact ⟨rfl, rfl, rfl⟩

/-- C5, witness: the update of the kernel of `firstQualifiesForce` with
`secondQualifiesForce` succeeds and the 1-4 pair becomes (2,3). -/
theorem copyParametersToContext_checks_num14_only_witness :
    secondQualifiesForce.getNumParticles = firstQualifiesForce.getNumParticles ∧
    (copyParametersToContext sampleExternals
      (initializeKernel sampleExternals (Kernel.constructed rawKernel) () firstQualifiesForce)
      (sampleContext [] 10 1) secondQualifiesForce).state.bonded14IndexArray = [[2, 3]] := by
  have h := ((copyParametersToContext_checks_num14_only sampleExternals rawKernel ()
    firstQualifiesForce secondQualifiesForce (sampleContext [] 10 1) (by decide)).2
      (by with_unfolding_all decide)).2.1
  refine ⟨by decide, h.trans ?_⟩
  with_unfolding_all decide

/-- C5, counterexample: `firstQualifiesForce` and `secondQualifiesForce` have the same
particles and the same exception pairs; exception 0 is the only 1-4 interaction under
the first, exception 1 the only one under the second.  The two sets differ, have the
same size, and the update does not fail. -/
theorem copyParametersToContext_accepts_changed_set :
    nb14List firstQualifiesForce = [0] ∧
    nb14List secondQualifiesForce = [1] ∧
    (copyParametersToContext sampleExternals
      (initializeKernel sampleExternals (Kernel.constructed rawKernel) () firstQualifiesForce)
      (sampleContext [] 10 1) secondQualifiesForce).failed = false := by
  refine ⟨?_, ?_, ?_⟩ <;> with_unfolding_all decide

/-- C6: for every force `F`, `copyParametersToContext(F)` applied to a kernel just
initialized from the same `F` (in a context of the same system) succeeds and returns the
kernel unchanged: the baseline particle parameters, the 1-4 baseline parameters, the 1-4
index pairs and the dispersion coefficient keep their values, so every evaluation after
the update gives the outcome (resolved parameters, energy, forces) of the evaluation
without it. -/
theorem copyParametersToContext_same_force (ext : Externals S R) (u : Kernel R) (system : S)
    (force : NonbondedForce R) (context : Context S R) (hsys : context.system = system) :
    copyParametersToContext ext (initializeKernel ext (Kernel.constructed u) system force)
        context force =
      .ok () (initializeKernel ext (Kernel.constructed u) system force) ∧
    (∀ (c : Context S R) (includeForces includeEnergy includeDirect includeReciprocal : Bool),
      execute ext
          (copyParametersToContext ext
            (initializeKernel ext (Kernel.constructed u) system force) context force).state
          c includeForces includeEnergy includeDirect includeReciprocal =
        execute ext (initializeKernel ext (Kernel.constructed u) system force) c
          includeForces includeEnergy includeDirect includeReciprocal) := by
  obtain ⟨h1, h2, h3, h4⟩ := initializeKernel_shape ext u system force
  have hcopy : copyParametersToContext ext
      (initializeKernel ext (Kernel.constructed u) system force) context force =
      .ok () (initializeKernel ext (Kernel.constructed u) system force) := by
    rw [copyParametersToContext_ok ext _ context force
      (initializeKernel_numParticles ext _ system force).symm
      (initializeKernel_num14 ext _ system force).symm h1 h2 h3 h4]
    have hd : (copiedKernel ext (initializeKernel ext (Kernel.constructed u) system force)
        context force).dispersionCoefficient =
        (initializeKernel ext (Kernel.constructed u) system force).dispersionCoefficient := by
      unfold copiedKernel
      simp only
      rw [initializeKernel_dispersionCoefficient, hsys]
      split_ifs with ha hb hb
      · rfl
      · exact absurd ha.1 hb
      · rfl
      · rfl
    have hk : copiedKernel ext (initializeKernel ext (Kernel.constructed u) system force)
        context force =
        { initializeKernel ext (Kernel.constructed u) system force with
          baseParticleParams :=
            (initializeKernel ext (Kernel.constructed u) system force).baseParticleParams
          baseExceptionParams :=
            (initializeKernel ext (Kernel.constructed u) system force).baseExceptionParams
          bonded14IndexArray :=
            (initializeKernel ext (Kernel.constructed u) system force).bonded14IndexArray
          dispersionCoefficient :=
            (initializeKernel ext (Kernel.constructed u) system force).dispersionCoefficient } := by
      rw [← hd, initializeKernel_baseParticleParams, initializeKernel_baseExceptionParams,
        initializeKernel_bonded14IndexArray]
      rfl
    rw [hk]
  refine ⟨hcopy, ?_⟩
  intro c a b d e
  rw [hcopy]
  rfl

/-- C6, witness: the update of the kernel of `oneExceptionForce` with the same force
returns normally. -/
theorem copyParametersToContext_same_force_witness :
    (sampleContext [] 10 1).system = () ∧
    (copyParametersToContext sampleExternals
      (initializeKernel sampleExternals (Kernel.constructed rawKernel) () oneExceptionForce)
      (sampleContext [] 10 1) oneExceptionForce).failed = false := by
  refine ⟨rfl, ?_⟩
  rw [(copyParametersToContext_same_force sampleExternals rawKernel () oneExceptionForce
    (sampleContext [] 10 1) rfl).1]
  rfl

/-- C7 (as amended): for every kernel whose method is CutoffPeriodic, Ewald, PME or
LJPME and every evaluation call, `execute` fails with the box-size error whenever any of
the periodic box's three extents (`box[0][0]`, `box[1][1]`, `box[2][2]`) is smaller than
1.999999 times the nonbonded cutoff. -/
theorem execute_fails_on_small_box (ext : Externals S R) (k : Kernel R)
    (context : Context S R)
    (includeForces includeEnergy includeDirect includeReciprocal : Bool)
    (hm : k.nonbondedMethod = .CutoffPeriodic ∨ k.nonbondedMethod = .Ewald ∨
      k.nonbondedMethod = .PME ∨ k.nonbondedMethod = .LJPME)
    (hbox : context.periodicBoxVectors.a.x < 1.999999 * k.nonbondedCutoff ∨
      context.periodicBoxVectors.b.y < 1.999999 * k.nonbondedCutoff ∨
      context.periodicBoxVectors.c.z < 1.999999 * k.nonbondedCutoff) :
    (execute ext k context includeForces includeEnergy includeDirect
        includeReciprocal).failed = true ∧
    ∃ st, execute ext k context includeForces includeEnergy includeDirect includeReciprocal =
      .error boxSizeMessage st := by
  have h := execute_error ext k context includeForces includeEnergy includeDirect
    includeReciprocal ((usesPeriodicBox_iff k).2 hm) ((boxTooSmall_iff k _).2 hbox)
  rw [h]
  exact ⟨rfl, _, rfl⟩

/-- C7, witness: a CutoffPeriodic kernel with cutoff 1 in a cubic box of edge 1. -/
theorem execute_fails_on_small_box_witness :
    (initializeKernel sampleExternals (Kernel.constructed rawKernel) ()
      periodicForce).nonbondedMethod = .CutoffPeriodic ∧
    (sampleContext nearPositions 1 1).periodicBoxVectors.a.x <
      1.999999 * (initializeKernel sampleExternals (Kernel.constructed rawKernel) ()
        periodicForce).nonbondedCutoff ∧
    (execute sampleExternals
      (initializeKernel sampleExternals (Kernel.constructed rawKernel) () periodicForce)
      (sampleContext nearPositions 1 1) true true true true).failed = true := by
  have hm : (initializeKernel sampleExternals (Kernel.constructed rawKernel) ()
      periodicForce).nonbondedMethod = .CutoffPeriodic := rfl
  have hb : (sampleContext nearPositions 1 1).periodicBoxVectors.a.x <
      1.999999 * (initializeKernel sampleExternals (Kernel.constructed rawKernel) ()
        periodicForce).nonbondedCutoff := by
    show (1 : ℚ) < 1.999999 * 1
    norm_num
  exact ⟨hm, hb, (execute_fails_on_small_box sampleExternals _ _ true true true true
    (Or.inl hm) (Or.inl hb)).1⟩

/-- C7, counterexample: a CutoffPeriodic kernel with cutoff 1 in a cubic box of edge
1.9999995.  Every extent is smaller than twice the cutoff, and `execute` does not fail:
the test is against 1.999999 times the cutoff. -/
theorem execute_accepts_box_within_tolerance :
    (initializeKernel sampleExternals (Kernel.constructed rawKernel) ()
      periodicForce).nonbondedMethod = .CutoffPeriodic ∧
    (sampleContext nearPositions 1.9999995 1).periodicBoxVectors.a.x <
      2 * (initializeKernel sampleExternals (Kernel.constructed rawKernel) ()
        periodicForce).nonbondedCutoff ∧
    (sampleContext nearPositions 1.9999995 1).periodicBoxVectors.b.y <
      2 * (initializeKernel sampleExternals (Kernel.constructed rawKernel) ()
        periodicForce).nonbondedCutoff ∧
    (sampleContext nearPositions 1.9999995 1).periodicBoxVectors.c.z <
      2 * (initializeKernel sampleExternals (Kernel.constructed rawKernel) ()
        periodicForce).nonbondedCutoff ∧
    (execute sampleExternals
      (initializeKernel sampleExternals (Kernel.constructed rawKernel) () periodicForce)
      (sampleContext nearPositions 1.9999995 1) true true true true).failed = false := by
  have hb : (1.9999995 : ℚ) < 2 * 1 := by norm_num
  refine ⟨rfl, hb, hb, hb, ?_⟩
  have hsmall : boxTooSmall
      (initializeKernel sampleExternals (Kernel.constructed rawKernel) () periodicForce)
      (sampleContext nearPositions 1.9999995 1).periodicBoxVectors = false := by
    rw [Bool.eq_false_iff, Ne, boxTooSmall_iff]
    show ¬ ((1.9999995 : ℚ) < 1.999999 * 1 ∨ (1.9999995 : ℚ) < 1.999999 * 1 ∨
      (1.9999995 : ℚ) < 1.999999 * 1)
    norm_num
  rw [execute_ok sampleExternals _ _ true true true true (by rw [hsmall, Bool.and_false])]
  rfl

/-- C8: for every evaluation call of the nonbonded kernel that fails, the failure is the
box-size error, the context (and so the per-particle force accumulators) is exactly what
it was before the call, and no energy value is returned. -/
theorem execute_error_keeps_forces (ext : Externals S R) (k : Kernel R)
    (context : Context S R)
    (includeForces includeEnergy includeDirect includeReciprocal : Bool)
    (message : String) (st : Kernel R × Context S R)
    (h : execute ext k context includeForces includeEnergy includeDirect includeReciprocal =
      .error message st) :
    message = boxSizeMessage ∧ st.2.forces = context.forces ∧ st.2 = context ∧
    (execute ext k context includeForces includeEnergy includeDirect
      includeReciprocal).value? = none := by
  by_cases hc : (usesPeriodicBox k && boxTooSmall k context.periodicBoxVectors) = true
  · rw [Bool.and_eq_true] at hc
    have h2 := execute_error ext k context includeForces includeEnergy includeDirect
      includeReciprocal hc.1 hc.2
    rw [h2] at h ⊢
    injection h with hmsg hst
    subst hmsg
    subst hst
    exact ⟨rfl, rfl, rfl, rfl⟩
  · rw [execute_ok ext k context includeForces includeEnergy includeDirect includeReciprocal
      (by simpa using hc)] at h
    exact Outcome.noConfusion h

/-- C8, witness: the failing call of the CutoffPeriodic kernel in a box of edge 1 leaves
the two force accumulators at zero. -/
theorem execute_error_keeps_forces_witness :
    ∃ st, execute sampleExternals
        (initializeKernel sampleExternals (Kernel.constructed rawKernel) () periodicForce)
        (sampleContext nearPositions 1 1) true true true true = .error boxSizeMessage st ∧
      st.2.forces = (sampleContext nearPositions 1 1).forces := by
  have hm : usesPeriodicBox
      (initializeKernel sampleExternals (Kernel.constructed rawKernel) () periodicForce) =
      true := rfl
  have hb : boxTooSmall
      (initializeKernel sampleExternals (Kernel.constructed rawKernel) () periodicForce)
      (sampleContext nearPositions 1 1).periodicBoxVectors = true := by
    rw [boxTooSmall_iff]
    left
    show (1 : ℚ) < 1.999999 * 1
    norm_num
  have h := execute_error sampleExternals _ (sampleContext nearPositions 1 1) true true true
    true hm hb
  exact ⟨_, h, (execute_error_keeps_forces sampleExternals _ _ true true true true _ _ h).2.1⟩

/-- C9: for a force definition with method CutoffPeriodic, Ewald or PME, a box that
passes the size test and direct-space contributions included, both evaluations return,
the energy returned when the dispersion correction is enabled equals the energy
returned when it is disabled plus `dispersionCoefficient / (box[0][0]·box[1][1]·
box[2][2])`, where `dispersionCoefficient` is the value `calcDispersionCorrection`
gave at `initialize`, and the forces written are the same.  The Ewald and PME parameter
selection is assumed not to read the dispersion-correction flag. -/
theorem dispersion_correction_energy (ext : Externals S R) (u : Kernel R) (system : S)
    (force : NonbondedForce R) (context : Context S R)
    (includeForces includeEnergy includeReciprocal : Bool)
    (hm : force.nonbondedMethod = .CutoffPeriodic ∨ force.nonbondedMethod = .Ewald ∨
      force.nonbondedMethod = .PME)
    (hewald : force.nonbondedMethod = .Ewald →
      ext.calcEwaldParameters system { force with useDispersionCorrection := true } =
        ext.calcEwaldParameters system { force with useDispersionCorrection := false })
    (hpme : force.nonbondedMethod = .PME →
      ext.calcPMEParameters system { force with useDispersionCorrection := true } false =
        ext.calcPMEParameters system { force with useDispersionCorrection := false } false)
    (hbox : ¬ (context.periodicBoxVectors.a.x < 1.999999 * force.cutoffDistance ∨
      context.periodicBoxVectors.b.y < 1.999999 * force.cutoffDistance ∨
      context.periodicBoxVectors.c.z < 1.999999 * force.cutoffDistance)) :
    ∃ e st0 st1,
      execute ext
          (initializeKernel ext (Kernel.constructed u) system
            { force with useDispersionCorrection := false })
          context includeForces includeEnergy true includeReciprocal = .ok e st0 ∧
      execute ext
          (initializeKernel ext (Kernel.constructed u) system
            { force with useDispersionCorrection := true })
          context includeForces includeEnergy true includeReciprocal =
        .ok (e + (initializeKernel ext (Kernel.constructed u) system
              { force with useDispersionCorrection := true }).dispersionCoefficient /
            (context.periodicBoxVectors.a.x * context.periodicBoxVectors.b.y *
              context.periodicBoxVectors.c.z)) st1 ∧
      st1.2.forces = st0.2.forces ∧
      (initializeKernel ext (Kernel.constructed u) system
          { force with useDispersionCorrection := true }).dispersionCoefficient =
        ext.calcDispersionCorrection system { force with useDispersionCorrection := true } := by
  obtain ⟨hK, h0⟩ := initializeKernel_dispersion_flag ext (Kernel.constructed u) system force
    hewald hpme hm
  have hK0 : { initializeKernel ext (Kernel.constructed u) system
        { force with useDispersionCorrection := false } with dispersionCoefficient := 0 } =
      initializeKernel ext (Kernel.constructed u) system
        { force with useDispersionCorrection := false } := by
    exact (congrArg (fun d => { initializeKernel ext (Kernel.constructed u) system
        { force with useDispersionCorrection := false } with dispersionCoefficient := d })
      h0).symm
  have hfields := initializeKernel_method ext (Kernel.constructed u) system
    { force with useDispersionCorrection := false }
  have hsmall : boxTooSmall (initializeKernel ext (Kernel.constructed u) system
      { force with useDispersionCorrection := false }) context.periodicBoxVectors = false := by
    rw [Bool.eq_false_iff, Ne, boxTooSmall_iff, hfields.2]
    exact hbox
  obtain ⟨e, st0, st1, he0, he1, hst⟩ := execute_dispersion ext
    (initializeKernel ext (Kernel.constructed u) system
      { force with useDispersionCorrection := false })
    context includeForces includeEnergy includeReciprocal
    (ext.calcDispersionCorrection system { force with useDispersionCorrection := true })
    (by rw [hfields.1]; exact hm) hsmall
  rw [hK0] at he0
  rw [← hK] at he1
  have hc : (initializeKernel ext (Kernel.constructed u) system
      { force with useDispersionCorrection := true }).dispersionCoefficient =
      ext.calcDispersionCorrection system { force with useDispersionCorrection := true } := by
    rw [hK]
  refine ⟨e, st0, st1, he0, ?_, by rw [hst], hc⟩
  rw [hc]
  exact he1

/-- C9, witness: the CutoffPeriodic force with cutoff 1 in a cubic box of edge 3; both
evaluations return and the energies differ by the coefficient over the volume 27. -/
theorem dispersion_correction_energy_witness :
    periodicForce.nonbondedMethod = .CutoffPeriodic ∧
    ¬ ((sampleContext nearPositions 3 1).periodicBoxVectors.a.x <
        1.999999 * periodicForce.cutoffDistance ∨
      (sampleContext nearPositions 3 1).periodicBoxVectors.b.y <
        1.999999 * periodicForce.cutoffDistance ∨
      (sampleContext nearPositions 3 1).periodicBoxVectors.c.z <
        1.999999 * periodicForce.cutoffDistance) ∧
    ∃ e,
      (execute sampleExternals
        (initializeKernel sampleExternals (Kernel.constructed rawKernel) ()
          { periodicForce with useDispersionCorrection := false })
        (sampleContext nearPositions 3 1) true true true true).value? = some e ∧
      (execute sampleExternals
        (initializeKernel sampleExternals (Kernel.constructed rawKernel) ()
          { periodicForce with useDispersionCorrection := true })
        (sampleContext nearPositions 3 1) true true true true).value? =
        some (e + 1 / (3 * 3 * 3)) := by
  have hb : ¬ ((sampleContext nearPositions 3 1).periodicBoxVectors.a.x <
        1.999999 * periodicForce.cutoffDistance ∨
      (sampleContext nearPositions 3 1).periodicBoxVectors.b.y <
        1.999999 * periodicForce.cutoffDistance ∨
      (sampleContext nearPositions 3 1).periodicBoxVectors.c.z <
        1.999999 * periodicForce.cutoffDistance) := by
    show ¬ ((3 : ℚ) < 1.999999 * 1 ∨ (3 : ℚ) < 1.999999 * 1 ∨ (3 : ℚ) < 1.999999 * 1)
    norm_num
  obtain ⟨e, st0, st1, h0, h1, _, hc⟩ := dispersion_correction_energy sampleExternals rawKernel
    () periodicForce (sampleContext nearPositions 3 1) true true true (Or.inl rfl)
    (fun h => absurd h (by decide)) (fun h => absurd h (by decide)) hb
  refine ⟨rfl, hb, e, by rw [h0]; rfl, ?_⟩
  rw [h1, hc]
  rfl

/-- C10 (as amended): for a force definition whose exception offsets name existing
exceptions and that contains an exception `k` with charge product 0, epsilon 0 and no
offset, the kernel initialized from it and the kernel initialized from the same
definition with that exception removed have the same 1-4 list (count, index pairs,
baseline parameters) and resolve the same particle and 1-4 parameter arrays, so the pair
is absent from the 1-4 sum in both runs; with the exception present the pair is in the
exclusion sets handed to the pair evaluator. -/
theorem removing_pure_exclusion (ext : Externals S R) (u : Kernel R) (system : S)
    (force : NonbondedForce R) (k : Nat) (context : Context S R)
    (hk : k < force.getNumExceptions)
    (hq : (force.getExceptionParameters k).chargeProd = 0)
    (he : (force.getExceptionParameters k).epsilon = 0)
    (ho : ∀ o ∈ force.exceptionParameterOffsets, o.index ≠ k)
    (hvalid : ∀ o ∈ force.exceptionParameterOffsets, o.index < force.getNumExceptions) :
    (initializeKernel ext (Kernel.constructed u) system (removeException force k)).num14 =
      (initializeKernel ext (Kernel.constructed u) system force).num14 ∧
    (initializeKernel ext (Kernel.constructed u) system
        (removeException force k)).bonded14IndexArray =
      (initializeKernel ext (Kernel.constructed u) system force).bonded14IndexArray ∧
    (initializeKernel ext (Kernel.constructed u) system
        (removeException force k)).baseExceptionParams =
      (initializeKernel ext (Kernel.constructed u) system force).baseExceptionParams ∧
    (computeParameters ext.sqrt
        (initializeKernel ext (Kernel.constructed u) system (removeException force k))
        context).particleParamArray =
      (computeParameters ext.sqrt (initializeKernel ext (Kernel.constructed u) system force)
        context).particleParamArray ∧
    (computeParameters ext.sqrt
        (initializeKernel ext (Kernel.constructed u) system (removeException force k))
        context).bonded14ParamArray =
      (computeParameters ext.sqrt (initializeKernel ext (Kernel.constructed u) system force)
        context).bonded14ParamArray ∧
    ((force.getExceptionParameters k).particle1 < force.getNumParticles →
      (force.getExceptionParameters k).particle2 ∈
        (initializeKernel ext (Kernel.constructed u) system force).exclusions.getD
          (force.getExceptionParameters k).particle1 []) := by
  have hlist := removeException_nb14List force k hk hq he ho
  have hnum : (initializeKernel ext (Kernel.constructed u) system
      (removeException force k)).num14 =
      (initializeKernel ext (Kernel.constructed u) system force).num14 := by
    rw [initializeKernel_num14, initializeKernel_num14, ← hlist, List.length_map]
  have hidx : (initializeKernel ext (Kernel.constructed u) system
      (removeException force k)).bonded14IndexArray =
      (initializeKernel ext (Kernel.constructed u) system force).bonded14IndexArray := by
    rw [initializeKernel_bonded14IndexArray, initializeKernel_bonded14IndexArray, ← hlist,
      List.map_map]
    apply List.map_congr_left
    intro i _
    simp only [Function.comp, removeException_getExceptionParameters]
  have hbase : (initializeKernel ext (Kernel.constructed u) system
      (removeException force k)).baseExceptionParams =
      (initializeKernel ext (Kernel.constructed u) system force).baseExceptionParams := by
    rw [initializeKernel_baseExceptionParams, initializeKernel_baseExceptionParams, ← hlist,
      List.map_map]
    apply List.map_congr_left
    intro i _
    simp only [Function.comp, removeException_getExceptionParameters]
  have hcompute := computeParameters_congr ext.sqrt
    (initializeKernel ext (Kernel.constructed u) system force)
    (initializeKernel ext (Kernel.constructed u) system (removeException force k)) context
    (by rw [initializeKernel_numParticles, initializeKernel_numParticles]; rfl) hnum
    (by rw [initializeKernel_baseParticleParams, initializeKernel_baseParticleParams]; rfl)
    hbase
    (by rw [initializeKernel_particleParamOffsets, initializeKernel_particleParamOffsets]; rfl)
    (removeException_exceptionParamOffsets ext u system force k hk hq he ho hvalid)
    (by rw [initializeKernel_particleParamArray, initializeKernel_particleParamArray]; rfl)
    (by
      rw [initializeKernel_bonded14ParamArray, initializeKernel_bonded14ParamArray, ← hlist,
        List.length_map])
  refine ⟨hnum, hidx, hbase, hcompute.1, hcompute.2, ?_⟩
  intro hp
  rw [initializeKernel_exclusions]
  exact (identify14_loop_exclusions force (exceptionsWithOffsets force)
    (List.replicate force.getNumParticles []) force.getNumExceptions).2 k hk
    (by rw [List.length_replicate]; exact hp)

/-- C10, witness: the pure exclusion (0,1) of `pureExclusionForce` is exception 0; its
pair is in the exclusion set of particle 0. -/
theorem removing_pure_exclusion_witness :
    0 < pureExclusionForce.getNumExceptions ∧
    (pureExclusionForce.getExceptionParameters 0).chargeProd = 0 ∧
    (pureExclusionForce.getExceptionParameters 0).epsilon = 0 ∧
    (initializeKernel sampleExternals (Kernel.constructed rawKernel) ()
      (removeException pureExclusionForce 0)).num14 =
      (initializeKernel sampleExternals (Kernel.constructed rawKernel) ()
        pureExclusionForce).num14 ∧
    1 ∈ (initializeKernel sampleExternals (Kernel.constructed rawKernel) ()
      pureExclusionForce).exclusions.getD 0 [] := by
  have h := removing_pure_exclusion sampleExternals rawKernel () pureExclusionForce 0
    (sampleContext unitPositions 10 1) (by decide) rfl rfl
    (by intro o ho; simp [pureExclusionForce, twoParticleForce, emptyForce] at ho)
    (by intro o ho; simp [pureExclusionForce, twoParticleForce, emptyForce] at ho)
  exact ⟨by decide, rfl, rfl, h.1, h.2.2.2.2.2 (by decide)⟩

/-- C10, counterexample: two particles of charges 1 and −1 at distance 1, method
NoCutoff, and the single exception (0,1) with charge product 0, epsilon 0 and no offset.
With the exception the exclusion sets are {1} and {0}, the pair is excluded and the
energy is 0; with the exception removed the exclusion sets are empty, the pair is in the
direct sum and the energy is −(Coulomb constant). -/
theorem removing_pure_exclusion_changes_energy :
    pureExclusionForce.exceptions = [⟨0, 1, 0, 1, 0⟩] ∧
    pureExclusionForce.exceptionParameterOffsets = [] ∧
    (initializeKernel sampleExternals (Kernel.constructed rawKernel) ()
      pureExclusionForce).exclusions = [[1], [0]] ∧
    (initializeKernel sampleExternals (Kernel.constructed rawKernel) ()
      (removeException pureExclusionForce 0)).exclusions = [[], []] ∧
    (execute sampleExternals
      (initializeKernel sampleExternals (Kernel.constructed rawKernel) () pureExclusionForce)
      (sampleContext unitPositions 10 1) true true true true).value? = some 0 ∧
    (execute sampleExternals
      (initializeKernel sampleExternals (Kernel.constructed rawKernel) ()
        (removeException pureExclusionForce 0))
      (sampleContext unitPositions 10 1) true true true true).value? =
      some (-coulombConstant) := by
  refine ⟨rfl, rfl, ?_, ?_, ?_, ?_⟩ <;> decide!

/-- C11: `getPMEParameters` fails if and only if the kernel's method is neither PME nor
LJPME, and otherwise returns the stored `ewaldAlpha` and `gridSize`, which for an
initialized kernel are the values `calcPMEParameters` gave at `initialize`;
`getLJPMEParameters` fails if and only if the method is not LJPME, and otherwise
returns the stored `ewaldDispersionAlpha` and `dispersionGridSize`, the values of the
dispersion call of `calcPMEParameters` at `initialize`. -/
theorem pme_parameter_accessors (ext : Externals S R) (k : Kernel R) (system : S)
    (force : NonbondedForce R) :
    ((∃ message, getPMEParameters k = .error message) ↔
      (k.nonbondedMethod ≠ .PME ∧ k.nonbondedMethod ≠ .LJPME)) ∧
    (k.nonbondedMethod = .PME ∨ k.nonbondedMethod = .LJPME →
      getPMEParameters k = .ok (k.ewaldAlpha, k.gridSize.1, k.gridSize.2.1, k.gridSize.2.2)) ∧
    ((∃ message, getLJPMEParameters k = .error message) ↔ k.nonbondedMethod ≠ .LJPME) ∧
    (k.nonbondedMethod = .LJPME →
      getLJPMEParameters k =
        .ok (k.ewaldDispersionAlpha, k.dispersionGridSize.1, k.dispersionGridSize.2.1,
          k.dispersionGridSize.2.2)) ∧
    ((∃ message, getPMEParameters (initializeKernel ext k system force) = .error message) ↔
      (force.nonbondedMethod ≠ .PME ∧ force.nonbondedMethod ≠ .LJPME)) ∧
    (force.nonbondedMethod = .PME ∨ force.nonbondedMethod = .LJPME →
      getPMEParameters (initializeKernel ext k system force) =
        .ok ((ext.calcPMEParameters system force false).1,
          (ext.calcPMEParameters system force false).2.1,
          (ext.calcPMEParameters system force false).2.2.1,
          (ext.calcPMEParameters system force false).2.2.2)) ∧
    ((∃ message, getLJPMEParameters (initializeKernel ext k system force) = .error message) ↔
      force.nonbondedMethod ≠ .LJPME) ∧
    (force.nonbondedMethod = .LJPME →
      getLJPMEParameters (initializeKernel ext k system force) =
        .ok ((ext.calcPMEParameters system force true).1,
          (ext.calcPMEParameters system force true).2.1,
          (ext.calcPMEParameters system force true).2.2.1,
          (ext.calcPMEParameters system force true).2.2.2)) := by
  have hgen : ∀ k : Kernel R,
      ((∃ message, getPMEParameters k = .error message) ↔
        (k.nonbondedMethod ≠ .PME ∧ k.nonbondedMethod ≠ .LJPME)) ∧
      (k.nonbondedMethod = .PME ∨ k.nonbondedMethod = .LJPME →
        getPMEParameters k =
          .ok (k.ewaldAlpha, k.gridSize.1, k.gridSize.2.1, k.gridSize.2.2)) ∧
      ((∃ message, getLJPMEParameters k = .error message) ↔ k.nonbondedMethod ≠ .LJPME) ∧
      (k.nonbondedMethod = .LJPME →
        getLJPMEParameters k =
          .ok (k.ewaldDispersionAlpha, k.dispersionGridSize.1, k.dispersionGridSize.2.1,
            k.dispersionGridSize.2.2)) := by
    intro k
    unfold getPMEParameters getLJPMEParameters
    cases k.nonbondedMethod <;> simp
  obtain ⟨g1, g2, g3, g4⟩ := hgen k
  obtain ⟨i1, i2, i3, i4⟩ := hgen (initializeKernel ext k system force)
  obtain ⟨_, e2, e3⟩ := initializeKernel_ewald ext k system force
  rw [(initializeKernel_method ext k system force).1] at i1 i2 i3 i4
  refine ⟨g1, g2, g3, g4, i1, ?_, i3, ?_⟩
  · intro h
    rw [i2 h, (e2 h).1, (e2 h).2]
  · intro h
    rw [i4 h, (e3 h).1, (e3 h).2]

/-- C12: for every force definition whose method is LJPME, after `initialize` the
switching flag of the kernel is off whatever the force's flag says, and after any
sequence of evaluations and updates the pair evaluator that `execute` configures has
no switching function; for the methods CutoffNonPeriodic, CutoffPeriodic, Ewald and PME
the kernel's switching flag equals the force's flag. -/
theorem switching_after_initialize (ext : Externals S R) (k : Kernel R) (system : S)
    (force : NonbondedForce R) :
    (force.nonbondedMethod = .LJPME →
      (initializeKernel ext k system force).useSwitchingFunction = false ∧
      ∀ (calls : List (KernelCall S R)) (context : Context S R),
        (configure
          (prepare ext (runCalls ext (initializeKernel ext k system force) calls) context).1
          context
          (prepare ext (runCalls ext (initializeKernel ext k system force) calls)
            context).2).useSwitchingFunction = none) ∧
    (force.nonbondedMethod = .CutoffNonPeriodic ∨ force.nonbondedMethod = .CutoffPeriodic ∨
        force.nonbondedMethod = .Ewald ∨ force.nonbondedMethod = .PME →
      (initializeKernel ext k system force).useSwitchingFunction =
        force.useSwitchingFunction) := by
  have hsw := initializeKernel_useSwitchingFunction ext k system force
  constructor
  · intro hm
    have hoff : (initializeKernel ext k system force).useSwitchingFunction = false := by
      rw [hsw, if_pos (Or.inr hm)]
    refine ⟨hoff, ?_⟩
    intro calls context
    have h1 := runCalls_sameSettings ext (initializeKernel ext k system force) calls
    have h2 := prepare_sameSettings ext
      (runCalls ext (initializeKernel ext k system force) calls) context
    have h3 := (sameSettings_trans _ _ _ h1 h2).2.2.2.2.2.2.2.1
    rw [configure_switching, h3, hoff, prepare_clj_switching]
    rfl
  · intro hm
    rw [hsw]
    rcases hm with h | h | h | h <;> rw [h] <;> rfl

/-- C13: the Ewald state fixed by `initialize` (`ewaldAlpha`, `kmax`, `gridSize`,
`ewaldDispersionAlpha`, `dispersionGridSize`), the nonbonded method and the cutoff are
left unchanged by every `execute` call and every `copyParametersToContext` call,
whether it returns or throws: after any sequence of such calls they have the values
they had before it, and `getPMEParameters` and `getLJPMEParameters` return what they
returned before it. -/
theorem ewald_state_is_frozen (ext : Externals S R) (k : Kernel R)
    (calls : List (KernelCall S R)) :
    (runCalls ext k calls).ewaldAlpha = k.ewaldAlpha ∧
    (runCalls ext k calls).kmax = k.kmax ∧
    (runCalls ext k calls).gridSize = k.gridSize ∧
    (runCalls ext k calls).ewaldDispersionAlpha = k.ewaldDispersionAlpha ∧
    (runCalls ext k calls).dispersionGridSize = k.dispersionGridSize ∧
    (runCalls ext k calls).nonbondedMethod = k.nonbondedMethod ∧
    (runCalls ext k calls).nonbondedCutoff = k.nonbondedCutoff ∧
    getPMEParameters (runCalls ext k calls) = getPMEParameters k ∧
    getLJPMEParameters (runCalls ext k calls) = getLJPMEParameters k := by
  have h := runCalls_sameSettings ext k calls
  obtain ⟨g1, g2⟩ := getPMEParameters_congr k _ h
  obtain ⟨h1, h2, h3, h4, h5, h6, h7, _⟩ := h
  exact ⟨h3, h4, h5, h6, h7, h1, h2, g1, g2⟩

/-- C16: for every force definition, after `initialize` and any sequence of evaluations
and updates, the 1-4 exception evaluator that `execute` builds is given the periodic
box exactly when the force's exceptions-use-periodic-boundary-conditions flag is set
and the method is neither NoCutoff nor CutoffNonPeriodic; in particular it is never
given the box when the flag is unset. -/
theorem exceptions_periodic_after_initialize (ext : Externals S R) (k : Kernel R)
    (system : S) (force : NonbondedForce R) (calls : List (KernelCall S R))
    (context : Context S R) :
    ((initializeKernel ext k system force).exceptionsArePeriodic = true ↔
      (force.exceptionsUsePeriodicBoundaryConditions = true ∧
        force.nonbondedMethod ≠ .NoCutoff ∧ force.nonbondedMethod ≠ .CutoffNonPeriodic)) ∧
    ((exceptionEvaluator
        (prepare ext (runCalls ext (initializeKernel ext k system force) calls) context).1
        context).periodic = some context.periodicBoxVectors ↔
      (force.exceptionsUsePeriodicBoundaryConditions = true ∧
        force.nonbondedMethod ≠ .NoCutoff ∧ force.nonbondedMethod ≠ .CutoffNonPeriodic)) ∧
    (¬ (force.exceptionsUsePeriodicBoundaryConditions = true ∧
        force.nonbondedMethod ≠ .NoCutoff ∧ force.nonbondedMethod ≠ .CutoffNonPeriodic) →
      (exceptionEvaluator
        (prepare ext (runCalls ext (initializeKernel ext k system force) calls) context).1
        context).periodic = none) ∧
    (force.exceptionsUsePeriodicBoundaryConditions = false →
      (exceptionEvaluator
        (prepare ext (runCalls ext (initializeKernel ext k system force) calls) context).1
        context).periodic = none) := by
  have hflag : (initializeKernel ext k system force).exceptionsArePeriodic = true ↔
      (force.exceptionsUsePeriodicBoundaryConditions = true ∧
        force.nonbondedMethod ≠ .NoCutoff ∧ force.nonbondedMethod ≠ .CutoffNonPeriodic) := by
    rw [initializeKernel_exceptionsArePeriodic]
    cases force.nonbondedMethod <;> simp
  have h1 := runCalls_sameSettings ext (initializeKernel ext k system force) calls
  have h2 := prepare_sameSettings ext
    (runCalls ext (initializeKernel ext k system force) calls) context
  have h3 := (sameSettings_trans _ _ _ h1 h2).2.2.2.2.2.2.2.2.2.2
  have hyes : (initializeKernel ext k system force).exceptionsArePeriodic = true →
      (exceptionEvaluator
        (prepare ext (runCalls ext (initializeKernel ext k system force) calls) context).1
        context).periodic = some context.periodicBoxVectors := by
    intro h
    unfold exceptionEvaluator
    rw [h3, h]
    rfl
  have hno : ¬ (initializeKernel ext k system force).exceptionsArePeriodic = true →
      (exceptionEvaluator
        (prepare ext (runCalls ext (initializeKernel ext k system force) calls) context).1
        context).periodic = none := by
    intro h
    unfold exceptionEvaluator
    rw [h3, if_neg h]
  refine ⟨hflag, ⟨?_, fun h => hyes (hflag.2 h)⟩, fun h => hno (fun hc => h (hflag.1 hc)),
    fun h => hno (fun hc => ?_)⟩
  · intro h
    by_contra hc
    rw [hno (fun hp => hc (hflag.1 hp))] at h
    exact Option.noConfusion h
  · rw [(hflag.1 hc).1] at h
    exact Bool.noConfusion h

/-- C14: for every bond list whose particle indices are in range, every position array
and every initial force array, `ReferenceCalcExampleForceKernel::execute` subtracts from
the first particle of each bond the vector it adds to the second, and the vector sum of
all per-particle forces after the call equals the vector sum before it. -/
theorem example_execute_conserves_total_force (sqrt : R → R) (kern : ExampleKernel R)
    (context : Context S R)
    (hrange : ∀ i, i < kern.particle1.length →
      kern.particle1.getD i 0 < context.forces.length ∧
        kern.particle2.getD i 0 < context.forces.length) :
    (∀ (i : Nat) (st : ExampleRun R),
      (kern.bondStep sqrt context.positions i st).forces =
        (st.forces.modify
          (fun f => f.sub (Vec3.scale (kern.bondDEdR sqrt context.positions i)
            (kern.bondDelta context.positions i)))
          (kern.particle1.getD i 0)).modify
          (fun f => f.add (Vec3.scale (kern.bondDEdR sqrt context.positions i)
            (kern.bondDelta context.positions i)))
          (kern.particle2.getD i 0)) ∧
    (kern.execute sqrt context).forces.length = context.forces.length ∧
    totalForce (kern.execute sqrt context).forces = totalForce context.forces := by
  refine ⟨fun _ _ => rfl, ?_⟩
  exact execute_loop_forces sqrt kern context.positions
    { forces := context.forces, energy := 0, divisors := [] } kern.particle1.length
    (le_refl _) hrange

/-- C14, witness: one bond between particles 0 and 1, two particles with zero initial
forces. -/
theorem example_execute_conserves_total_force_witness :
    (∀ i, i < (emptyExampleKernel.initializeKernel singleBondForce).particle1.length →
      (emptyExampleKernel.initializeKernel singleBondForce).particle1.getD i 0 <
          (sampleContext nearPositions 10 1).forces.length ∧
        (emptyExampleKernel.initializeKernel singleBondForce).particle2.getD i 0 <
          (sampleContext nearPositions 10 1).forces.length) ∧
    totalForce ((emptyExampleKernel.initializeKernel singleBondForce).execute Rat.sqrt
      (sampleContext nearPositions 10 1)).forces =
      totalForce (sampleContext nearPositions 10 1).forces := by
  have hrange : ∀ i,
      i < (emptyExampleKernel.initializeKernel singleBondForce).particle1.length →
      (emptyExampleKernel.initializeKernel singleBondForce).particle1.getD i 0 <
          (sampleContext nearPositions 10 1).forces.length ∧
        (emptyExampleKernel.initializeKernel singleBondForce).particle2.getD i 0 <
          (sampleContext nearPositions 10 1).forces.length := by
    intro i hi
    have hlen : (emptyExampleKernel.initializeKernel singleBondForce).particle1.length = 1 := by
      decide!
    rw [hlen] at hi
    have hi0 : i = 0 := by omega
    subst hi0
    decide!
  exact ⟨hrange, (example_execute_conserves_total_force Rat.sqrt _ _ hrange).2.2⟩

/-- C15: for every bond `i` of the kernel whose two particles have identical positions
(with a square root that maps 0 to 0), `ReferenceCalcExampleForceKernel::execute` performs
no division for that bond and gives `dEdR` the value 0, its loop body leaves every force
entry as it was and adds `k[i]·length[i]^4` to the energy, and no division that the call
performs has the divisor zero.  For the whole call: the force accumulators and the
divisions are those of the call on the kernel without bond `i`, and the returned energy
is larger by `k[i]·length[i]^4`; when every bond is of this kind, the forces after the
call are the forces before it, no division is performed, and the returned energy is the
sum of `k[j]·length[j]^4` over the bonds. -/
theorem example_bond_zero_distance (sqrt : R → R) (kern : ExampleKernel R)
    (context : Context S R) (i : Nat) (hsqrt : sqrt 0 = 0) (hi : i < kern.particle1.length)
    (hpos : context.positions.getD (kern.particle1.getD i 0) ⟨0, 0, 0⟩ =
      context.positions.getD (kern.particle2.getD i 0) ⟨0, 0, 0⟩) :
    kern.bondQuotient sqrt context.positions i = (0, []) ∧
    (∀ st : ExampleRun R,
      (kern.bondStep sqrt context.positions i st).divisors = st.divisors ∧
      (kern.bondStep sqrt context.positions i st).forces = st.forces ∧
      (kern.bondStep sqrt context.positions i st).energy =
        st.energy + kern.k.getD i 0 * kern.length.getD i 0 ^ 4) ∧
    (∀ d ∈ (kern.execute sqrt context).divisors, d ≠ 0) ∧
    (kern.execute sqrt context).forces = ((kern.withoutBond i).execute sqrt context).forces ∧
    (kern.execute sqrt context).divisors =
      ((kern.withoutBond i).execute sqrt context).divisors ∧
    (kern.execute sqrt context).energy =
      ((kern.withoutBond i).execute sqrt context).energy +
        kern.k.getD i 0 * kern.length.getD i 0 ^ 4 ∧
    ((∀ j, j < kern.particle1.length →
        context.positions.getD (kern.particle1.getD j 0) ⟨0, 0, 0⟩ =
          context.positions.getD (kern.particle2.getD j 0) ⟨0, 0, 0⟩) →
      (kern.execute sqrt context).forces = context.forces ∧
      (kern.execute sqrt context).divisors = [] ∧
      (kern.execute sqrt context).energy =
        ((List.range kern.particle1.length).map
          (fun j => kern.k.getD j 0 * kern.length.getD j 0 ^ 4)).sum) := by
  have hstep := fun st => bondStep_coincident sqrt hsqrt kern context.positions i st hpos
  obtain ⟨e1, e2, e3⟩ := execute_withoutBond sqrt kern context i hi hstep
  refine ⟨(bondQuotient_coincident sqrt hsqrt kern context.positions i hpos).2.2, ?_, ?_,
    e1, e2, e3, ?_⟩
  · intro st
    rw [hstep st]
    exact ⟨rfl, rfl, rfl⟩
  · intro d hd
    exact ne_of_gt (execute_loop_divisors sqrt kern context.positions
      { forces := context.forces, energy := 0, divisors := [] } kern.particle1.length
      (fun d hd => absurd hd (List.not_mem_nil d)) d hd)
  · intro hall
    have h := execute_loop_all_coincident sqrt kern context.positions
      { forces := context.forces, energy := 0, divisors := [] } kern.particle1.length
      (fun j hj s => bondStep_coincident sqrt hsqrt kern context.positions j s (hall j hj))
    unfold ExampleKernel.execute
    rw [h]
    exact ⟨rfl, rfl, zero_add _⟩

/-- C15, witness: two bonds over three particles, the first bond between two particles
that are both at (1, 2, 3), the second of pair distance 5.  The call divides once, by 5,
and its forces and divisions are those of the call with the second bond alone. -/
theorem example_bond_zero_distance_witness :
    Rat.sqrt 0 = 0 ∧
    0 < (emptyExampleKernel.initializeKernel twoBondForce).particle1.length ∧
    (sampleContext overlapPositions 10 1).positions.getD
        ((emptyExampleKernel.initializeKernel twoBondForce).particle1.getD 0 0) ⟨0, 0, 0⟩ =
      (sampleContext overlapPositions 10 1).positions.getD
        ((emptyExampleKernel.initializeKernel twoBondForce).particle2.getD 0 0) ⟨0, 0, 0⟩ ∧
    (emptyExampleKernel.initializeKernel twoBondForce).bondQuotient Rat.sqrt
      (sampleContext overlapPositions 10 1).positions 0 = (0, []) ∧
    ((emptyExampleKernel.initializeKernel twoBondForce).execute Rat.sqrt
      (sampleContext overlapPositions 10 1)).divisors = [5] ∧
    ((emptyExampleKernel.initializeKernel twoBondForce).execute Rat.sqrt
      (sampleContext overlapPositions 10 1)).forces =
      (((emptyExampleKernel.initializeKernel twoBondForce).withoutBond 0).execute Rat.sqrt
        (sampleContext overlapPositions 10 1)).forces ∧
    ((emptyExampleKernel.initializeKernel twoBondForce).execute Rat.sqrt
      (sampleContext overlapPositions 10 1)).energy =
      (((emptyExampleKernel.initializeKernel twoBondForce).withoutBond 0).execute Rat.sqrt
        (sampleContext overlapPositions 10 1)).energy + 1 := by
  have hsqrt : Rat.sqrt 0 = 0 := by decide
  have hi : 0 < (emptyExampleKernel.initializeKernel twoBondForce).particle1.length := by
    decide!
  have hpos : (sampleContext overlapPositions 10 1).positions.getD
        ((emptyExampleKernel.initializeKernel twoBondForce).particle1.getD 0 0) ⟨0, 0, 0⟩ =
      (sampleContext overlapPositions 10 1).positions.getD
        ((emptyExampleKernel.initializeKernel twoBondForce).particle2.getD 0 0) ⟨0, 0, 0⟩ :=
    rfl
  have h := example_bond_zero_distance Rat.sqrt
    (emptyExampleKernel.initializeKernel twoBondForce) (sampleContext overlapPositions 10 1) 0
    hsqrt hi hpos
  refine ⟨hsqrt, hi, hpos, h.1, ?_, h.2.2.2.1, h.2.2.2.2.2.1.trans ?_⟩
  · decide!
  · decide!

/-- C18 (as amended): when `ReferenceCalcExampleForceKernel::copyParametersToContext`
fails because the number of bonds has changed, the kernel is exactly what it was before
the call; when it fails because a particle index of bond `i` has changed (`i` being the
first such bond), the stored particle indices are what they were, the stored lengths
and force constants of the bonds after `i` are what they were, and those of the bonds up
to and including `i` have been overwritten with the values of the new force. -/
theorem example_copy_failure_state (kern : ExampleKernel R) (force : ExampleForce R) :
    (force.getNumBonds ≠ kern.particle1.length →
      kern.copyParametersToContext force =
        .error "updateParametersInContext: The number of Example bonds has changed" kern) ∧
    (∀ i, force.getNumBonds = kern.particle1.length → i < force.getNumBonds →
      (∀ j, j < i →
        ¬ ((force.getBondParameters j).particle1 ≠ kern.particle1.getD j 0 ∨
          (force.getBondParameters j).particle2 ≠ kern.particle2.getD j 0)) →
      ((force.getBondParameters i).particle1 ≠ kern.particle1.getD i 0 ∨
        (force.getBondParameters i).particle2 ≠ kern.particle2.getD i 0) →
      ∃ st, kern.copyParametersToContext force =
          .error "updateParametersInContext: A particle index has changed" st ∧
        st.particle1 = kern.particle1 ∧ st.particle2 = kern.particle2 ∧
        (∀ j, st.length[j]? = (kern.length[j]?).map
          (fun x => if j ≤ i then (force.getBondParameters j).length else x)) ∧
        (∀ j, st.k[j]? = (kern.k[j]?).map
          (fun x => if j ≤ i then (force.getBondParameters j).k else x))) := by
  constructor
  · intro h
    unfold ExampleKernel.copyParametersToContext
    rw [if_pos h]
  · intro i hn hi hmatch hmis
    unfold ExampleKernel.copyParametersToContext
    rw [if_neg (not_not.2 hn), List.range_eq_range']
    obtain ⟨st, h1, h2, h3, h4, h5⟩ := copyLoop_first_mismatch force force.getNumBonds 0 i kern
      (Nat.zero_le i) (by omega) (fun j _ hj => hmatch j hj) hmis
    refine ⟨st, h1, h2, h3, ?_, ?_⟩
    · intro j
      rw [h4 j]
      simp
    · intro j
      rw [h5 j]
      simp

/-- C18, counterexample: the kernel holds one bond (0,1) of length 1 and force constant
1; the update force has the bond (0,2) of length 5 and force constant 7.  The call fails
on the changed particle index, and the stored length and force constant are then 5 and
7, not 1 and 1. -/
theorem example_copy_failure_overwrites :
    (emptyExampleKernel.initializeKernel singleBondForce).length = [1] ∧
    (emptyExampleKernel.initializeKernel singleBondForce).k = [1] ∧
    ((emptyExampleKernel.initializeKernel singleBondForce).copyParametersToContext
      movedBondForce).failed = true ∧
    ((emptyExampleKernel.initializeKernel singleBondForce).copyParametersToContext
      movedBondForce).state.length = [5] ∧
    ((emptyExampleKernel.initializeKernel singleBondForce).copyParametersToContext
      movedBondForce).state.k = [7] := by
  refine ⟨?_, ?_, ?_, ?_, ?_⟩ <;> decide!

/-- C17, failing input: `offsetSecondOfTwoForce` and `offsetFirstOfTwoForce` have the same
particles, exception pairs and offsets; the offset targets exception 1 (pair (1,2)).
The update of the kernel of the first with the second succeeds.  With `lambda = 1` a
kernel freshly initialized from the second force adds the offset to the 1-4 entry of
exception 1, giving charge products 1 and 1; the updated kernel adds it to the entry of
exception 2 (pair (0,2)), giving 0 and 2. -/
theorem copy_keeps_stale_offset_index :
    offsetFirstOfTwoForce.particles = offsetSecondOfTwoForce.particles ∧
    offsetFirstOfTwoForce.exceptions.map (fun e => (e.particle1, e.particle2)) =
      offsetSecondOfTwoForce.exceptions.map (fun e => (e.particle1, e.particle2)) ∧
    offsetFirstOfTwoForce.particleParameterOffsets =
      offsetSecondOfTwoForce.particleParameterOffsets ∧
    offsetFirstOfTwoForce.exceptionParameterOffsets =
      offsetSecondOfTwoForce.exceptionParameterOffsets ∧
    nb14List offsetSecondOfTwoForce = [0, 1] ∧
    nb14List offsetFirstOfTwoForce = [1, 2] ∧
    (copyParametersToContext sampleExternals
      (initializeKernel sampleExternals (Kernel.constructed rawKernel) ()
        offsetSecondOfTwoForce)
      (sampleContext [] 10 1) offsetFirstOfTwoForce).failed = false ∧
    (copyParametersToContext sampleExternals
      (initializeKernel sampleExternals (Kernel.constructed rawKernel) ()
        offsetSecondOfTwoForce)
      (sampleContext [] 10 1) offsetFirstOfTwoForce).state.bonded14IndexArray =
      [[1, 2], [0, 2]] ∧
    (initializeKernel sampleExternals (Kernel.constructed rawKernel) ()
      offsetFirstOfTwoForce).bonded14IndexArray = [[1, 2], [0, 2]] ∧
    (computeParameters sampleExternals.sqrt
      (copyParametersToContext sampleExternals
        (initializeKernel sampleExternals (Kernel.constructed rawKernel) ()
          offsetSecondOfTwoForce)
        (sampleContext [] 10 1) offsetFirstOfTwoForce).state
      (sampleContext [] 10 1)).bonded14ParamArray = [[1, 0, 0], [1, 0, 2]] ∧
    (computeParameters sampleExternals.sqrt
      (initializeKernel sampleExternals (Kernel.constructed rawKernel) ()
        offsetFirstOfTwoForce)
      (sampleContext [] 10 1)).bonded14ParamArray = [[1, 0, 1], [1, 0, 1]] := by
  refine ⟨rfl, by decide, rfl, rfl, ?_, ?_, ?_, ?_, ?_, ?_, ?_⟩ <;> decide!

end Claims

end ExamplePlugin
